import Mathlib

/-!
# Voxel world plugin: Marching Cubes extractor, chunk and chunk registry

A shallow embedding of the C++ sources under
`Plugins/VoxelWorldPlugin/Source/VoxelWorldPlugin`.

Conventions of the embedding:

* `float` scalars and `FVector` components are rationals (`ℚ`); infinities and NaN are
  outside the model, and the literal `0.00001f` is `1/100000`;
* in the coordinate conversions of the world generator (`WorldToChunkPosition`,
  `ChunkToWorldPosition`, `WorldToLocalVoxelPosition`) every `float` operation rounds its
  exact result to IEEE 754 binary32 (`roundFloat`) and the `int32` product wraps modulo
  `2^32` (`wrapInt32`), because rounding and overflow decide what these functions return
  at chunk boundaries; elsewhere arithmetic on `float` is exact;
* other `int32` values are unbounded integers (`Int`), sizes and table indices that the
  code keeps non-negative are `Nat`;
* `TArray<T>` is `List T`, `Add` appends at the end and `Empty` yields `[]`;
* `TMap<K, V>` is an association list with at most one live entry per key (`TMap.Add`
  drops the previous entries of the key);
* in/out reference parameters are taken as arguments and given back in the result;
* an operation that would read outside a fixed-size array, or copy a slot of a local
  array that was never assigned, returns `none`.
-/

namespace VoxelWorld

/-! ## Engine value types -/

/-- Engine type `FVector`: three `float` components. -/
structure FVector where
  X : ℚ
  Y : ℚ
  Z : ℚ
deriving DecidableEq

/-- Engine type `FIntVector`: three `int32` components. -/
structure FIntVector where
  X : Int
  Y : Int
  Z : Int
deriving DecidableEq

/-- Componentwise sum, `FVector::operator+`. -/
def FVector.add (a b : FVector) : FVector := ⟨a.X + b.X, a.Y + b.Y, a.Z + b.Z⟩

/-- The constructor `FVector(int, int, int)` used on lattice coordinates. -/
def FVector.ofInts (x y z : Int) : FVector := ⟨(x : ℚ), (y : ℚ), (z : ℚ)⟩

/-- Engine function `FMath::FloorToInt`. -/
def FloorToInt (q : ℚ) : Int := ⌊q⌋

/-- Engine function `FMath::Abs` on `float`. -/
def FAbs (q : ℚ) : ℚ := if q < 0 then -q else q

/-- The power `2 ^ e` of an integer exponent as a rational. -/
def pow2 (e : Int) : ℚ :=
  if 0 ≤ e then ((2 ^ e.toNat : Nat) : ℚ) else 1 / ((2 ^ (-e).toNat : Nat) : ℚ)

/-- The loop of `log2Floor`: halves `n` until it is below 2, at most `fuel` times. -/
def log2Loop : Nat → Nat → Nat
  | 0, _ => 0
  | fuel + 1, n => if n < 2 then 0 else log2Loop fuel (n / 2) + 1

/-- The position of the leading binary digit of `n`: the largest `k` with `2 ^ k ≤ n`
(and `0` for `n = 0`); `n` halvings always suffice. -/
def log2Floor (n : Nat) : Nat := log2Loop n n

/-- The `float` nearest to a real value: IEEE 754 binary32 rounding, to nearest with ties
to the even significand, 24 significand bits, gradual underflow below `2^-126`. A value
beyond the largest finite `float` would round to an infinity, which has no counterpart
here. -/
def roundFloat (q : ℚ) : ℚ :=
  if q = 0 then 0
  else
    let a := FAbs q
    let e0 : Int := (log2Floor a.num.natAbs : Int) - (log2Floor a.den : Int)
    let e : Int := if a < pow2 e0 then e0 - 1 else e0
    let e : Int := if e < -126 then -126 else e
    let quantum := pow2 (e - 23)
    let m := a / quantum
    let f : Int := ⌊m⌋
    let r : Int :=
      if m - (f : ℚ) < 1 / 2 then f
      else if 1 / 2 < m - (f : ℚ) then f + 1
      else if f % 2 = 0 then f else f + 1
    if q < 0 then -((r : ℚ) * quantum) else (r : ℚ) * quantum

/-- The `int32` result of an integer operation whose exact result is `n`: two's complement
wrap-around modulo `2^32`. -/
def wrapInt32 (n : Int) : Int := (n + 2147483648) % 4294967296 - 2147483648

/-- The conversion of an `int32` operand to `float` in a mixed expression. -/
def floatOfInt (n : Int) : ℚ := roundFloat (n : ℚ)

/-- The `float` product. -/
def floatMul (a b : ℚ) : ℚ := roundFloat (a * b)

/-- The `float` quotient. -/
def floatDiv (a b : ℚ) : ℚ := roundFloat (a / b)

/-- The `float` difference. -/
def floatSub (a b : ℚ) : ℚ := roundFloat (a - b)

/-- The loop header `for (int32 v = 0; v < n; v++)`: the values `v` takes, in order. -/
def forRange (n : Int) : List Int := (List.range n.toNat).map Int.ofNat

/-- Engine call `TArray::Empty`: the array afterwards. -/
def TArray.Empty {α : Type} (_ : List α) : List α := []

/-! ## Tables.h -/

/-- Modelled from the spec: `FVoxelTables::edgeTable[256]` is declared in Tables.h and its
initialiser is not among the sources. These are the published Lorensen-Cline / Bourke
values the spec requires: bit `e` of entry `c` is set when the surface crosses cube
edge `e` in corner configuration `c`. -/
def edgeTable : List Nat := [
  0x000, 0x109, 0x203, 0x30a, 0x406, 0x50f, 0x605, 0x70c,
  0x80c, 0x905, 0xa0f, 0xb06, 0xc0a, 0xd03, 0xe09, 0xf00,
  0x190, 0x099, 0x393, 0x29a, 0x596, 0x49f, 0x795, 0x69c,
  0x99c, 0x895, 0xb9f, 0xa96, 0xd9a, 0xc93, 0xf99, 0xe90,
  0x230, 0x339, 0x033, 0x13a, 0x636, 0x73f, 0x435, 0x53c,
  0xa3c, 0xb35, 0x83f, 0x936, 0xe3a, 0xf33, 0xc39, 0xd30,
  0x3a0, 0x2a9, 0x1a3, 0x0aa, 0x7a6, 0x6af, 0x5a5, 0x4ac,
  0xbac, 0xaa5, 0x9af, 0x8a6, 0xfaa, 0xea3, 0xda9, 0xca0,
  0x460, 0x569, 0x663, 0x76a, 0x066, 0x16f, 0x265, 0x36c,
  0xc6c, 0xd65, 0xe6f, 0xf66, 0x86a, 0x963, 0xa69, 0xb60,
  0x5f0, 0x4f9, 0x7f3, 0x6fa, 0x1f6, 0x0ff, 0x3f5, 0x2fc,
  0xdfc, 0xcf5, 0xfff, 0xef6, 0x9fa, 0x8f3, 0xbf9, 0xaf0,
  0x650, 0x759, 0x453, 0x55a, 0x256, 0x35f, 0x055, 0x15c,
  0xe5c, 0xf55, 0xc5f, 0xd56, 0xa5a, 0xb53, 0x859, 0x950,
  0x7c0, 0x6c9, 0x5c3, 0x4ca, 0x3c6, 0x2cf, 0x1c5, 0x0cc,
  0xfcc, 0xec5, 0xdcf, 0xcc6, 0xbca, 0xac3, 0x9c9, 0x8c0,
  0x8c0, 0x9c9, 0xac3, 0xbca, 0xcc6, 0xdcf, 0xec5, 0xfcc,
  0x0cc, 0x1c5, 0x2cf, 0x3c6, 0x4ca, 0x5c3, 0x6c9, 0x7c0,
  0x950, 0x859, 0xb53, 0xa5a, 0xd56, 0xc5f, 0xf55, 0xe5c,
  0x15c, 0x055, 0x35f, 0x256, 0x55a, 0x453, 0x759, 0x650,
  0xaf0, 0xbf9, 0x8f3, 0x9fa, 0xef6, 0xfff, 0xcf5, 0xdfc,
  0x2fc, 0x3f5, 0x0ff, 0x1f6, 0x6fa, 0x7f3, 0x4f9, 0x5f0,
  0xb60, 0xa69, 0x963, 0x86a, 0xf66, 0xe6f, 0xd65, 0xc6c,
  0x36c, 0x265, 0x16f, 0x066, 0x76a, 0x663, 0x569, 0x460,
  0xca0, 0xda9, 0xea3, 0xfaa, 0x8a6, 0x9af, 0xaa5, 0xbac,
  0x4ac, 0x5a5, 0x6af, 0x7a6, 0x0aa, 0x1a3, 0x2a9, 0x3a0,
  0xd30, 0xc39, 0xf33, 0xe3a, 0x936, 0x83f, 0xb35, 0xa3c,
  0x53c, 0x435, 0x73f, 0x636, 0x13a, 0x033, 0x339, 0x230,
  0xe90, 0xf99, 0xc93, 0xd9a, 0xa96, 0xb9f, 0x895, 0x99c,
  0x69c, 0x795, 0x49f, 0x596, 0x29a, 0x393, 0x099, 0x190,
  0xf00, 0xe09, 0xd03, 0xc0a, 0xb06, 0xa0f, 0x905, 0x80c,
  0x70c, 0x605, 0x50f, 0x406, 0x30a, 0x203, 0x109, 0x000]

/-- Modelled from the spec: `FVoxelTables::triTable[256][16]` is declared in Tables.h and
its initialiser is not among the sources. These are the published Lorensen-Cline / Bourke
rows the spec requires: up to five triples of edge indices, then `-1` sentinels. -/
def triTable : List (List Int) := [
  ([-1, -1, -1, -1, -1, -1, -1, -1, -1, -1, -1, -1, -1, -1, -1, -1] : List Int),
  ([0, 8, 3, -1, -1, -1, -1, -1, -1, -1, -1, -1, -1, -1, -1, -1] : List Int),
  ([0, 1, 9, -1, -1, -1, -1, -1, -1, -1, -1, -1, -1, -1, -1, -1] : List Int),
  ([1, 8, 3, 9, 8, 1, -1, -1, -1, -1, -1, -1, -1, -1, -1, -1] : List Int),
  ([1, 2, 10, -1, -1, -1, -1, -1, -1, -1, -1, -1, -1, -1, -1, -1] : List Int),
  ([0, 8, 3, 1, 2, 10, -1, -1, -1, -1, -1, -1, -1, -1, -1, -1] : List Int),
  ([9, 2, 10, 0, 2, 9, -1, -1, -1, -1, -1, -1, -1, -1, -1, -1] : List Int),
  ([2, 8, 3, 2, 10, 8, 10, 9, 8, -1, -1, -1, -1, -1, -1, -1] : List Int),
  ([3, 11, 2, -1, -1, -1, -1, -1, -1, -1, -1, -1, -1, -1, -1, -1] : List Int),
  ([0, 11, 2, 8, 11, 0, -1, -1, -1, -1, -1, -1, -1, -1, -1, -1] : List Int),
  ([1, 9, 0, 2, 3, 11, -1, -1, -1, -1, -1, -1, -1, -1, -1, -1] : List Int),
  ([1, 11, 2, 1, 9, 11, 9, 8, 11, -1, -1, -1, -1, -1, -1, -1] : List Int),
  ([3, 10, 1, 11, 10, 3, -1, -1, -1, -1, -1, -1, -1, -1, -1, -1] : List Int),
  ([0, 10, 1, 0, 8, 10, 8, 11, 10, -1, -1, -1, -1, -1, -1, -1] : List Int),
  ([3, 9, 0, 3, 11, 9, 11, 10, 9, -1, -1, -1, -1, -1, -1, -1] : List Int),
  ([9, 8, 10, 10, 8, 11, -1, -1, -1, -1, -1, -1, -1, -1, -1, -1] : List Int),
  ([4, 7, 8, -1, -1, -1, -1, -1, -1, -1, -1, -1, -1, -1, -1, -1] : List Int),
  ([4, 3, 0, 7, 3, 4, -1, -1, -1, -1, -1, -1, -1, -1, -1, -1] : List Int),
  ([0, 1, 9, 8, 4, 7, -1, -1, -1, -1, -1, -1, -1, -1, -1, -1] : List Int),
  ([4, 1, 9, 4, 7, 1, 7, 3, 1, -1, -1, -1, -1, -1, -1, -1] : List Int),
  ([1, 2, 10, 8, 4, 7, -1, -1, -1, -1, -1, -1, -1, -1, -1, -1] : List Int),
  ([3, 4, 7, 3, 0, 4, 1, 2, 10, -1, -1, -1, -1, -1, -1, -1] : List Int),
  ([9, 2, 10, 9, 0, 2, 8, 4, 7, -1, -1, -1, -1, -1, -1, -1] : List Int),
  ([2, 10, 9, 2, 9, 7, 2, 7, 3, 7, 9, 4, -1, -1, -1, -1] : List Int),
  ([8, 4, 7, 3, 11, 2, -1, -1, -1, -1, -1, -1, -1, -1, -1, -1] : List Int),
  ([11, 4, 7, 11, 2, 4, 2, 0, 4, -1, -1, -1, -1, -1, -1, -1] : List Int),
  ([9, 0, 1, 8, 4, 7, 2, 3, 11, -1, -1, -1, -1, -1, -1, -1] : List Int),
  ([4, 7, 11, 9, 4, 11, 9, 11, 2, 9, 2, 1, -1, -1, -1, -1] : List Int),
  ([3, 10, 1, 3, 11, 10, 7, 8, 4, -1, -1, -1, -1, -1, -1, -1] : List Int),
  ([1, 11, 10, 1, 4, 11, 1, 0, 4, 7, 11, 4, -1, -1, -1, -1] : List Int),
  ([4, 7, 8, 9, 0, 11, 9, 11, 10, 11, 0, 3, -1, -1, -1, -1] : List Int),
  ([4, 7, 11, 4, 11, 9, 9, 11, 10, -1, -1, -1, -1, -1, -1, -1] : List Int),
  ([9, 5, 4, -1, -1, -1, -1, -1, -1, -1, -1, -1, -1, -1, -1, -1] : List Int),
  ([9, 5, 4, 0, 8, 3, -1, -1, -1, -1, -1, -1, -1, -1, -1, -1] : List Int),
  ([0, 5, 4, 1, 5, 0, -1, -1, -1, -1, -1, -1, -1, -1, -1, -1] : List Int),
  ([8, 5, 4, 8, 3, 5, 3, 1, 5, -1, -1, -1, -1, -1, -1, -1] : List Int),
  ([1, 2, 10, 9, 5, 4, -1, -1, -1, -1, -1, -1, -1, -1, -1, -1] : List Int),
  ([3, 0, 8, 1, 2, 10, 4, 9, 5, -1, -1, -1, -1, -1, -1, -1] : List Int),
  ([5, 2, 10, 5, 4, 2, 4, 0, 2, -1, -1, -1, -1, -1, -1, -1] : List Int),
  ([2, 10, 5, 3, 2, 5, 3, 5, 4, 3, 4, 8, -1, -1, -1, -1] : List Int),
  ([9, 5, 4, 2, 3, 11, -1, -1, -1, -1, -1, -1, -1, -1, -1, -1] : List Int),
  ([0, 11, 2, 0, 8, 11, 4, 9, 5, -1, -1, -1, -1, -1, -1, -1] : List Int),
  ([0, 5, 4, 0, 1, 5, 2, 3, 11, -1, -1, -1, -1, -1, -1, -1] : List Int),
  ([2, 1, 5, 2, 5, 8, 2, 8, 11, 4, 8, 5, -1, -1, -1, -1] : List Int),
  ([10, 3, 11, 10, 1, 3, 9, 5, 4, -1, -1, -1, -1, -1, -1, -1] : List Int),
  ([4, 9, 5, 0, 8, 1, 8, 10, 1, 8, 11, 10, -1, -1, -1, -1] : List Int),
  ([5, 4, 0, 5, 0, 11, 5, 11, 10, 11, 0, 3, -1, -1, -1, -1] : List Int),
  ([5, 4, 8, 5, 8, 10, 10, 8, 11, -1, -1, -1, -1, -1, -1, -1] : List Int),
  ([9, 7, 8, 5, 7, 9, -1, -1, -1, -1, -1, -1, -1, -1, -1, -1] : List Int),
  ([9, 3, 0, 9, 5, 3, 5, 7, 3, -1, -1, -1, -1, -1, -1, -1] : List Int),
  ([0, 7, 8, 0, 1, 7, 1, 5, 7, -1, -1, -1, -1, -1, -1, -1] : List Int),
  ([1, 5, 3, 3, 5, 7, -1, -1, -1, -1, -1, -1, -1, -1, -1, -1] : List Int),
  ([9, 7, 8, 9, 5, 7, 10, 1, 2, -1, -1, -1, -1, -1, -1, -1] : List Int),
  ([10, 1, 2, 9, 5, 0, 5, 3, 0, 5, 7, 3, -1, -1, -1, -1] : List Int),
  ([8, 0, 2, 8, 2, 5, 8, 5, 7, 10, 5, 2, -1, -1, -1, -1] : List Int),
  ([2, 10, 5, 2, 5, 3, 3, 5, 7, -1, -1, -1, -1, -1, -1, -1] : List Int),
  ([7, 9, 5, 7, 8, 9, 3, 11, 2, -1, -1, -1, -1, -1, -1, -1] : List Int),
  ([9, 5, 7, 9, 7, 2, 9, 2, 0, 2, 7, 11, -1, -1, -1, -1] : List Int),
  ([2, 3, 11, 0, 1, 8, 1, 7, 8, 1, 5, 7, -1, -1, -1, -1] : List Int),
  ([11, 2, 1, 11, 1, 7, 7, 1, 5, -1, -1, -1, -1, -1, -1, -1] : List Int),
  ([9, 5, 8, 8, 5, 7, 10, 1, 3, 10, 3, 11, -1, -1, -1, -1] : List Int),
  ([5, 7, 0, 5, 0, 9, 7, 11, 0, 1, 0, 10, 11, 10, 0, -1] : List Int),
  ([11, 10, 0, 11, 0, 3, 10, 5, 0, 8, 0, 7, 5, 7, 0, -1] : List Int),
  ([11, 10, 5, 7, 11, 5, -1, -1, -1, -1, -1, -1, -1, -1, -1, -1] : List Int),
  ([10, 6, 5, -1, -1, -1, -1, -1, -1, -1, -1, -1, -1, -1, -1, -1] : List Int),
  ([0, 8, 3, 5, 10, 6, -1, -1, -1, -1, -1, -1, -1, -1, -1, -1] : List Int),
  ([9, 0, 1, 5, 10, 6, -1, -1, -1, -1, -1, -1, -1, -1, -1, -1] : List Int),
  ([1, 8, 3, 1, 9, 8, 5, 10, 6, -1, -1, -1, -1, -1, -1, -1] : List Int),
  ([1, 6, 5, 2, 6, 1, -1, -1, -1, -1, -1, -1, -1, -1, -1, -1] : List Int),
  ([1, 6, 5, 1, 2, 6, 3, 0, 8, -1, -1, -1, -1, -1, -1, -1] : List Int),
  ([9, 6, 5, 9, 0, 6, 0, 2, 6, -1, -1, -1, -1, -1, -1, -1] : List Int),
  ([5, 9, 8, 5, 8, 2, 5, 2, 6, 3, 2, 8, -1, -1, -1, -1] : List Int),
  ([2, 3, 11, 10, 6, 5, -1, -1, -1, -1, -1, -1, -1, -1, -1, -1] : List Int),
  ([11, 0, 8, 11, 2, 0, 10, 6, 5, -1, -1, -1, -1, -1, -1, -1] : List Int),
  ([0, 1, 9, 2, 3, 11, 5, 10, 6, -1, -1, -1, -1, -1, -1, -1] : List Int),
  ([5, 10, 6, 1, 9, 2, 9, 11, 2, 9, 8, 11, -1, -1, -1, -1] : List Int),
  ([6, 3, 11, 6, 5, 3, 5, 1, 3, -1, -1, -1, -1, -1, -1, -1] : List Int),
  ([0, 8, 11, 0, 11, 5, 0, 5, 1, 5, 11, 6, -1, -1, -1, -1] : List Int),
  ([3, 11, 6, 0, 3, 6, 0, 6, 5, 0, 5, 9, -1, -1, -1, -1] : List Int),
  ([6, 5, 9, 6, 9, 11, 11, 9, 8, -1, -1, -1, -1, -1, -1, -1] : List Int),
  ([5, 10, 6, 4, 7, 8, -1, -1, -1, -1, -1, -1, -1, -1, -1, -1] : List Int),
  ([4, 3, 0, 4, 7, 3, 6, 5, 10, -1, -1, -1, -1, -1, -1, -1] : List Int),
  ([1, 9, 0, 5, 10, 6, 8, 4, 7, -1, -1, -1, -1, -1, -1, -1] : List Int),
  ([10, 6, 5, 1, 9, 7, 1, 7, 3, 7, 9, 4, -1, -1, -1, -1] : List Int),
  ([6, 1, 2, 6, 5, 1, 4, 7, 8, -1, -1, -1, -1, -1, -1, -1] : List Int),
  ([1, 2, 5, 5, 2, 6, 3, 0, 4, 3, 4, 7, -1, -1, -1, -1] : List Int),
  ([8, 4, 7, 9, 0, 5, 0, 6, 5, 0, 2, 6, -1, -1, -1, -1] : List Int),
  ([7, 3, 9, 7, 9, 4, 3, 2, 9, 5, 9, 6, 2, 6, 9, -1] : List Int),
  ([3, 11, 2, 7, 8, 4, 10, 6, 5, -1, -1, -1, -1, -1, -1, -1] : List Int),
  ([5, 10, 6, 4, 7, 2, 4, 2, 0, 2, 7, 11, -1, -1, -1, -1] : List Int),
  ([0, 1, 9, 4, 7, 8, 2, 3, 11, 5, 10, 6, -1, -1, -1, -1] : List Int),
  ([9, 2, 1, 9, 11, 2, 9, 4, 11, 7, 11, 4, 5, 10, 6, -1] : List Int),
  ([8, 4, 7, 3, 11, 5, 3, 5, 1, 5, 11, 6, -1, -1, -1, -1] : List Int),
  ([5, 1, 11, 5, 11, 6, 1, 0, 11, 7, 11, 4, 0, 4, 11, -1] : List Int),
  ([0, 5, 9, 0, 6, 5, 0, 3, 6, 11, 6, 3, 8, 4, 7, -1] : List Int),
  ([6, 5, 9, 6, 9, 11, 4, 7, 9, 7, 11, 9, -1, -1, -1, -1] : List Int),
  ([10, 4, 9, 6, 4, 10, -1, -1, -1, -1, -1, -1, -1, -1, -1, -1] : List Int),
  ([4, 10, 6, 4, 9, 10, 0, 8, 3, -1, -1, -1, -1, -1, -1, -1] : List Int),
  ([10, 0, 1, 10, 6, 0, 6, 4, 0, -1, -1, -1, -1, -1, -1, -1] : List Int),
  ([8, 3, 1, 8, 1, 6, 8, 6, 4, 6, 1, 10, -1, -1, -1, -1] : List Int),
  ([1, 4, 9, 1, 2, 4, 2, 6, 4, -1, -1, -1, -1, -1, -1, -1] : List Int),
  ([3, 0, 8, 1, 2, 9, 2, 4, 9, 2, 6, 4, -1, -1, -1, -1] : List Int),
  ([0, 2, 4, 4, 2, 6, -1, -1, -1, -1, -1, -1, -1, -1, -1, -1] : List Int),
  ([8, 3, 2, 8, 2, 4, 4, 2, 6, -1, -1, -1, -1, -1, -1, -1] : List Int),
  ([10, 4, 9, 10, 6, 4, 11, 2, 3, -1, -1, -1, -1, -1, -1, -1] : List Int),
  ([0, 8, 2, 2, 8, 11, 4, 9, 10, 4, 10, 6, -1, -1, -1, -1] : List Int),
  ([3, 11, 2, 0, 1, 6, 0, 6, 4, 6, 1, 10, -1, -1, -1, -1] : List Int),
  ([6, 4, 1, 6, 1, 10, 4, 8, 1, 2, 1, 11, 8, 11, 1, -1] : List Int),
  ([9, 6, 4, 9, 3, 6, 9, 1, 3, 11, 6, 3, -1, -1, -1, -1] : List Int),
  ([8, 11, 1, 8, 1, 0, 11, 6, 1, 9, 1, 4, 6, 4, 1, -1] : List Int),
  ([3, 11, 6, 3, 6, 0, 0, 6, 4, -1, -1, -1, -1, -1, -1, -1] : List Int),
  ([6, 4, 8, 11, 6, 8, -1, -1, -1, -1, -1, -1, -1, -1, -1, -1] : List Int),
  ([7, 10, 6, 7, 8, 10, 8, 9, 10, -1, -1, -1, -1, -1, -1, -1] : List Int),
  ([0, 7, 3, 0, 10, 7, 0, 9, 10, 6, 7, 10, -1, -1, -1, -1] : List Int),
  ([10, 6, 7, 1, 10, 7, 1, 7, 8, 1, 8, 0, -1, -1, -1, -1] : List Int),
  ([10, 6, 7, 10, 7, 1, 1, 7, 3, -1, -1, -1, -1, -1, -1, -1] : List Int),
  ([1, 2, 6, 1, 6, 8, 1, 8, 9, 8, 6, 7, -1, -1, -1, -1] : List Int),
  ([2, 6, 9, 2, 9, 1, 6, 7, 9, 0, 9, 3, 7, 3, 9, -1] : List Int),
  ([7, 8, 0, 7, 0, 6, 6, 0, 2, -1, -1, -1, -1, -1, -1, -1] : List Int),
  ([7, 3, 2, 6, 7, 2, -1, -1, -1, -1, -1, -1, -1, -1, -1, -1] : List Int),
  ([2, 3, 11, 10, 6, 8, 10, 8, 9, 8, 6, 7, -1, -1, -1, -1] : List Int),
  ([2, 0, 7, 2, 7, 11, 0, 9, 7, 6, 7, 10, 9, 10, 7, -1] : List Int),
  ([1, 8, 0, 1, 7, 8, 1, 10, 7, 6, 7, 10, 2, 3, 11, -1] : List Int),
  ([11, 2, 1, 11, 1, 7, 10, 6, 1, 6, 7, 1, -1, -1, -1, -1] : List Int),
  ([8, 9, 6, 8, 6, 7, 9, 1, 6, 11, 6, 3, 1, 3, 6, -1] : List Int),
  ([0, 9, 1, 11, 6, 7, -1, -1, -1, -1, -1, -1, -1, -1, -1, -1] : List Int),
  ([7, 8, 0, 7, 0, 6, 3, 11, 0, 11, 6, 0, -1, -1, -1, -1] : List Int),
  ([7, 11, 6, -1, -1, -1, -1, -1, -1, -1, -1, -1, -1, -1, -1, -1] : List Int),
  ([7, 6, 11, -1, -1, -1, -1, -1, -1, -1, -1, -1, -1, -1, -1, -1] : List Int),
  ([3, 0, 8, 11, 7, 6, -1, -1, -1, -1, -1, -1, -1, -1, -1, -1] : List Int),
  ([0, 1, 9, 11, 7, 6, -1, -1, -1, -1, -1, -1, -1, -1, -1, -1] : List Int),
  ([8, 1, 9, 8, 3, 1, 11, 7, 6, -1, -1, -1, -1, -1, -1, -1] : List Int),
  ([10, 1, 2, 6, 11, 7, -1, -1, -1, -1, -1, -1, -1, -1, -1, -1] : List Int),
  ([1, 2, 10, 3, 0, 8, 6, 11, 7, -1, -1, -1, -1, -1, -1, -1] : List Int),
  ([2, 9, 0, 2, 10, 9, 6, 11, 7, -1, -1, -1, -1, -1, -1, -1] : List Int),
  ([6, 11, 7, 2, 10, 3, 10, 8, 3, 10, 9, 8, -1, -1, -1, -1] : List Int),
  ([7, 2, 3, 6, 2, 7, -1, -1, -1, -1, -1, -1, -1, -1, -1, -1] : List Int),
  ([7, 0, 8, 7, 6, 0, 6, 2, 0, -1, -1, -1, -1, -1, -1, -1] : List Int),
  ([2, 7, 6, 2, 3, 7, 0, 1, 9, -1, -1, -1, -1, -1, -1, -1] : List Int),
  ([1, 6, 2, 1, 8, 6, 1, 9, 8, 8, 7, 6, -1, -1, -1, -1] : List Int),
  ([10, 7, 6, 10, 1, 7, 1, 3, 7, -1, -1, -1, -1, -1, -1, -1] : List Int),
  ([10, 7, 6, 1, 7, 10, 1, 8, 7, 1, 0, 8, -1, -1, -1, -1] : List Int),
  ([0, 3, 7, 0, 7, 10, 0, 10, 9, 6, 10, 7, -1, -1, -1, -1] : List Int),
  ([7, 6, 10, 7, 10, 8, 8, 10, 9, -1, -1, -1, -1, -1, -1, -1] : List Int),
  ([6, 8, 4, 11, 8, 6, -1, -1, -1, -1, -1, -1, -1, -1, -1, -1] : List Int),
  ([3, 6, 11, 3, 0, 6, 0, 4, 6, -1, -1, -1, -1, -1, -1, -1] : List Int),
  ([8, 6, 11, 8, 4, 6, 9, 0, 1, -1, -1, -1, -1, -1, -1, -1] : List Int),
  ([9, 4, 6, 9, 6, 3, 9, 3, 1, 11, 3, 6, -1, -1, -1, -1] : List Int),
  ([6, 8, 4, 6, 11, 8, 2, 10, 1, -1, -1, -1, -1, -1, -1, -1] : List Int),
  ([1, 2, 10, 3, 0, 11, 0, 6, 11, 0, 4, 6, -1, -1, -1, -1] : List Int),
  ([4, 11, 8, 4, 6, 11, 0, 2, 9, 2, 10, 9, -1, -1, -1, -1] : List Int),
  ([10, 9, 3, 10, 3, 2, 9, 4, 3, 11, 3, 6, 4, 6, 3, -1] : List Int),
  ([8, 2, 3, 8, 4, 2, 4, 6, 2, -1, -1, -1, -1, -1, -1, -1] : List Int),
  ([0, 4, 2, 4, 6, 2, -1, -1, -1, -1, -1, -1, -1, -1, -1, -1] : List Int),
  ([1, 9, 0, 2, 3, 4, 2, 4, 6, 4, 3, 8, -1, -1, -1, -1] : List Int),
  ([1, 9, 4, 1, 4, 2, 2, 4, 6, -1, -1, -1, -1, -1, -1, -1] : List Int),
  ([8, 1, 3, 8, 6, 1, 8, 4, 6, 6, 10, 1, -1, -1, -1, -1] : List Int),
  ([10, 1, 0, 10, 0, 6, 6, 0, 4, -1, -1, -1, -1, -1, -1, -1] : List Int),
  ([4, 6, 3, 4, 3, 8, 6, 10, 3, 0, 3, 9, 10, 9, 3, -1] : List Int),
  ([10, 9, 4, 6, 10, 4, -1, -1, -1, -1, -1, -1, -1, -1, -1, -1] : List Int),
  ([4, 9, 5, 7, 6, 11, -1, -1, -1, -1, -1, -1, -1, -1, -1, -1] : List Int),
  ([0, 8, 3, 4, 9, 5, 11, 7, 6, -1, -1, -1, -1, -1, -1, -1] : List Int),
  ([5, 0, 1, 5, 4, 0, 7, 6, 11, -1, -1, -1, -1, -1, -1, -1] : List Int),
  ([11, 7, 6, 8, 3, 4, 3, 5, 4, 3, 1, 5, -1, -1, -1, -1] : List Int),
  ([9, 5, 4, 10, 1, 2, 7, 6, 11, -1, -1, -1, -1, -1, -1, -1] : List Int),
  ([6, 11, 7, 1, 2, 10, 0, 8, 3, 4, 9, 5, -1, -1, -1, -1] : List Int),
  ([7, 6, 11, 5, 4, 10, 4, 2, 10, 4, 0, 2, -1, -1, -1, -1] : List Int),
  ([3, 4, 8, 3, 5, 4, 3, 2, 5, 10, 5, 2, 11, 7, 6, -1] : List Int),
  ([7, 2, 3, 7, 6, 2, 5, 4, 9, -1, -1, -1, -1, -1, -1, -1] : List Int),
  ([9, 5, 4, 0, 8, 6, 0, 6, 2, 6, 8, 7, -1, -1, -1, -1] : List Int),
  ([3, 6, 2, 3, 7, 6, 1, 5, 0, 5, 4, 0, -1, -1, -1, -1] : List Int),
  ([6, 2, 8, 6, 8, 7, 2, 1, 8, 4, 8, 5, 1, 5, 8, -1] : List Int),
  ([9, 5, 4, 10, 1, 6, 1, 7, 6, 1, 3, 7, -1, -1, -1, -1] : List Int),
  ([1, 6, 10, 1, 7, 6, 1, 0, 7, 8, 7, 0, 9, 5, 4, -1] : List Int),
  ([4, 0, 10, 4, 10, 5, 0, 3, 10, 6, 10, 7, 3, 7, 10, -1] : List Int),
  ([7, 6, 10, 7, 10, 8, 5, 4, 10, 4, 8, 10, -1, -1, -1, -1] : List Int),
  ([6, 9, 5, 6, 11, 9, 11, 8, 9, -1, -1, -1, -1, -1, -1, -1] : List Int),
  ([3, 6, 11, 0, 6, 3, 0, 5, 6, 0, 9, 5, -1, -1, -1, -1] : List Int),
  ([0, 11, 8, 0, 5, 11, 0, 1, 5, 5, 6, 11, -1, -1, -1, -1] : List Int),
  ([6, 11, 3, 6, 3, 5, 5, 3, 1, -1, -1, -1, -1, -1, -1, -1] : List Int),
  ([1, 2, 10, 9, 5, 11, 9, 11, 8, 11, 5, 6, -1, -1, -1, -1] : List Int),
  ([0, 11, 3, 0, 6, 11, 0, 9, 6, 5, 6, 9, 1, 2, 10, -1] : List Int),
  ([11, 8, 5, 11, 5, 6, 8, 0, 5, 10, 5, 2, 0, 2, 5, -1] : List Int),
  ([6, 11, 3, 6, 3, 5, 2, 10, 3, 10, 5, 3, -1, -1, -1, -1] : List Int),
  ([5, 8, 9, 5, 2, 8, 5, 6, 2, 3, 8, 2, -1, -1, -1, -1] : List Int),
  ([9, 5, 6, 9, 6, 0, 0, 6, 2, -1, -1, -1, -1, -1, -1, -1] : List Int),
  ([1, 5, 8, 1, 8, 0, 5, 6, 8, 3, 8, 2, 6, 2, 8, -1] : List Int),
  ([1, 5, 6, 2, 1, 6, -1, -1, -1, -1, -1, -1, -1, -1, -1, -1] : List Int),
  ([1, 3, 6, 1, 6, 10, 3, 8, 6, 5, 6, 9, 8, 9, 6, -1] : List Int),
  ([10, 1, 0, 10, 0, 6, 9, 5, 0, 5, 6, 0, -1, -1, -1, -1] : List Int),
  ([0, 3, 8, 5, 6, 10, -1, -1, -1, -1, -1, -1, -1, -1, -1, -1] : List Int),
  ([10, 5, 6, -1, -1, -1, -1, -1, -1, -1, -1, -1, -1, -1, -1, -1] : List Int),
  ([11, 5, 10, 7, 5, 11, -1, -1, -1, -1, -1, -1, -1, -1, -1, -1] : List Int),
  ([11, 5, 10, 11, 7, 5, 8, 3, 0, -1, -1, -1, -1, -1, -1, -1] : List Int),
  ([5, 11, 7, 5, 10, 11, 1, 9, 0, -1, -1, -1, -1, -1, -1, -1] : List Int),
  ([10, 7, 5, 10, 11, 7, 9, 8, 1, 8, 3, 1, -1, -1, -1, -1] : List Int),
  ([11, 1, 2, 11, 7, 1, 7, 5, 1, -1, -1, -1, -1, -1, -1, -1] : List Int),
  ([0, 8, 3, 1, 2, 7, 1, 7, 5, 7, 2, 11, -1, -1, -1, -1] : List Int),
  ([9, 7, 5, 9, 2, 7, 9, 0, 2, 2, 11, 7, -1, -1, -1, -1] : List Int),
  ([7, 5, 2, 7, 2, 11, 5, 9, 2, 3, 2, 8, 9, 8, 2, -1] : List Int),
  ([2, 5, 10, 2, 3, 5, 3, 7, 5, -1, -1, -1, -1, -1, -1, -1] : List Int),
  ([8, 2, 0, 8, 5, 2, 8, 7, 5, 10, 2, 5, -1, -1, -1, -1] : List Int),
  ([9, 0, 1, 5, 10, 3, 5, 3, 7, 3, 10, 2, -1, -1, -1, -1] : List Int),
  ([9, 8, 2, 9, 2, 1, 8, 7, 2, 10, 2, 5, 7, 5, 2, -1] : List Int),
  ([1, 3, 5, 3, 7, 5, -1, -1, -1, -1, -1, -1, -1, -1, -1, -1] : List Int),
  ([0, 8, 7, 0, 7, 1, 1, 7, 5, -1, -1, -1, -1, -1, -1, -1] : List Int),
  ([9, 0, 3, 9, 3, 5, 5, 3, 7, -1, -1, -1, -1, -1, -1, -1] : List Int),
  ([9, 8, 7, 5, 9, 7, -1, -1, -1, -1, -1, -1, -1, -1, -1, -1] : List Int),
  ([5, 8, 4, 5, 10, 8, 10, 11, 8, -1, -1, -1, -1, -1, -1, -1] : List Int),
  ([5, 0, 4, 5, 11, 0, 5, 10, 11, 11, 3, 0, -1, -1, -1, -1] : List Int),
  ([0, 1, 9, 8, 4, 10, 8, 10, 11, 10, 4, 5, -1, -1, -1, -1] : List Int),
  ([10, 11, 4, 10, 4, 5, 11, 3, 4, 9, 4, 1, 3, 1, 4, -1] : List Int),
  ([2, 5, 1, 2, 8, 5, 2, 11, 8, 4, 5, 8, -1, -1, -1, -1] : List Int),
  ([0, 4, 11, 0, 11, 3, 4, 5, 11, 2, 11, 1, 5, 1, 11, -1] : List Int),
  ([0, 2, 5, 0, 5, 9, 2, 11, 5, 4, 5, 8, 11, 8, 5, -1] : List Int),
  ([9, 4, 5, 2, 11, 3, -1, -1, -1, -1, -1, -1, -1, -1, -1, -1] : List Int),
  ([2, 5, 10, 3, 5, 2, 3, 4, 5, 3, 8, 4, -1, -1, -1, -1] : List Int),
  ([5, 10, 2, 5, 2, 4, 4, 2, 0, -1, -1, -1, -1, -1, -1, -1] : List Int),
  ([3, 10, 2, 3, 5, 10, 3, 8, 5, 4, 5, 8, 0, 1, 9, -1] : List Int),
  ([5, 10, 2, 5, 2, 4, 1, 9, 2, 9, 4, 2, -1, -1, -1, -1] : List Int),
  ([8, 4, 5, 8, 5, 3, 3, 5, 1, -1, -1, -1, -1, -1, -1, -1] : List Int),
  ([0, 4, 5, 1, 0, 5, -1, -1, -1, -1, -1, -1, -1, -1, -1, -1] : List Int),
  ([8, 4, 5, 8, 5, 3, 9, 0, 5, 0, 3, 5, -1, -1, -1, -1] : List Int),
  ([9, 4, 5, -1, -1, -1, -1, -1, -1, -1, -1, -1, -1, -1, -1, -1] : List Int),
  ([4, 11, 7, 4, 9, 11, 9, 10, 11, -1, -1, -1, -1, -1, -1, -1] : List Int),
  ([0, 8, 3, 4, 9, 7, 9, 11, 7, 9, 10, 11, -1, -1, -1, -1] : List Int),
  ([1, 10, 11, 1, 11, 4, 1, 4, 0, 7, 4, 11, -1, -1, -1, -1] : List Int),
  ([3, 1, 4, 3, 4, 8, 1, 10, 4, 7, 4, 11, 10, 11, 4, -1] : List Int),
  ([4, 11, 7, 9, 11, 4, 9, 2, 11, 9, 1, 2, -1, -1, -1, -1] : List Int),
  ([9, 7, 4, 9, 11, 7, 9, 1, 11, 2, 11, 1, 0, 8, 3, -1] : List Int),
  ([11, 7, 4, 11, 4, 2, 2, 4, 0, -1, -1, -1, -1, -1, -1, -1] : List Int),
  ([11, 7, 4, 11, 4, 2, 8, 3, 4, 3, 2, 4, -1, -1, -1, -1] : List Int),
  ([2, 9, 10, 2, 7, 9, 2, 3, 7, 7, 4, 9, -1, -1, -1, -1] : List Int),
  ([9, 10, 7, 9, 7, 4, 10, 2, 7, 8, 7, 0, 2, 0, 7, -1] : List Int),
  ([3, 7, 10, 3, 10, 2, 7, 4, 10, 1, 10, 0, 4, 0, 10, -1] : List Int),
  ([1, 10, 2, 8, 7, 4, -1, -1, -1, -1, -1, -1, -1, -1, -1, -1] : List Int),
  ([4, 9, 1, 4, 1, 7, 7, 1, 3, -1, -1, -1, -1, -1, -1, -1] : List Int),
  ([4, 9, 1, 4, 1, 7, 0, 8, 1, 8, 7, 1, -1, -1, -1, -1] : List Int),
  ([4, 0, 3, 7, 4, 3, -1, -1, -1, -1, -1, -1, -1, -1, -1, -1] : List Int),
  ([4, 8, 7, -1, -1, -1, -1, -1, -1, -1, -1, -1, -1, -1, -1, -1] : List Int),
  ([9, 10, 8, 10, 11, 8, -1, -1, -1, -1, -1, -1, -1, -1, -1, -1] : List Int),
  ([3, 0, 9, 3, 9, 11, 11, 9, 10, -1, -1, -1, -1, -1, -1, -1] : List Int),
  ([0, 1, 10, 0, 10, 8, 8, 10, 11, -1, -1, -1, -1, -1, -1, -1] : List Int),
  ([3, 1, 10, 11, 3, 10, -1, -1, -1, -1, -1, -1, -1, -1, -1, -1] : List Int),
  ([1, 2, 11, 1, 11, 9, 9, 11, 8, -1, -1, -1, -1, -1, -1, -1] : List Int),
  ([3, 0, 9, 3, 9, 11, 1, 2, 9, 2, 11, 9, -1, -1, -1, -1] : List Int),
  ([0, 2, 11, 8, 0, 11, -1, -1, -1, -1, -1, -1, -1, -1, -1, -1] : List Int),
  ([3, 2, 11, -1, -1, -1, -1, -1, -1, -1, -1, -1, -1, -1, -1, -1] : List Int),
  ([2, 3, 8, 2, 8, 10, 10, 8, 9, -1, -1, -1, -1, -1, -1, -1] : List Int),
  ([9, 10, 2, 0, 9, 2, -1, -1, -1, -1, -1, -1, -1, -1, -1, -1] : List Int),
  ([2, 3, 8, 2, 8, 10, 0, 1, 8, 1, 10, 8, -1, -1, -1, -1] : List Int),
  ([1, 10, 2, -1, -1, -1, -1, -1, -1, -1, -1, -1, -1, -1, -1, -1] : List Int),
  ([1, 3, 8, 9, 1, 8, -1, -1, -1, -1, -1, -1, -1, -1, -1, -1] : List Int),
  ([0, 9, 1, -1, -1, -1, -1, -1, -1, -1, -1, -1, -1, -1, -1, -1] : List Int),
  ([0, 3, 8, -1, -1, -1, -1, -1, -1, -1, -1, -1, -1, -1, -1, -1] : List Int),
  ([-1, -1, -1, -1, -1, -1, -1, -1, -1, -1, -1, -1, -1, -1, -1, -1] : List Int)]

/-- The table lookup `FVoxelTables::edgeTable[cubeIndex]`, `none` outside the 256 entries. -/
def edgeTableAt (cubeIndex : Nat) : Option Nat := edgeTable[cubeIndex]?

/-- The row `FVoxelTables::triTable[cubeIndex]`, `none` outside the 256 rows. -/
def triTableRow (cubeIndex : Nat) : Option (List Int) := triTable[cubeIndex]?

/-! ## MarchingCubes.h / MarchingCubes.cpp -/

/-- The struct `UMarchingCubes::FGridCell`: `Positions[8]` and `Values[8]`. -/
structure FGridCell where
  Positions : Fin 8 → FVector
  Values : Fin 8 → ℚ

/-- Function `UMarchingCubes::InterpolateVertex` (MarchingCubes.cpp:139-157). -/
def InterpolateVertex (P1 P2 : FVector) (Val1 Val2 IsoLevel : ℚ) : FVector :=
  if FAbs (IsoLevel - Val1) < 1 / 100000 then P1
  else if FAbs (IsoLevel - Val2) < 1 / 100000 then P2
  else if FAbs (Val1 - Val2) < 1 / 100000 then P1
  else
    let mu := (IsoLevel - Val1) / (Val2 - Val1)
    ⟨P1.X + mu * (P2.X - P1.X), P1.Y + mu * (P2.Y - P1.Y), P1.Z + mu * (P2.Z - P1.Z)⟩

/-- The eight statements `if (Cell.Values[n] < IsoLevel) cubeIndex |= 2^n`
(MarchingCubes.cpp:76-87). -/
def cubeIndexOf (Cell : FGridCell) (IsoLevel : ℚ) : Nat :=
  let cubeIndex := 0
  let cubeIndex := if Cell.Values 0 < IsoLevel then cubeIndex ||| 1 else cubeIndex
  let cubeIndex := if Cell.Values 1 < IsoLevel then cubeIndex ||| 2 else cubeIndex
  let cubeIndex := if Cell.Values 2 < IsoLevel then cubeIndex ||| 4 else cubeIndex
  let cubeIndex := if Cell.Values 3 < IsoLevel then cubeIndex ||| 8 else cubeIndex
  let cubeIndex := if Cell.Values 4 < IsoLevel then cubeIndex ||| 16 else cubeIndex
  let cubeIndex := if Cell.Values 5 < IsoLevel then cubeIndex ||| 32 else cubeIndex
  let cubeIndex := if Cell.Values 6 < IsoLevel then cubeIndex ||| 64 else cubeIndex
  let cubeIndex := if Cell.Values 7 < IsoLevel then cubeIndex ||| 128 else cubeIndex
  cubeIndex

/-- The local array `vertList[12]` after the twelve guarded assignments
(MarchingCubes.cpp:94-117): slot `e` holds the interpolated point when
`edgeTable[cubeIndex] & (1 << e)` is non-zero and stays unassigned (`none`) otherwise. -/
def vertListOf (Cell : FGridCell) (IsoLevel : ℚ) (edges : Nat) : List (Option FVector) :=
  let P := Cell.Positions
  let V := Cell.Values
  [ if edges &&& 1 ≠ 0 then some (InterpolateVertex (P 0) (P 1) (V 0) (V 1) IsoLevel) else none,
    if edges &&& 2 ≠ 0 then some (InterpolateVertex (P 1) (P 2) (V 1) (V 2) IsoLevel) else none,
    if edges &&& 4 ≠ 0 then some (InterpolateVertex (P 2) (P 3) (V 2) (V 3) IsoLevel) else none,
    if edges &&& 8 ≠ 0 then some (InterpolateVertex (P 3) (P 0) (V 3) (V 0) IsoLevel) else none,
    if edges &&& 16 ≠ 0 then some (InterpolateVertex (P 4) (P 5) (V 4) (V 5) IsoLevel) else none,
    if edges &&& 32 ≠ 0 then some (InterpolateVertex (P 5) (P 6) (V 5) (V 6) IsoLevel) else none,
    if edges &&& 64 ≠ 0 then some (InterpolateVertex (P 6) (P 7) (V 6) (V 7) IsoLevel) else none,
    if edges &&& 128 ≠ 0 then some (InterpolateVertex (P 7) (P 4) (V 7) (V 4) IsoLevel) else none,
    if edges &&& 256 ≠ 0 then some (InterpolateVertex (P 0) (P 4) (V 0) (V 4) IsoLevel) else none,
    if edges &&& 512 ≠ 0 then some (InterpolateVertex (P 1) (P 5) (V 1) (V 5) IsoLevel) else none,
    if edges &&& 1024 ≠ 0 then some (InterpolateVertex (P 2) (P 6) (V 2) (V 6) IsoLevel) else none,
    if edges &&& 2048 ≠ 0 then some (InterpolateVertex (P 3) (P 7) (V 3) (V 7) IsoLevel) else none ]

/-- The read `vertList[e]` for a table entry `e`: `none` when `e` is outside `0..11` or the
slot was never assigned. -/
def vertListAt (vertList : List (Option FVector)) (e : Int) : Option FVector :=
  if e < 0 then none else (vertList[e.toNat]?).join

/-- The triangle loop `for (i = 0; triTable[cubeIndex][i] != -1; i += 3)`
(MarchingCubes.cpp:119-133), run on the part of the row from index `i` on. The result is
`(nTriang, Vertices, Triangles)`; it is `none` when the loop would read past the end of
the row or copy an unassigned `vertList` slot. -/
def triangleLoop (vertList : List (Option FVector)) :
    List Int → Int → List FVector → List Int → Option (Int × List FVector × List Int)
  | [], _, _, _ => none
  | e0 :: rest, nTriang, Vertices, Triangles =>
    if e0 = -1 then some (nTriang, Vertices, Triangles)
    else
      match rest with
      | e1 :: e2 :: rest3 =>
        match vertListAt vertList e0, vertListAt vertList e1, vertListAt vertList e2 with
        | some v0, some v1, some v2 =>
          let baseIndex : Int := Vertices.length
          triangleLoop vertList rest3 (nTriang + 1) (Vertices ++ [v0, v1, v2])
            (Triangles ++ [baseIndex, baseIndex + 1, baseIndex + 2])
        | _, _, _ => none
      | _ => none

/-- Function `UMarchingCubes::PolygonizeCell` (MarchingCubes.cpp:70-136): the returned count with
the `Vertices` and `Triangles` arrays after the call. -/
def PolygonizeCell (Cell : FGridCell) (IsoLevel : ℚ) (Vertices : List FVector)
    (Triangles : List Int) : Option (Int × List FVector × List Int) :=
  let cubeIndex := cubeIndexOf Cell IsoLevel
  match edgeTableAt cubeIndex with
  | none => none
  | some edges =>
    if edges = 0 then some (0, Vertices, Triangles)
    else
      match triTableRow cubeIndex with
      | none => none
      | some row => triangleLoop (vertListOf Cell IsoLevel edges) row 0 Vertices Triangles

/-- The iterations of the three nested corner loops `k`, `j`, `i` (MarchingCubes.cpp:32-36),
outermost first, as triples `(i, j, k)`. -/
def cornerLoop : List (Fin 2 × Fin 2 × Fin 2) :=
  ([0, 1] : List (Fin 2)).flatMap fun k =>
  ([0, 1] : List (Fin 2)).flatMap fun j =>
  ([0, 1] : List (Fin 2)).map fun i => (i, j, k)

/-- The body of the corner loops (MarchingCubes.cpp:38-50) for cell `(x, y, z)`. The array
read `DensityField[index]` is guarded by `index < DensityField.Num()` only; inside the cell
loops `index` is never negative (`flat_index_bounds`). -/
def fillCorner (DensityField : List ℚ) (FieldOrigin : FVector) (FieldSize : FIntVector)
    (IsoLevel : ℚ) (x y z : Int) (cell : FGridCell) (c : Fin 2 × Fin 2 × Fin 2) : FGridCell :=
  let i : Int := c.1.val
  let j : Int := c.2.1.val
  let k : Int := c.2.2.val
  let index : Int := (z + k) * FieldSize.Y * FieldSize.X + (y + j) * FieldSize.X + (x + i)
  let cornerIndex : Fin 8 := ⟨c.2.2.val * 4 + c.2.1.val * 2 + c.1.val, by omega⟩
  { Positions := Function.update cell.Positions cornerIndex
      (FieldOrigin.add (FVector.ofInts (x + i) (y + j) (z + k)))
    Values := Function.update cell.Values cornerIndex
      (if index < DensityField.length then DensityField.getD index.toNat 0
       else IsoLevel - 1) }

/-- The grid cell that `GenerateMeshFromField` builds for `(x, y, z)`
(MarchingCubes.cpp:29-53); the entries of the fresh `FGridCell` start as zero. -/
def makeCell (DensityField : List ℚ) (FieldOrigin : FVector) (FieldSize : FIntVector)
    (IsoLevel : ℚ) (x y z : Int) : FGridCell :=
  cornerLoop.foldl (fillCorner DensityField FieldOrigin FieldSize IsoLevel x y z)
    ⟨fun _ => ⟨0, 0, 0⟩, fun _ => 0⟩

/-- The iterations of the three nested cell loops `z`, `y`, `x` (MarchingCubes.cpp:22-26),
outermost first, as triples `(x, y, z)`. -/
def gridCells (FieldSize : FIntVector) : List (Int × Int × Int) :=
  (forRange (FieldSize.Z - 1)).flatMap fun z =>
  (forRange (FieldSize.Y - 1)).flatMap fun y =>
  (forRange (FieldSize.X - 1)).map fun x => (x, y, z)

/-- One iteration of the cell loops: build the cell and polygonize it into the output. -/
def meshStep (DensityField : List ℚ) (FieldOrigin : FVector) (FieldSize : FIntVector)
    (IsoLevel : ℚ) (acc : List FVector × List Int) (c : Int × Int × Int) :
    Option (List FVector × List Int) :=
  (PolygonizeCell (makeCell DensityField FieldOrigin FieldSize IsoLevel c.1 c.2.1 c.2.2)
    IsoLevel acc.1 acc.2).map fun r => r.2

/-- The output of `GenerateMeshFromField`. -/
structure MeshOutput where
  Vertices : List FVector
  Triangles : List Int
  Normals : List FVector
deriving DecidableEq

/-- Function `UMarchingCubes::GenerateMeshFromField` (MarchingCubes.cpp:7-67). The three output
arrays are in/out parameters: their contents before the call are arguments. -/
def GenerateMeshFromField (DensityField : List ℚ) (FieldOrigin : FVector)
    (FieldSize : FIntVector) (IsoLevel : ℚ) (OutVertices : List FVector)
    (OutTriangles : List Int) (OutNormals : List FVector) : Option MeshOutput :=
  let OutVertices := TArray.Empty OutVertices
  let OutTriangles := TArray.Empty OutTriangles
  let OutNormals := TArray.Empty OutNormals
  match (gridCells FieldSize).foldlM
      (meshStep DensityField FieldOrigin FieldSize IsoLevel) (OutVertices, OutTriangles) with
  | none => none
  | some (OutVertices, OutTriangles) =>
    let OutNormals := TArray.Empty OutNormals
    some ⟨OutVertices, OutTriangles,
      (List.range OutVertices.length).foldl (fun normals _ => normals ++ [⟨0, 0, 1⟩]) OutNormals⟩

/-! ## Engine container `TMap` -/

/-- Engine type `TMap<K, V>`: the entries of the map. -/
abbrev TMap (K V : Type) := List (K × V)

/-- Engine call `TMap::Contains`. -/
def TMap.Contains {K V : Type} [DecidableEq K] (m : TMap K V) (k : K) : Bool :=
  m.any fun e => decide (e.1 = k)

/-- Engine call `TMap::operator[]` / `TMap::Find`: the value stored under `k`, if any. -/
def TMap.Find {K V : Type} [DecidableEq K] (m : TMap K V) (k : K) : Option V :=
  (m.find? fun e => decide (e.1 = k)).map fun e => e.2

/-- Engine call `TMap::Remove`. -/
def TMap.Remove {K V : Type} [DecidableEq K] (m : TMap K V) (k : K) : TMap K V :=
  m.filter fun e => decide (e.1 ≠ k)

/-- Engine call `TMap::Add`: the value replaces whatever the key held before. -/
def TMap.Add {K V : Type} [DecidableEq K] (m : TMap K V) (k : K) (v : V) : TMap K V :=
  (k, v) :: TMap.Remove m k

/-- A write through a pointer or reference to the value stored under `k`
(`Map[k].Field = ...`, or a method called on a stored object). -/
def TMap.Modify {K V : Type} [DecidableEq K] (m : TMap K V) (k : K) (f : V → V) : TMap K V :=
  m.map fun e => if e.1 = k then (e.1, f e.2) else e

/-! ## VoxelData.h / VoxelData.cpp -/

/-- The enum `EVoxelType`. -/
inductive EVoxelType where
  | VT_Empty
  | VT_Solid
  | VT_Water
  | VT_Lava
deriving DecidableEq

/-- The struct `FVoxelStruct`; the member `Type` is spelled `Type_`, and the tag container
is the list of its tag names. -/
structure FVoxelStruct where
  Type_ : EVoxelType
  MaterialID : Int
  Hardness : ℚ
  Tags : List String
  Density : ℚ
deriving DecidableEq

/-- The class `UVoxel`: its data members. -/
structure UVoxel where
  VoxelMap : TMap FVector FVoxelStruct
  LastPosition : FVector
deriving DecidableEq

/-- Function `UVoxel::GetDefaultVoxelStruct` (VoxelData.cpp:25-33). -/
def UVoxel.GetDefaultVoxelStruct : FVoxelStruct :=
  { Type_ := EVoxelType.VT_Solid, MaterialID := 0, Hardness := 1, Tags := [], Density := 1 }

/-- Function `UVoxel::SetVoxel` (VoxelData.cpp:39-47). -/
def UVoxel.SetVoxel (self : UVoxel) (Position : FVector) (Type_ : EVoxelType) : UVoxel :=
  let NewVoxel := UVoxel.GetDefaultVoxelStruct
  let NewVoxel := { NewVoxel with Type_ := Type_ }
  let NewVoxel := { NewVoxel with Density := if Type_ = EVoxelType.VT_Solid then 1 else -1 }
  { self with VoxelMap := TMap.Add self.VoxelMap Position NewVoxel }

/-- Function `UVoxel::GetVoxel` (VoxelData.cpp:61-68). -/
def UVoxel.GetVoxel (self : UVoxel) (Position : FVector) : EVoxelType :=
  if TMap.Contains self.VoxelMap Position then
    match TMap.Find self.VoxelMap Position with
    | some v => v.Type_
    | none => EVoxelType.VT_Empty
  else EVoxelType.VT_Empty

/-! ## VoxelWorldGenerator.h: configuration -/

/-- The struct `FVoxelWorldConfig`. -/
structure FVoxelWorldConfig where
  ChunkSize : Int
  RenderDistance : Int
  VoxelSize : ℚ
  IsoSurfaceValue : ℚ
  NoiseScale : ℚ
  NoiseOctaves : Int
  NoisePersistence : ℚ
  NoiseLacunarity : ℚ
  bUseDensityFields : Bool
deriving DecidableEq

/-- The default constructor of `FVoxelWorldConfig` (VoxelWorldGenerator.h:46-57). -/
def FVoxelWorldConfig.ctor : FVoxelWorldConfig :=
  { ChunkSize := 32, RenderDistance := 8, VoxelSize := 100, IsoSurfaceValue := 0,
    NoiseScale := 1 / 100, NoiseOctaves := 4, NoisePersistence := 1 / 2,
    NoiseLacunarity := 2, bUseDensityFields := true }

/-! ## VoxelChunk.h / VoxelChunk.cpp -/

/-- The struct `FVoxelChunkData`; `Colors` carries the normals written by the extractor. -/
structure FVoxelChunkData where
  Vertices : List FVector
  Triangles : List Int
  UVs : List (ℚ × ℚ)
  Colors : List FVector
deriving DecidableEq

/-- The class `AVoxelChunk`: its data members. `VoxelData` is allocated by the constructor
(VoxelChunk.cpp:22) and never reassigned, so it is held by value; `WorldGenerator` records
whether the pointer of that name is set, and the methods that read
`WorldGenerator->WorldConfig` take that configuration as the argument `Config`. -/
structure AVoxelChunk where
  ChunkPosition : FIntVector
  VoxelData : UVoxel
  WorldGenerator : Bool
  bIsGenerated : Bool
  DensityField : List ℚ
  MeshData : FVoxelChunkData
deriving DecidableEq

/-- The constructor `AVoxelChunk::AVoxelChunk` (VoxelChunk.cpp:9-28). -/
def AVoxelChunk.ctor : AVoxelChunk :=
  { ChunkPosition := ⟨0, 0, 0⟩, VoxelData := ⟨[], ⟨0, 0, 0⟩⟩, WorldGenerator := false,
    bIsGenerated := false, DensityField := [], MeshData := ⟨[], [], [], []⟩ }

/-- Function `AVoxelChunk::UpdateDensityField` (VoxelChunk.cpp:201-226). -/
def AVoxelChunk.UpdateDensityField (self : AVoxelChunk) (Config : FVoxelWorldConfig)
    (LocalPosition : FIntVector) (DensityValue : ℚ) : AVoxelChunk :=
  if !self.WorldGenerator then self
  else if LocalPosition.X < 0 ∨ LocalPosition.X ≥ Config.ChunkSize ∨
      LocalPosition.Y < 0 ∨ LocalPosition.Y ≥ Config.ChunkSize ∨
      LocalPosition.Z < 0 ∨ LocalPosition.Z ≥ Config.ChunkSize then self
  else
    let Index : Int := LocalPosition.Z * Config.ChunkSize * Config.ChunkSize +
      LocalPosition.Y * Config.ChunkSize + LocalPosition.X
    if Index ≥ 0 ∧ Index < self.DensityField.length then
      { self with DensityField := self.DensityField.set Index.toNat DensityValue }
    else self

/-- Function `AVoxelChunk::GetDensityAtLocalPosition` (VoxelChunk.cpp:229-256). -/
def AVoxelChunk.GetDensityAtLocalPosition (self : AVoxelChunk) (Config : FVoxelWorldConfig)
    (LocalPosition : FIntVector) : ℚ :=
  if !self.WorldGenerator then -1
  else if LocalPosition.X < 0 ∨ LocalPosition.X ≥ Config.ChunkSize ∨
      LocalPosition.Y < 0 ∨ LocalPosition.Y ≥ Config.ChunkSize ∨
      LocalPosition.Z < 0 ∨ LocalPosition.Z ≥ Config.ChunkSize then Config.IsoSurfaceValue - 1
  else
    let Index : Int := LocalPosition.Z * Config.ChunkSize * Config.ChunkSize +
      LocalPosition.Y * Config.ChunkSize + LocalPosition.X
    if Index ≥ 0 ∧ Index < self.DensityField.length then
      self.DensityField.getD Index.toNat 0
    else Config.IsoSurfaceValue - 1

/-! ## VoxelWorldGenerator.h / VoxelWorldGenerator.cpp -/

/-- The class `AVoxelWorldGenerator`: its configuration and chunk registry. The registry
owns the chunks: a chunk pointer handed out by the generator designates the entry of
`LoadedChunks` under the chunk coordinate it was looked up or created with. -/
structure AVoxelWorldGenerator where
  WorldConfig : FVoxelWorldConfig
  LoadedChunks : TMap FIntVector AVoxelChunk
deriving DecidableEq

/-- Function `AVoxelWorldGenerator::WorldToChunkPosition` (VoxelWorldGenerator.cpp:131-138):
`ChunkSize` is converted to `float`, and the product and the quotient are `float`
operations. -/
def WorldToChunkPosition (WorldConfig : FVoxelWorldConfig) (WorldPosition : FVector) :
    FIntVector :=
  ⟨FloorToInt (floatDiv WorldPosition.X
      (floatMul (floatOfInt WorldConfig.ChunkSize) WorldConfig.VoxelSize)),
   FloorToInt (floatDiv WorldPosition.Y
      (floatMul (floatOfInt WorldConfig.ChunkSize) WorldConfig.VoxelSize)),
   FloorToInt (floatDiv WorldPosition.Z
      (floatMul (floatOfInt WorldConfig.ChunkSize) WorldConfig.VoxelSize))⟩

/-- Function `AVoxelWorldGenerator::ChunkToWorldPosition` (VoxelWorldGenerator.cpp:154-161):
`ChunkPosition.X * ChunkSize` is an `int32` product, converted to `float` and multiplied
by `VoxelSize` in `float`. -/
def ChunkToWorldPosition (WorldConfig : FVoxelWorldConfig) (ChunkPosition : FIntVector) :
    FVector :=
  ⟨floatMul (floatOfInt (wrapInt32 (ChunkPosition.X * WorldConfig.ChunkSize)))
      WorldConfig.VoxelSize,
   floatMul (floatOfInt (wrapInt32 (ChunkPosition.Y * WorldConfig.ChunkSize)))
      WorldConfig.VoxelSize,
   floatMul (floatOfInt (wrapInt32 (ChunkPosition.Z * WorldConfig.ChunkSize)))
      WorldConfig.VoxelSize⟩

/-- Function `AVoxelWorldGenerator::WorldToLocalVoxelPosition` (VoxelWorldGenerator.cpp:141-151):
the difference and the quotient are `float` operations. -/
def WorldToLocalVoxelPosition (WorldConfig : FVoxelWorldConfig) (WorldPosition : FVector) :
    FIntVector :=
  let ChunkPos := WorldToChunkPosition WorldConfig WorldPosition
  let ChunkWorldPos := ChunkToWorldPosition WorldConfig ChunkPos
  ⟨FloorToInt (floatDiv (floatSub WorldPosition.X ChunkWorldPos.X) WorldConfig.VoxelSize),
   FloorToInt (floatDiv (floatSub WorldPosition.Y ChunkWorldPos.Y) WorldConfig.VoxelSize),
   FloorToInt (floatDiv (floatSub WorldPosition.Z ChunkWorldPos.Z) WorldConfig.VoxelSize)⟩

/-- Function `AVoxelWorldGenerator::GetChunkAtPosition` (VoxelWorldGenerator.cpp:51-58); `none` is
the null pointer. -/
def AVoxelWorldGenerator.GetChunkAtPosition (self : AVoxelWorldGenerator)
    (ChunkPosition : FIntVector) : Option AVoxelChunk :=
  if TMap.Contains self.LoadedChunks ChunkPosition then
    TMap.Find self.LoadedChunks ChunkPosition
  else none

/-- Function `AVoxelWorldGenerator::CreateChunkAtPosition` (VoxelWorldGenerator.cpp:61-87): the
generator afterwards and the chunk returned. `spawnOk` is the outcome of the engine call
`GetWorld()->SpawnActor`: `true` when it returns a freshly constructed chunk, `false` when
it returns null; the spawn transform computed from `ChunkToWorldPosition` only places the
actor in the scene and has no counterpart in the chunk's data members. -/
def AVoxelWorldGenerator.CreateChunkAtPosition (self : AVoxelWorldGenerator) (spawnOk : Bool)
    (ChunkPosition : FIntVector) : AVoxelWorldGenerator × Option AVoxelChunk :=
  if TMap.Contains self.LoadedChunks ChunkPosition then
    (self, TMap.Find self.LoadedChunks ChunkPosition)
  else
    let NewChunk : Option AVoxelChunk := if spawnOk then some AVoxelChunk.ctor else none
    match NewChunk with
    | some NewChunk =>
      let NewChunk := { NewChunk with ChunkPosition := ChunkPosition }
      let NewChunk := { NewChunk with WorldGenerator := true }
      ({ self with LoadedChunks := TMap.Add self.LoadedChunks ChunkPosition NewChunk },
        some NewChunk)
    | none => (self, none)

/-- Function `AVoxelWorldGenerator::GetVoxelAtWorldPosition` (VoxelWorldGenerator.cpp:90-102). -/
def AVoxelWorldGenerator.GetVoxelAtWorldPosition (self : AVoxelWorldGenerator)
    (WorldPosition : FVector) : EVoxelType :=
  let ChunkPos := WorldToChunkPosition self.WorldConfig WorldPosition
  match self.GetChunkAtPosition ChunkPos with
  | some Chunk =>
    let LocalPos := WorldToLocalVoxelPosition self.WorldConfig WorldPosition
    Chunk.VoxelData.GetVoxel (FVector.ofInts LocalPos.X LocalPos.Y LocalPos.Z)
  | none => EVoxelType.VT_Empty

/-- Function `AVoxelWorldGenerator::SetVoxelAtWorldPosition` (VoxelWorldGenerator.cpp:105-120). -/
def AVoxelWorldGenerator.SetVoxelAtWorldPosition (self : AVoxelWorldGenerator)
    (spawnOk : Bool) (WorldPosition : FVector) (Type_ : EVoxelType) : AVoxelWorldGenerator :=
  let ChunkPos := WorldToChunkPosition self.WorldConfig WorldPosition
  let r := match self.GetChunkAtPosition ChunkPos with
    | some Chunk => (self, some Chunk)
    | none => self.CreateChunkAtPosition spawnOk ChunkPos
  match r.2 with
  | some _ =>
    let LocalPos := WorldToLocalVoxelPosition r.1.WorldConfig WorldPosition
    { r.1 with LoadedChunks := TMap.Modify r.1.LoadedChunks ChunkPos fun Chunk =>
        { Chunk with VoxelData :=
            Chunk.VoxelData.SetVoxel (FVector.ofInts LocalPos.X LocalPos.Y LocalPos.Z) Type_ } }
  | none => r.1

/-- Function `AVoxelWorldGenerator::SampleWorldDensity` (VoxelWorldGenerator.cpp:227-239). -/
def AVoxelWorldGenerator.SampleWorldDensity (self : AVoxelWorldGenerator)
    (WorldPosition : FVector) : ℚ :=
  let ChunkPos := WorldToChunkPosition self.WorldConfig WorldPosition
  match self.GetChunkAtPosition ChunkPos with
  | some Chunk =>
    let LocalPos := WorldToLocalVoxelPosition self.WorldConfig WorldPosition
    Chunk.GetDensityAtLocalPosition self.WorldConfig LocalPos
  | none => self.WorldConfig.IsoSurfaceValue - 1

/-- Function `AVoxelWorldGenerator::UpdateWorldDensity` (VoxelWorldGenerator.cpp:242-257). -/
def AVoxelWorldGenerator.UpdateWorldDensity (self : AVoxelWorldGenerator) (spawnOk : Bool)
    (WorldPosition : FVector) (NewDensity : ℚ) : AVoxelWorldGenerator :=
  let ChunkPos := WorldToChunkPosition self.WorldConfig WorldPosition
  let r := match self.GetChunkAtPosition ChunkPos with
    | some Chunk => (self, some Chunk)
    | none => self.CreateChunkAtPosition spawnOk ChunkPos
  match r.2 with
  | some _ =>
    let LocalPos := WorldToLocalVoxelPosition r.1.WorldConfig WorldPosition
    { r.1 with LoadedChunks := TMap.Modify r.1.LoadedChunks ChunkPos fun Chunk =>
        Chunk.UpdateDensityField r.1.WorldConfig LocalPos NewDensity }
  | none => r.1

/-! ## Specification-side definitions -/

/-- The number of edge triples listed before the first `-1` of a `triTable` row. -/
def rowTriangles (row : List Int) : Nat := (row.takeWhile fun e => decide (e ≠ -1)).length / 3

/-- The table-prescribed triangle count of a cell: `rowTriangles` of `triTable[cubeIndex]`. -/
def cellTriangles (Cell : FGridCell) (IsoLevel : ℚ) : Nat :=
  rowTriangles (triTable.getD (cubeIndexOf Cell IsoLevel) [])

/-- The indices `base, base + 1, ..., base + n - 1` as `int32` array entries. -/
def indexRun (base n : Nat) : List Int := (List.range' base n).map Int.ofNat

/-- Whether table entry `e` names a `vertList` slot that `edges` marks as assigned. -/
def slotAssigned (edges : Nat) (e : Int) : Bool :=
  decide (0 ≤ e) && decide (e < 12) && decide (edges &&& 2 ^ e.toNat ≠ 0)

/-- Walks a row the way the triangle loop does: the number of triples read before the
sentinel when every triple names assigned slots and the sentinel is met inside the row. -/
def rowWalk (edges : Nat) : List Int → Option Nat
  | [] => none
  | e0 :: rest =>
    if e0 = -1 then some 0
    else
      match rest with
      | e1 :: e2 :: rest3 =>
        if slotAssigned edges e0 && slotAssigned edges e1 && slotAssigned edges e2 then
          (rowWalk edges rest3).map fun k => k + 1
        else none
      | _ => none

/-- The check of one configuration: both tables have the entry, the row walk succeeds with
the count of `rowTriangles`, and a zero edge mask goes with an empty row. -/
def tableEntryOk (cubeIndex : Nat) : Bool :=
  match edgeTableAt cubeIndex, triTableRow cubeIndex with
  | some edges, some row =>
    decide (rowWalk edges row = some (rowTriangles row)) &&
      (decide (edges ≠ 0) || decide (rowTriangles row = 0))
  | _, _ => false

/-- The sum of the table-prescribed triangle counts over a list of cells. -/
def cellsTriangles (DensityField : List ℚ) (FieldOrigin : FVector) (FieldSize : FIntVector)
    (IsoLevel : ℚ) (cells : List (Int × Int × Int)) : Nat :=
  (cells.map fun c =>
    cellTriangles (makeCell DensityField FieldOrigin FieldSize IsoLevel c.1 c.2.1 c.2.2)
      IsoLevel).sum

/-- The cell with corner densities `[+1,+1,+1,+1,+1,+1,+1,-1]` whose corners sit on the unit
cube in the canonical Marching Cubes order. -/
def oneAirCornerCell : FGridCell :=
  ⟨fun n => ([⟨0, 0, 0⟩, ⟨1, 0, 0⟩, ⟨1, 1, 0⟩, ⟨0, 1, 0⟩, ⟨0, 0, 1⟩, ⟨1, 0, 1⟩, ⟨1, 1, 1⟩,
      ⟨0, 1, 1⟩] : List FVector).getD n.val ⟨0, 0, 0⟩,
   fun n => if n = 7 then -1 else 1⟩

/-! ## VoxelData.cpp: the remaining voxel operations -/

/-- Engine type `FBox`: an axis-aligned box given by its two corners. -/
structure FBox where
  Min : FVector
  Max : FVector
deriving DecidableEq

/-- Engine function `FBox::IsInside`: strict on every axis, so a point on a face, edge or
corner of the box is not inside (the inclusive test of the engine is `IsInsideOrOn`). -/
def FBox.IsInside (self : FBox) (In : FVector) : Bool :=
  decide (In.X > self.Min.X) && decide (In.X < self.Max.X) &&
  decide (In.Y > self.Min.Y) && decide (In.Y < self.Max.Y) &&
  decide (In.Z > self.Min.Z) && decide (In.Z < self.Max.Z)

/-- Function `UVoxel::MakeVoxelStruct` (VoxelData.cpp:10-23). -/
def UVoxel.MakeVoxelStruct (Type_ : EVoxelType) (MaterialID : Int) (Hardness : ℚ)
    (Tags : List String) : FVoxelStruct :=
  { Type_ := Type_, MaterialID := MaterialID, Hardness := Hardness, Tags := Tags,
    Density := if Type_ = EVoxelType.VT_Solid then 1 else -1 }

/-- Function `UVoxel::SetVoxelFull` (VoxelData.cpp:49-59). -/
def UVoxel.SetVoxelFull (self : UVoxel) (Position : FVector) (Type_ : EVoxelType)
    (MaterialID : Int) (Hardness : ℚ) (Tags : List String) : UVoxel :=
  let NewVoxel := UVoxel.MakeVoxelStruct Type_ MaterialID Hardness Tags
  { self with VoxelMap := TMap.Add self.VoxelMap Position NewVoxel }

/-- Function `UVoxel::GetVoxelMaterial` (VoxelData.cpp:70-77). -/
def UVoxel.GetVoxelMaterial (self : UVoxel) (Position : FVector) : Int :=
  if TMap.Contains self.VoxelMap Position then
    match TMap.Find self.VoxelMap Position with
    | some v => v.MaterialID
    | none => 0
  else 0

/-- Function `UVoxel::GetVoxelHardness` (VoxelData.cpp:79-86). -/
def UVoxel.GetVoxelHardness (self : UVoxel) (Position : FVector) : ℚ :=
  if TMap.Contains self.VoxelMap Position then
    match TMap.Find self.VoxelMap Position with
    | some v => v.Hardness
    | none => 0
  else 0

/-- Function `UVoxel::GetVoxelDensity` (VoxelData.cpp:88-95). -/
def UVoxel.GetVoxelDensity (self : UVoxel) (Position : FVector) : ℚ :=
  if TMap.Contains self.VoxelMap Position then
    match TMap.Find self.VoxelMap Position with
    | some v => v.Density
    | none => -1
  else -1

/-- Function `UVoxel::SetVoxelMaterial` (VoxelData.cpp:97-103). -/
def UVoxel.SetVoxelMaterial (self : UVoxel) (Position : FVector) (MaterialID : Int) : UVoxel :=
  if TMap.Contains self.VoxelMap Position then
    { self with VoxelMap := TMap.Modify self.VoxelMap Position fun v =>
        { v with MaterialID := MaterialID } }
  else self

/-- Function `UVoxel::SetVoxelHardness` (VoxelData.cpp:105-111). -/
def UVoxel.SetVoxelHardness (self : UVoxel) (Position : FVector) (Hardness : ℚ) : UVoxel :=
  if TMap.Contains self.VoxelMap Position then
    { self with VoxelMap := TMap.Modify self.VoxelMap Position fun v =>
        { v with Hardness := Hardness } }
  else self

/-- Function `UVoxel::SetVoxelDensity` (VoxelData.cpp:113-119). -/
def UVoxel.SetVoxelDensity (self : UVoxel) (Position : FVector) (Density : ℚ) : UVoxel :=
  if TMap.Contains self.VoxelMap Position then
    { self with VoxelMap := TMap.Modify self.VoxelMap Position fun v =>
        { v with Density := Density } }
  else self

/-- Function `UVoxel::RemoveVoxel` (VoxelData.cpp:121-124). -/
def UVoxel.RemoveVoxel (self : UVoxel) (Position : FVector) : UVoxel :=
  { self with VoxelMap := TMap.Remove self.VoxelMap Position }

/-- Function `UVoxel::IsVoxelOccupied` (VoxelData.cpp:126-129). -/
def UVoxel.IsVoxelOccupied (self : UVoxel) (Position : FVector) : Bool :=
  TMap.Contains self.VoxelMap Position

/-- The body of the loop of `ReplaceVoxelType` (VoxelData.cpp:158-162) on one record. -/
def replaceRecord (OldType NewType : EVoxelType) (v : FVoxelStruct) : FVoxelStruct :=
  if v.Type_ = OldType then
    let v := { v with Type_ := NewType }
    { v with Density := if NewType = EVoxelType.VT_Solid then 1 else -1 }
  else v

/-- Function `UVoxel::ReplaceVoxelType` (VoxelData.cpp:154-164): the loop rewrites the
records of the map in place. -/
def UVoxel.ReplaceVoxelType (self : UVoxel) (OldType NewType : EVoxelType) : UVoxel :=
  { self with VoxelMap := self.VoxelMap.map fun Pair =>
      (Pair.1, replaceRecord OldType NewType Pair.2) }

/-- The loop header `for (float v = lo; v <= hi; v++)`: the values `v` takes, in order. -/
def floatLoop (lo hi : ℚ) : List ℚ :=
  if lo ≤ hi then (List.range (⌊hi - lo⌋.toNat + 1)).map fun i => lo + (i : ℚ) else []

/-- The iterations of the three nested loops `X`, `Y`, `Z` of `FillVoxelRegion`
(VoxelData.cpp:211-213), outermost first. -/
def regionPoints (Region : FBox) : List FVector :=
  (floatLoop Region.Min.X Region.Max.X).flatMap fun X =>
  (floatLoop Region.Min.Y Region.Max.Y).flatMap fun Y =>
  (floatLoop Region.Min.Z Region.Max.Z).map fun Z => ⟨X, Y, Z⟩

/-- Function `UVoxel::FillVoxelRegion` (VoxelData.cpp:209-217). -/
def UVoxel.FillVoxelRegion (self : UVoxel) (Region : FBox) (Type_ : EVoxelType) : UVoxel :=
  (regionPoints Region).foldl (fun s p => s.SetVoxel p Type_) self

/-- Function `UVoxel::ClearVoxelRegion` (VoxelData.cpp:219-235). -/
def UVoxel.ClearVoxelRegion (self : UVoxel) (Region : FBox) : UVoxel :=
  let ToRemove : List FVector :=
    self.VoxelMap.foldl (fun ToRemove Pair =>
      if Region.IsInside Pair.1 then ToRemove ++ [Pair.1] else ToRemove) []
  ToRemove.foldl (fun s Key => { s with VoxelMap := TMap.Remove s.VoxelMap Key }) self

/-- The iterations of the three nested loops `z`, `y`, `x` of `UVoxel::SetDensityField`
(VoxelData.cpp:284-288), outermost first, as triples `(x, y, z)`. -/
def fieldPoints (FieldSize : FIntVector) : List (Int × Int × Int) :=
  (forRange FieldSize.Z).flatMap fun z =>
  (forRange FieldSize.Y).flatMap fun y =>
  (forRange FieldSize.X).map fun x => (x, y, z)

/-- The body of the loops of `UVoxel::SetDensityField` (VoxelData.cpp:290-298): the store
together with the running `Index`. -/
def setDensityStep (DensityField : List ℚ) (acc : UVoxel × Nat) (c : Int × Int × Int) :
    UVoxel × Nat :=
  let self := acc.1
  let Index := acc.2
  let self :=
    if Index < DensityField.length then
      let Position := FVector.ofInts c.1 c.2.1 c.2.2
      let Voxel := UVoxel.GetDefaultVoxelStruct
      let Voxel := { Voxel with Density := DensityField.getD Index 0 }
      let Voxel := { Voxel with
        Type_ := if Voxel.Density > 0 then EVoxelType.VT_Solid else EVoxelType.VT_Empty }
      { self with VoxelMap := TMap.Add self.VoxelMap Position Voxel }
    else self
  (self, Index + 1)

/-- Function `UVoxel::SetDensityField` (VoxelData.cpp:280-302). -/
def UVoxel.SetDensityField (self : UVoxel) (DensityField : List ℚ) (FieldSize : FIntVector) :
    UVoxel :=
  ((fieldPoints FieldSize).foldl (setDensityStep DensityField) (self, 0)).1

/-- Function `UVoxel::UpdateDensityField` (VoxelData.cpp:325-340). -/
def UVoxel.UpdateDensityField (self : UVoxel) (Position : FIntVector) (Value : ℚ)
    (_FieldSize : FIntVector) : UVoxel :=
  let VoxelPos := FVector.ofInts Position.X Position.Y Position.Z
  if TMap.Contains self.VoxelMap VoxelPos then
    let self := { self with VoxelMap := TMap.Modify self.VoxelMap VoxelPos fun v =>
      { v with Density := Value } }
    { self with VoxelMap := TMap.Modify self.VoxelMap VoxelPos fun v =>
      { v with Type_ := if Value > 0 then EVoxelType.VT_Solid else EVoxelType.VT_Empty } }
  else
    let Voxel := UVoxel.GetDefaultVoxelStruct
    let Voxel := { Voxel with Density := Value }
    let Voxel := { Voxel with
      Type_ := if Value > 0 then EVoxelType.VT_Solid else EVoxelType.VT_Empty }
    { self with VoxelMap := TMap.Add self.VoxelMap VoxelPos Voxel }

/-! ## VoxelChunk.cpp: mesh generation -/

/-- Function `AVoxelChunk::InitializeDensityField` (VoxelChunk.cpp:183-198); a negative
`FieldSize` is taken as zero samples. -/
def AVoxelChunk.InitializeDensityField (self : AVoxelChunk) (Config : FVoxelWorldConfig) :
    AVoxelChunk :=
  if !self.WorldGenerator then self
  else
    let FieldSize : Int := Config.ChunkSize * Config.ChunkSize * Config.ChunkSize
    let DensityField := TArray.Empty self.DensityField
    let DensityField := DensityField ++ List.replicate FieldSize.toNat (0 : ℚ)
    let DensityField := (forRange FieldSize).foldl
      (fun D i => D.set i.toNat (Config.IsoSurfaceValue - 1)) DensityField
    { self with DensityField := DensityField }

/-- Function `AVoxelChunk::CreateMeshFromVoxels` (VoxelChunk.cpp:99-103): an empty body. -/
def AVoxelChunk.CreateMeshFromVoxels (self : AVoxelChunk) : AVoxelChunk := self

/-- Function `AVoxelChunk::CreateMeshFromDensityField` (VoxelChunk.cpp:106-136). The result is
`none` when `WorldGenerator` is null at the read of `WorldGenerator->WorldConfig` or when the
extractor fails; `ApplyMesh` only hands the buffers to the render component. -/
def AVoxelChunk.CreateMeshFromDensityField (self : AVoxelChunk) (Config : FVoxelWorldConfig) :
    Option AVoxelChunk :=
  let self := if self.DensityField.length = 0 then self.InitializeDensityField Config else self
  let MeshData : FVoxelChunkData :=
    { Vertices := TArray.Empty self.MeshData.Vertices
      Triangles := TArray.Empty self.MeshData.Triangles
      UVs := TArray.Empty self.MeshData.UVs
      Colors := TArray.Empty self.MeshData.Colors }
  if !self.WorldGenerator then none
  else
    let ChunkWorldPosition := ChunkToWorldPosition Config self.ChunkPosition
    match GenerateMeshFromField self.DensityField ChunkWorldPosition
        ⟨Config.ChunkSize, Config.ChunkSize, Config.ChunkSize⟩ Config.IsoSurfaceValue
        MeshData.Vertices MeshData.Triangles MeshData.Colors with
    | none => none
    | some out =>
      some { self with MeshData :=
        { MeshData with Vertices := out.Vertices, Triangles := out.Triangles,
                        Colors := out.Normals } }

/-- Function `AVoxelChunk::GenerateChunk` (VoxelChunk.cpp:43-55). -/
def AVoxelChunk.GenerateChunk (self : AVoxelChunk) (Config : FVoxelWorldConfig) :
    Option AVoxelChunk :=
  let r := if self.WorldGenerator && Config.bUseDensityFields then
      self.CreateMeshFromDensityField Config
    else some self.CreateMeshFromVoxels
  r.map fun self => { self with bIsGenerated := true }

/-- Function `AVoxelChunk::UpdateChunk` (VoxelChunk.cpp:58-61). -/
def AVoxelChunk.UpdateChunk (self : AVoxelChunk) (Config : FVoxelWorldConfig) :
    Option AVoxelChunk :=
  self.GenerateChunk Config

/-! ## VoxelWorldGenerator.cpp: operations on all chunks -/

/-- The loop of `UpdateChunkMeshes` over the entries of `LoadedChunks`
(VoxelWorldGenerator.cpp:195-201): every stored chunk is updated in place. -/
def updateChunksLoop (Config : FVoxelWorldConfig) :
    List (FIntVector × AVoxelChunk) → Option (List (FIntVector × AVoxelChunk))
  | [] => some []
  | Pair :: rest =>
    match Pair.2.UpdateChunk Config with
    | none => none
    | some Chunk => (updateChunksLoop Config rest).map fun done => (Pair.1, Chunk) :: done

/-- Function `AVoxelWorldGenerator::UpdateChunkMeshes` (VoxelWorldGenerator.cpp:193-202). -/
def AVoxelWorldGenerator.UpdateChunkMeshes (self : AVoxelWorldGenerator) :
    Option AVoxelWorldGenerator :=
  (updateChunksLoop self.WorldConfig self.LoadedChunks).map
    fun LoadedChunks => { self with LoadedChunks := LoadedChunks }

/-- Function `AVoxelWorldGenerator::GenerateChunkDensityField`
(VoxelWorldGenerator.cpp:217-224); the pointer argument is the coordinate of the resident
chunk it designates, `none` for null. -/
def AVoxelWorldGenerator.GenerateChunkDensityField (self : AVoxelWorldGenerator)
    (Chunk : Option FIntVector) : AVoxelWorldGenerator :=
  match Chunk with
  | none => self
  | some ChunkPos =>
    { self with LoadedChunks := TMap.Modify self.LoadedChunks ChunkPos fun Chunk =>
        Chunk.InitializeDensityField self.WorldConfig }

/-- One call of a method of the generator that can change the registry. -/
inductive RegistryStep : AVoxelWorldGenerator → AVoxelWorldGenerator → Prop where
  | create (g : AVoxelWorldGenerator) (spawnOk : Bool) (c : FIntVector) :
      RegistryStep g (g.CreateChunkAtPosition spawnOk c).1
  | setVoxel (g : AVoxelWorldGenerator) (spawnOk : Bool) (w : FVector) (t : EVoxelType) :
      RegistryStep g (g.SetVoxelAtWorldPosition spawnOk w t)
  | updateDensity (g : AVoxelWorldGenerator) (spawnOk : Bool) (w : FVector) (v : ℚ) :
      RegistryStep g (g.UpdateWorldDensity spawnOk w v)
  | updateMeshes (g g1 : AVoxelWorldGenerator) (h : g.UpdateChunkMeshes = some g1) :
      RegistryStep g g1
  | generateDensity (g : AVoxelWorldGenerator) (Chunk : Option FIntVector) :
      RegistryStep g (g.GenerateChunkDensityField Chunk)

/-- The registry states reachable from a generator with no chunk loaded, under any
configuration, by calls of the generator's methods. -/
inductive Reachable : AVoxelWorldGenerator → Prop where
  | init (WorldConfig : FVoxelWorldConfig) : Reachable ⟨WorldConfig, []⟩
  | step (g g1 : AVoxelWorldGenerator) (hg : Reachable g) (hs : RegistryStep g g1) :
      Reachable g1

/-- The registry invariant: no coordinate is stored twice, and every stored chunk carries
the coordinate it is stored under. -/
def RegistryInv (g : AVoxelWorldGenerator) : Prop :=
  (g.LoadedChunks.map fun Pair => Pair.1).Nodup ∧
    ∀ Pair ∈ g.LoadedChunks, Pair.2.ChunkPosition = Pair.1

/-- The record invariant kept by the mutators that set type and density together. -/
def densityMatchesSolid (v : FVoxelStruct) : Prop :=
  v.Density > 0 ↔ v.Type_ = EVoxelType.VT_Solid

/-- The denominator of the division at MarchingCubes.cpp:151 when control reaches it, and
`none` when one of the three guarded returns (lines 144-149) is taken first. -/
def interpolationDenominator (Val1 Val2 IsoLevel : ℚ) : Option ℚ :=
  if FAbs (IsoLevel - Val1) < 1 / 100000 then none
  else if FAbs (IsoLevel - Val2) < 1 / 100000 then none
  else if FAbs (Val1 - Val2) < 1 / 100000 then none
  else some (Val2 - Val1)

/-- The records of `after` are those of `before` or satisfy the record invariant. -/
def writesKeepInvariant (before after : UVoxel) : Prop :=
  ∀ q r, TMap.Find after.VoxelMap q = some r →
    TMap.Find before.VoxelMap q = some r ∨ densityMatchesSolid r

/-! ## VoxelWorldGenerator.cpp: neighbour query -/

/-- The iterations of the three nested loops `X`, `Y`, `Z` of `GetNeighborChunks`
(VoxelWorldGenerator.cpp:169-173), outermost first. -/
def neighborLoop : List (Int × Int × Int) :=
  ([-1, 0, 1] : List Int).flatMap fun X =>
  ([-1, 0, 1] : List Int).flatMap fun Y =>
  ([-1, 0, 1] : List Int).map fun Z => (X, Y, Z)

/-- The body of the loops of `GetNeighborChunks` (VoxelWorldGenerator.cpp:175-184). -/
def neighborStep (self : AVoxelWorldGenerator) (ChunkPosition : FIntVector)
    (Neighbors : List AVoxelChunk) (d : Int × Int × Int) : List AVoxelChunk :=
  if d.1 = 0 ∧ d.2.1 = 0 ∧ d.2.2 = 0 then Neighbors
  else
    let NeighborPos : FIntVector :=
      ⟨ChunkPosition.X + d.1, ChunkPosition.Y + d.2.1, ChunkPosition.Z + d.2.2⟩
    match self.GetChunkAtPosition NeighborPos with
    | some Neighbor => Neighbors ++ [Neighbor]
    | none => Neighbors

/-- Function `AVoxelWorldGenerator::GetNeighborChunks` (VoxelWorldGenerator.cpp:164-190). -/
def AVoxelWorldGenerator.GetNeighborChunks (self : AVoxelWorldGenerator)
    (ChunkPosition : FIntVector) : List AVoxelChunk :=
  neighborLoop.foldl (neighborStep self ChunkPosition) []

/-! ## Specification-side definitions: neighbours, corner bits, generated chunks -/

/-- Adjacency of chunk coordinates as the specification words it: every component of `n`
differs from that of `c` by at most one, and `n` is not `c`. -/
def isAdjacent (c n : FIntVector) : Prop :=
  (-1 ≤ n.X - c.X ∧ n.X - c.X ≤ 1) ∧ (-1 ≤ n.Y - c.Y ∧ n.Y - c.Y ≤ 1) ∧
    (-1 ≤ n.Z - c.Z ∧ n.Z - c.Z ≤ 1) ∧ n ≠ c

/-- The offsets `(dx, dy, dz)` with `dx, dy, dz` in `{-1, 0, 1}`, not all zero. -/
def adjacentOffsets : List (Int × Int × Int) :=
  (([-1, 0, 1] : List Int).flatMap fun dx =>
    ([-1, 0, 1] : List Int).flatMap fun dy =>
    ([-1, 0, 1] : List Int).map fun dz => (dx, dy, dz)).filter
      fun d => decide (d ≠ (0, 0, 0))

/-- The coordinates `c + (dx, dy, dz)` adjacent to `c`. -/
def adjacentCoordinates (c : FIntVector) : List FIntVector :=
  adjacentOffsets.map fun d => ⟨c.X + d.1, c.Y + d.2.1, c.Z + d.2.2⟩

/-- The configuration index built from the eight comparison outcomes, corner 0 first. -/
def cubeIndexBits (b0 b1 b2 b3 b4 b5 b6 b7 : Bool) : Nat :=
  let cubeIndex := 0
  let cubeIndex := if b0 then cubeIndex ||| 1 else cubeIndex
  let cubeIndex := if b1 then cubeIndex ||| 2 else cubeIndex
  let cubeIndex := if b2 then cubeIndex ||| 4 else cubeIndex
  let cubeIndex := if b3 then cubeIndex ||| 8 else cubeIndex
  let cubeIndex := if b4 then cubeIndex ||| 16 else cubeIndex
  let cubeIndex := if b5 then cubeIndex ||| 32 else cubeIndex
  let cubeIndex := if b6 then cubeIndex ||| 64 else cubeIndex
  let cubeIndex := if b7 then cubeIndex ||| 128 else cubeIndex
  cubeIndex

/-- The density field that `CreateMeshFromDensityField` meshes: the chunk's field, or the
freshly initialised one when the chunk's field is empty. -/
def meshedField (c : AVoxelChunk) (Config : FVoxelWorldConfig) : List ℚ :=
  if c.DensityField.length = 0 then (c.InitializeDensityField Config).DensityField
  else c.DensityField

/-- The extractor call of `CreateMeshFromDensityField` on a given density field: the field,
the chunk's world origin, the cubic size and the iso level of the configuration. -/
def extractorOutput (c : AVoxelChunk) (Config : FVoxelWorldConfig) (D : List ℚ) :
    Option MeshOutput :=
  GenerateMeshFromField D (ChunkToWorldPosition Config c.ChunkPosition)
    ⟨Config.ChunkSize, Config.ChunkSize, Config.ChunkSize⟩ Config.IsoSurfaceValue [] [] []

/-- The default configuration with chunks of 2 samples per axis. -/
def smallConfig : FVoxelWorldConfig := { FVoxelWorldConfig.ctor with ChunkSize := 2 }

/-- The default configuration with chunks of 2 samples per axis, in discrete mode. -/
def smallDiscreteConfig : FVoxelWorldConfig :=
  { FVoxelWorldConfig.ctor with ChunkSize := 2, bUseDensityFields := false }

/-- The 2x2x2 field whose only solid sample is the lattice point `(0,0,0)`. -/
def oneSolidCornerField : List ℚ := [1, -1, -1, -1, -1, -1, -1, -1]

/-- The 2x2x2 field that depends on `x` only: `+1` at `x = 0` and `-1` at `x = 1`. -/
def xStepField : List ℚ := [1, -1, 1, -1, 1, -1, 1, -1]

/-- The chunk made by the constructor and attached to a world generator. -/
def attachedChunk : AVoxelChunk := { AVoxelChunk.ctor with WorldGenerator := true }

/-- The attached chunk whose density field is `oneSolidCornerField`. -/
def oneSolidCornerChunk : AVoxelChunk :=
  { attachedChunk with DensityField := oneSolidCornerField }

/-- The attached chunk whose voxel records were written by `UVoxel::SetDensityField` from
`oneSolidCornerField`, with an empty density field. -/
def oneSolidCornerVoxelChunk : AVoxelChunk :=
  { attachedChunk with
    VoxelData := attachedChunk.VoxelData.SetDensityField oneSolidCornerField ⟨2, 2, 2⟩ }

/-- The registry built from the empty one by creating the chunks `(1,0,0)` and `(5,5,5)`. -/
def twoChunkRegistry : AVoxelWorldGenerator :=
  (((⟨FVoxelWorldConfig.ctor, []⟩ : AVoxelWorldGenerator).CreateChunkAtPosition true
    ⟨1, 0, 0⟩).1.CreateChunkAtPosition true ⟨5, 5, 5⟩).1

/-- The attached chunk of size 2 after `GenerateChunk` in field mode: eight air samples, an
empty mesh, and `bIsGenerated` set. -/
def generatedAirChunk : AVoxelChunk :=
  { attachedChunk with DensityField := List.replicate 8 (-1), bIsGenerated := true }

/-- The chunk's mesh is the extractor's output on the chunk's current density field. -/
def meshMatchesField (c : AVoxelChunk) (Config : FVoxelWorldConfig) : Prop :=
  ∃ out : MeshOutput, extractorOutput c Config c.DensityField = some out ∧
    c.MeshData.Vertices = out.Vertices ∧ c.MeshData.Triangles = out.Triangles

/-! ## VoxelChunk.cpp and VoxelData.cpp: the remaining mutators -/

/-- Function `AVoxelChunk::ClearChunk` (VoxelChunk.cpp:64-77); the call on the render
component has no counterpart in the chunk's data members. -/
def AVoxelChunk.ClearChunk (self : AVoxelChunk) : AVoxelChunk :=
  let MeshData : FVoxelChunkData :=
    { Vertices := TArray.Empty self.MeshData.Vertices
      Triangles := TArray.Empty self.MeshData.Triangles
      UVs := TArray.Empty self.MeshData.UVs
      Colors := TArray.Empty self.MeshData.Colors }
  let self := { self with MeshData := MeshData }
  { self with bIsGenerated := false }

/-- Function `UVoxel::DuplicateVoxel` (VoxelData.cpp:178-188); `TargetVoxel` is `none` for
the null pointer. -/
def UVoxel.DuplicateVoxel (self : UVoxel) (TargetVoxel : Option UVoxel)
    (NewPosition : FVector) : UVoxel :=
  match TargetVoxel with
  | none => self
  | some Target =>
    if TMap.Contains self.VoxelMap Target.LastPosition then
      match TMap.Find self.VoxelMap Target.LastPosition with
      | some Copy => { self with VoxelMap := TMap.Add self.VoxelMap NewPosition Copy }
      | none => self
    else self

/-! ## Specification-side definitions: segments, boxes, reachable stores -/

/-- The corner pair that `PolygonizeCell` interpolates for each of the twelve `vertList`
slots (MarchingCubes.cpp:94-117), in slot order. -/
def edgeCorners : List (Fin 8 × Fin 8) :=
  [(0, 1), (1, 2), (2, 3), (3, 0), (4, 5), (5, 6), (6, 7), (7, 4),
   (0, 4), (1, 5), (2, 6), (3, 7)]

/-- The point `P` lies on the closed segment from `P1` to `P2`. -/
def onSegment (P1 P2 P : FVector) : Prop :=
  ∃ t : ℚ, 0 ≤ t ∧ t ≤ 1 ∧
    P = ⟨P1.X + t * (P2.X - P1.X), P1.Y + t * (P2.Y - P1.Y), P1.Z + t * (P2.Z - P1.Z)⟩

/-- The two values lie on opposite sides of the iso level: one strictly below it, the other
at or above it. -/
def oppositeSides (Val1 Val2 IsoLevel : ℚ) : Prop :=
  (Val1 < IsoLevel ∧ IsoLevel ≤ Val2) ∨ (Val2 < IsoLevel ∧ IsoLevel ≤ Val1)

/-- One call of a mutator of the voxel store other than `SetVoxelDensity`. -/
inductive StoreStep : UVoxel → UVoxel → Prop where
  | setVoxel (s : UVoxel) (p : FVector) (t : EVoxelType) : StoreStep s (s.SetVoxel p t)
  | setVoxelFull (s : UVoxel) (p : FVector) (t : EVoxelType) (m : Int) (h : ℚ)
      (tags : List String) : StoreStep s (s.SetVoxelFull p t m h tags)
  | replaceType (s : UVoxel) (old new : EVoxelType) : StoreStep s (s.ReplaceVoxelType old new)
  | fillRegion (s : UVoxel) (R : FBox) (t : EVoxelType) : StoreStep s (s.FillVoxelRegion R t)
  | clearRegion (s : UVoxel) (R : FBox) : StoreStep s (s.ClearVoxelRegion R)
  | removeVoxel (s : UVoxel) (p : FVector) : StoreStep s (s.RemoveVoxel p)
  | setMaterial (s : UVoxel) (p : FVector) (m : Int) : StoreStep s (s.SetVoxelMaterial p m)
  | setHardness (s : UVoxel) (p : FVector) (h : ℚ) : StoreStep s (s.SetVoxelHardness p h)
  | setDensityField (s : UVoxel) (D : List ℚ) (S : FIntVector) :
      StoreStep s (s.SetDensityField D S)
  | updateDensityField (s : UVoxel) (p : FIntVector) (v : ℚ) (S : FIntVector) :
      StoreStep s (s.UpdateDensityField p v S)
  | duplicateVoxel (s : UVoxel) (Target : Option UVoxel) (p : FVector) :
      StoreStep s (s.DuplicateVoxel Target p)

/-- The stores reachable from the empty store by mutators other than `SetVoxelDensity`. -/
inductive StoreReachable : UVoxel → Prop where
  | empty (LastPosition : FVector) : StoreReachable ⟨[], LastPosition⟩
  | step (s s1 : UVoxel) (hs : StoreReachable s) (h : StoreStep s s1) : StoreReachable s1

/-- The store holding one Solid record at the origin. -/
def oneSolidStore : UVoxel := (⟨[], ⟨0, 0, 0⟩⟩ : UVoxel).SetVoxel ⟨0, 0, 0⟩ EVoxelType.VT_Solid

/-- Every stored record has `Density > 0` exactly when its type is Solid. -/
def storeInvariant (s : UVoxel) : Prop :=
  ∀ e ∈ s.VoxelMap, densityMatchesSolid e.2

/-- The store after `SetVoxel((0,0,0), Solid)`, `UpdateDensityField((1,0,0), -2)`,
`UpdateDensityField((0,0,0), 3)` and `ReplaceVoxelType(Empty, Water)` on the empty store. -/
def mixedStore : UVoxel :=
  (((oneSolidStore.UpdateDensityField ⟨1, 0, 0⟩ (-2) ⟨2, 2, 2⟩).UpdateDensityField ⟨0, 0, 0⟩ 3
    ⟨2, 2, 2⟩).ReplaceVoxelType EVoxelType.VT_Empty EVoxelType.VT_Water)

/-- The default configuration with `ChunkSize = 3` and `VoxelSize = 0.1f`. -/
def tenthVoxelConfig : FVoxelWorldConfig :=
  { FVoxelWorldConfig.ctor with ChunkSize := 3, VoxelSize := roundFloat (1 / 10) }

/-- The default configuration with `ChunkSize = 3` and `VoxelSize = 1.1f`. -/
def elevenTenthsVoxelConfig : FVoxelWorldConfig :=
  { FVoxelWorldConfig.ctor with ChunkSize := 3, VoxelSize := roundFloat (11 / 10) }

/-- The world position whose `X` is the `float` `-511.50003` (that is `-511.5 - 2^-15`). -/
def belowChunkEdge : FVector := ⟨-16760833 / 32768, 0, 0⟩

/-- The world position whose `X` is the `float` `-0.00001f`. -/
def justBelowZero : FVector := ⟨roundFloat (-1 / 100000), 0, 0⟩

/-- The world position whose `X` is the `float` `2.24e11`. -/
def farPosition : FVector := ⟨224000000000, 0, 0⟩

/-! ## Lemmas on the Marching Cubes extractor -/

theorem lor_step_lt (p : Prop) [Decidable p] (c m : Nat) (hc : c < 2 ^ 8) (hm : m < 2 ^ 8) :
    (if p then c ||| m else c) < 2 ^ 8 := by
  split
  · exact Nat.or_lt_two_pow hc hm
  · exact hc

theorem cubeIndexOf_lt (Cell : FGridCell) (IsoLevel : ℚ) : cubeIndexOf Cell IsoLevel < 256 := by
  unfold cubeIndexOf
  show _ < 2 ^ 8
  repeat (apply lor_step_lt _ _ _ ?_ (by decide))
  decide

theorem cubeIndexOf_solid (Cell : FGridCell) (IsoLevel : ℚ)
    (h : ∀ n, IsoLevel ≤ Cell.Values n) : cubeIndexOf Cell IsoLevel = 0 := by
  simp [cubeIndexOf, not_lt.mpr (h _)]

theorem cubeIndexOf_single (Cell : FGridCell) (IsoLevel : ℚ) (n : Fin 8)
    (hn : Cell.Values n < IsoLevel) (h : ∀ m, m ≠ n → ¬ Cell.Values m < IsoLevel) :
    cubeIndexOf Cell IsoLevel = 2 ^ n.val := by
  fin_cases n <;> simp [cubeIndexOf] at hn ⊢ <;> simp [hn, h]

theorem tables_ok : (List.range 256).all tableEntryOk = true := by decide!
theorem vertListAt_assigned (Cell : FGridCell) (IsoLevel : ℚ) (edges : Nat) (e : Int)
    (h : slotAssigned edges e = true) :
    ∃ v, vertListAt (vertListOf Cell IsoLevel edges) e = some v := by
  simp only [slotAssigned, Bool.and_eq_true, decide_eq_true_eq] at h
  obtain ⟨⟨h0, h12⟩, hb⟩ := h
  interval_cases e <;> simp [vertListAt, vertListOf] at hb ⊢ <;> simp [hb]

theorem indexRun_append (b n m : Nat) : indexRun b n ++ indexRun (b + n) m = indexRun b (n + m) := by
  unfold indexRun
  rw [← List.map_append, List.range'_append_1, Nat.add_comm]

theorem triangleLoop_of_rowWalk (Cell : FGridCell) (IsoLevel : ℚ) (edges : Nat) :
    ∀ (row : List Int) (k : Nat), rowWalk edges row = some k →
      ∀ (n : Int) (V : List FVector) (T : List Int), ∃ vs : List FVector,
        triangleLoop (vertListOf Cell IsoLevel edges) row n V T =
          some (n + k, V ++ vs, T ++ indexRun V.length vs.length) ∧ vs.length = 3 * k
  | [], k, h, _, _, _ => by simp [rowWalk] at h
  | [e0], k, h, n, V, T => by
    by_cases h0 : e0 = -1
    · simp [rowWalk, h0] at h
      subst h
      exact ⟨[], by simp [triangleLoop, h0, indexRun]⟩
    · simp [rowWalk, h0] at h
  | [e0, e1], k, h, n, V, T => by
    by_cases h0 : e0 = -1
    · simp [rowWalk, h0] at h
      subst h
      exact ⟨[], by simp [triangleLoop, h0, indexRun]⟩
    · simp [rowWalk, h0] at h
  | e0 :: e1 :: e2 :: rest3, k, h, n, V, T => by
    by_cases h0 : e0 = -1
    · simp [rowWalk, h0] at h
      subst h
      exact ⟨[], by simp [triangleLoop, h0, indexRun]⟩
    · simp only [rowWalk, h0, if_false] at h
      split at h
      · rename_i hs
        simp only [Bool.and_eq_true] at hs
        obtain ⟨⟨hs0, hs1⟩, hs2⟩ := hs
        cases hw : rowWalk edges rest3 with
        | none => simp [hw] at h
        | some k1 =>
          simp [hw] at h
          subst h
          obtain ⟨v0, hv0⟩ := vertListAt_assigned Cell IsoLevel edges e0 hs0
          obtain ⟨v1, hv1⟩ := vertListAt_assigned Cell IsoLevel edges e1 hs1
          obtain ⟨v2, hv2⟩ := vertListAt_assigned Cell IsoLevel edges e2 hs2
          obtain ⟨vs, hvs, hlen⟩ := triangleLoop_of_rowWalk Cell IsoLevel edges rest3 k1 hw
            (n + 1) (V ++ [v0, v1, v2])
            (T ++ [(V.length : Int), (V.length : Int) + 1, (V.length : Int) + 2])
          refine ⟨[v0, v1, v2] ++ vs, ?_, ?_⟩
          · have e3 : [(V.length : Int), (V.length : Int) + 1, (V.length : Int) + 2]
                = indexRun V.length 3 := by
              simp only [indexRun, List.range', List.map_cons, List.map_nil, Int.ofNat_eq_coe]
              push_cast
              simp [add_assoc]
            have hT : T ++ [(V.length : Int), (V.length : Int) + 1, (V.length : Int) + 2] ++
                indexRun (V ++ [v0, v1, v2]).length vs.length =
                T ++ indexRun V.length ([v0, v1, v2] ++ vs).length := by
              rw [e3, List.append_assoc]
              have hl : (V ++ [v0, v1, v2]).length = V.length + 3 := by simp
              have hr : ([v0, v1, v2] ++ vs).length = 3 + vs.length := by
                simp only [List.length_append, List.length_cons, List.length_nil]
              rw [hl, indexRun_append, hr]
            have hn : n + 1 + (k1 : Int) = n + ((k1 + 1 : Nat) : Int) := by
              push_cast
              ring
            simp only [triangleLoop, h0, if_false, hv0, hv1, hv2, hvs]
            rw [hT, hn, List.append_assoc]
          · simp [hlen]; omega
      · simp at h

theorem tableEntryOk_of_lt (ci : Nat) (h : ci < 256) : tableEntryOk ci = true := by
  have := tables_ok
  rw [List.all_eq_true] at this
  exact this ci (List.mem_range.mpr h)

theorem PolygonizeCell_spec (Cell : FGridCell) (IsoLevel : ℚ) (V : List FVector)
    (T : List Int) : ∃ vs : List FVector,
      PolygonizeCell Cell IsoLevel V T =
        some ((cellTriangles Cell IsoLevel : Int), V ++ vs, T ++ indexRun V.length vs.length) ∧
      vs.length = 3 * cellTriangles Cell IsoLevel := by
  have hok := tableEntryOk_of_lt _ (cubeIndexOf_lt Cell IsoLevel)
  unfold tableEntryOk at hok
  unfold PolygonizeCell cellTriangles
  cases he : edgeTableAt (cubeIndexOf Cell IsoLevel) with
  | none => simp [he] at hok
  | some edges =>
    cases hr : triTableRow (cubeIndexOf Cell IsoLevel) with
    | none => simp [he, hr] at hok
    | some row =>
      have hrow : triTable.getD (cubeIndexOf Cell IsoLevel) [] = row := by
        unfold triTableRow at hr
        simp [List.getD, hr]
      simp only [he, hr, Bool.and_eq_true, Bool.or_eq_true, decide_eq_true_eq] at hok
      obtain ⟨hwalk, hz⟩ := hok
      simp only [hrow]
      by_cases h0 : edges = 0
      · have hk : rowTriangles row = 0 := by
          rcases hz with hz | hz
          · exact absurd h0 hz
          · exact hz
        exact ⟨[], by simp [he, hr, h0, hk, indexRun], by simp [hk]⟩
      · obtain ⟨vs, hvs, hlen⟩ :=
          triangleLoop_of_rowWalk Cell IsoLevel edges row _ hwalk 0 V T
        exact ⟨vs, by simp [he, hr, h0, hvs], hlen⟩

theorem meshLoop_spec (D : List ℚ) (O : FVector) (S : FIntVector) (iso : ℚ) :
    ∀ (cells : List (Int × Int × Int)) (V : List FVector) (T : List Int),
      ∃ vs : List FVector,
        cells.foldlM (meshStep D O S iso) (V, T) =
          some (V ++ vs, T ++ indexRun V.length vs.length) ∧
        vs.length = 3 * cellsTriangles D O S iso cells
  | [], V, T => ⟨[], by simp [indexRun, cellsTriangles]⟩
  | c :: cells, V, T => by
    obtain ⟨vs1, h1, hl1⟩ := PolygonizeCell_spec (makeCell D O S iso c.1 c.2.1 c.2.2) iso V T
    obtain ⟨vs2, h2, hl2⟩ := meshLoop_spec D O S iso cells (V ++ vs1)
      (T ++ indexRun V.length vs1.length)
    refine ⟨vs1 ++ vs2, ?_, ?_⟩
    · simp only [List.foldlM_cons, meshStep, h1, Option.map_some', Option.bind_eq_bind,
        Option.some_bind, h2]
      simp only [List.length_append, List.append_assoc, indexRun_append]
    · simp only [List.length_append, hl1, hl2, cellsTriangles, List.map_cons, List.sum_cons]
      ring

theorem normals_loop (n : Nat) (N : List FVector) :
    ((List.range n).foldl (fun normals _ => normals ++ [(⟨0, 0, 1⟩ : FVector)]) N) =
      N ++ List.replicate n ⟨0, 0, 1⟩ := by
  induction n generalizing N with
  | zero => simp
  | succ n ih =>
    rw [List.range_succ, List.foldl_append, ih]
    simp [List.replicate_succ']

theorem GenerateMeshFromField_spec (D : List ℚ) (O : FVector) (S : FIntVector) (iso : ℚ)
    (V0 : List FVector) (T0 : List Int) (N0 : List FVector) :
    ∃ vs : List FVector,
      GenerateMeshFromField D O S iso V0 T0 N0 =
        some ⟨vs, indexRun 0 vs.length, List.replicate vs.length ⟨0, 0, 1⟩⟩ ∧
      vs.length = 3 * cellsTriangles D O S iso (gridCells S) := by
  obtain ⟨vs, h, hl⟩ := meshLoop_spec D O S iso (gridCells S) [] []
  refine ⟨vs, ?_, hl⟩
  unfold GenerateMeshFromField
  simp only [TArray.Empty, h, List.nil_append, List.length_nil, normals_loop]

theorem mem_forRange (n v : Int) : v ∈ forRange n ↔ 0 ≤ v ∧ v < n := by
  unfold forRange
  simp only [List.mem_map, List.mem_range, Int.ofNat_eq_coe]
  constructor
  · rintro ⟨a, ha, rfl⟩
    omega
  · rintro ⟨h0, hn⟩
    exact ⟨v.toNat, by omega, by omega⟩

theorem mem_gridCells (S : FIntVector) (c : Int × Int × Int) (h : c ∈ gridCells S) :
    (0 ≤ c.1 ∧ c.1 < S.X - 1) ∧ (0 ≤ c.2.1 ∧ c.2.1 < S.Y - 1) ∧
      (0 ≤ c.2.2 ∧ c.2.2 < S.Z - 1) := by
  unfold gridCells at h
  simp only [List.mem_flatMap, List.mem_map] at h
  obtain ⟨z, hz, y, hy, x, hx, rfl⟩ := h
  exact ⟨(mem_forRange _ _).mp hx, (mem_forRange _ _).mp hy, (mem_forRange _ _).mp hz⟩

theorem flat_index_bounds (X Y Z x y z : Int) (hx : 0 ≤ x ∧ x < X) (hy : 0 ≤ y ∧ y < Y)
    (hz : 0 ≤ z ∧ z < Z) :
    0 ≤ z * Y * X + y * X + x ∧ z * Y * X + y * X + x < X * Y * Z := by
  have hX : 0 ≤ X := by omega
  have hY : 0 ≤ Y := by omega
  have hYX : 0 ≤ Y * X := mul_nonneg hY hX
  have h1 : 0 ≤ z * Y * X := by
    rw [mul_assoc]; exact mul_nonneg hz.1 hYX
  have h2 : 0 ≤ y * X := mul_nonneg hy.1 hX
  have h3 : z * (Y * X) ≤ (Z - 1) * (Y * X) := mul_le_mul_of_nonneg_right (by omega) hYX
  have h4 : y * X ≤ (Y - 1) * X := mul_le_mul_of_nonneg_right (by omega) hX
  constructor
  · omega
  · nlinarith

theorem getD_mem (D : List ℚ) (index : Int) (h0 : 0 ≤ index) (h : index < D.length) :
    D.getD index.toNat 0 ∈ D := by
  have hlt : index.toNat < D.length := by omega
  rw [List.getD_eq_getElem _ _ hlt]
  exact List.getElem_mem hlt

theorem makeCell_Values (D : List ℚ) (O : FVector) (S : FIntVector) (iso : ℚ) (x y z : Int)
    (n : Fin 8) :
    (makeCell D O S iso x y z).Values n =
      if (z + ((n.val / 4 : Nat) : Int)) * S.Y * S.X + (y + ((n.val / 2 % 2 : Nat) : Int)) * S.X +
          (x + ((n.val % 2 : Nat) : Int)) < D.length then
        D.getD ((z + ((n.val / 4 : Nat) : Int)) * S.Y * S.X +
          (y + ((n.val / 2 % 2 : Nat) : Int)) * S.X + (x + ((n.val % 2 : Nat) : Int))).toNat 0
      else iso - 1 := by
  fin_cases n <;> rfl

theorem corner_offsets (n : Fin 8) : (n.val / 4 : Nat) ≤ 1 ∧ (n.val / 2 % 2 : Nat) ≤ 1 ∧ (n.val % 2 : Nat) ≤ 1 := by
  omega

theorem makeCell_Values_cases (D : List ℚ) (O : FVector) (S : FIntVector) (iso : ℚ)
    (c : Int × Int × Int) (hc : c ∈ gridCells S) (n : Fin 8) :
    (∃ index : Int, 0 ≤ index ∧ index < S.X * S.Y * S.Z ∧ index < D.length ∧
        (makeCell D O S iso c.1 c.2.1 c.2.2).Values n = D.getD index.toNat 0) ∨
      (D.length < S.X * S.Y * S.Z ∧ (makeCell D O S iso c.1 c.2.1 c.2.2).Values n = iso - 1) := by
  obtain ⟨hx, hy, hz⟩ := mem_gridCells S c hc
  obtain ⟨o4, o2, o1⟩ := corner_offsets n
  have hb := flat_index_bounds S.X S.Y S.Z (c.1 + ((n.val % 2 : Nat) : Int))
    (c.2.1 + ((n.val / 2 % 2 : Nat) : Int)) (c.2.2 + ((n.val / 4 : Nat) : Int))
    ⟨by omega, by omega⟩ ⟨by omega, by omega⟩ ⟨by omega, by omega⟩
  rw [makeCell_Values]
  split
  · rename_i hlt
    exact Or.inl ⟨_, hb.1, hb.2, hlt, rfl⟩
  · rename_i hge
    exact Or.inr ⟨by omega, rfl⟩

theorem cellsTriangles_zero (D : List ℚ) (O : FVector) (S : FIntVector) (iso : ℚ)
    (cells : List (Int × Int × Int))
    (h : ∀ c ∈ cells, cellTriangles (makeCell D O S iso c.1 c.2.1 c.2.2) iso = 0) :
    cellsTriangles D O S iso cells = 0 := by
  unfold cellsTriangles
  apply List.sum_eq_zero
  intro k hk
  rw [List.mem_map] at hk
  obtain ⟨c, hc, rfl⟩ := hk
  exact h c hc

theorem mesh_empty_of_no_triangles (D : List ℚ) (O : FVector) (S : FIntVector) (iso : ℚ)
    (V0 : List FVector) (T0 : List Int) (N0 : List FVector)
    (h : cellsTriangles D O S iso (gridCells S) = 0) :
    GenerateMeshFromField D O S iso V0 T0 N0 = some ⟨[], [], []⟩ := by
  obtain ⟨vs, hg, hl⟩ := GenerateMeshFromField_spec D O S iso V0 T0 N0
  rw [h] at hl
  have : vs = [] := List.length_eq_zero.mp (by omega)
  subst this
  simpa [indexRun] using hg

theorem single_corner_rows (n : Fin 8) : rowTriangles (triTable.getD (2 ^ n.val) []) = 1 := by
  revert n
  decide!

/-! ## Lemmas on the coordinate transforms and the registry -/

theorem TMap.Contains_eq_isSome {K V : Type} [DecidableEq K] (m : TMap K V) (k : K) :
    TMap.Contains m k = (TMap.Find m k).isSome := by
  induction m with
  | nil => rfl
  | cons e m ih =>
    unfold TMap.Contains TMap.Find at *
    by_cases h : e.1 = k <;> simp [List.find?, h] at ih ⊢
    exact ih

theorem TMap.Find_Modify {K V : Type} [DecidableEq K] (m : TMap K V) (k : K) (f : V → V) :
    TMap.Find (TMap.Modify m k f) k = (TMap.Find m k).map f := by
  induction m with
  | nil => rfl
  | cons e m ih =>
    unfold TMap.Modify TMap.Find at *
    by_cases h : e.1 = k <;> simp [List.find?, h] at ih ⊢
    exact ih

theorem TMap.Find_Add {K V : Type} [DecidableEq K] (m : TMap K V) (k : K) (v : V) :
    TMap.Find (TMap.Add m k v) k = some v := by
  simp [TMap.Find, TMap.Add]

theorem GetChunkAtPosition_eq_Find (g : AVoxelWorldGenerator) (c : FIntVector) :
    g.GetChunkAtPosition c = TMap.Find g.LoadedChunks c := by
  unfold AVoxelWorldGenerator.GetChunkAtPosition
  rw [TMap.Contains_eq_isSome]
  cases TMap.Find g.LoadedChunks c <;> simp

theorem GetVoxel_SetVoxel (s : UVoxel) (p : FVector) (t : EVoxelType) :
    (s.SetVoxel p t).GetVoxel p = t := by
  unfold UVoxel.GetVoxel UVoxel.SetVoxel
  simp only [TMap.Contains_eq_isSome, TMap.Find_Add]
  simp

/-! ## Properties stated by the specification -/

/-- C1 (evaluation of the code): `GenerateMeshFromField` stores the corner at lattice offset
`(i, j, k)` under index `k*4 + j*2 + i`, so corner `n` sits at offset
`(n % 2, n / 2 % 2, n / 4)`: corners 2, 3, 6, 7 are at `(0,1,0)`, `(1,1,0)`, `(0,1,1)`,
`(1,1,1)` and not at the canonical `(1,1,0)`, `(0,1,0)`, `(1,1,1)`, `(0,1,1)`; the pair 1-2
that `PolygonizeCell` interpolates differs on two axes, and the triangle cut around the one
solid sample of a 2x2x2 field has a vertex at `(1/2, 1/2, 0)`, in the middle of a face
diagonal. -/
theorem C1_corners_stored_in_binary_order :
    (∀ (D : List ℚ) (O : FVector) (S : FIntVector) (iso : ℚ) (x y z : Int) (n : Fin 8),
      (makeCell D O S iso x y z).Positions n =
        O.add (FVector.ofInts (x + ((n.val % 2 : Nat) : Int))
          (y + ((n.val / 2 % 2 : Nat) : Int)) (z + ((n.val / 4 : Nat) : Int)))) ∧
    ((makeCell [] ⟨0, 0, 0⟩ ⟨2, 2, 2⟩ 0 0 0 0).Positions 1 = ⟨1, 0, 0⟩ ∧
      (makeCell [] ⟨0, 0, 0⟩ ⟨2, 2, 2⟩ 0 0 0 0).Positions 2 = ⟨0, 1, 0⟩ ∧
      (makeCell [] ⟨0, 0, 0⟩ ⟨2, 2, 2⟩ 0 0 0 0).Positions 3 = ⟨1, 1, 0⟩ ∧
      (makeCell [] ⟨0, 0, 0⟩ ⟨2, 2, 2⟩ 0 0 0 0).Positions 6 = ⟨0, 1, 1⟩ ∧
      (makeCell [] ⟨0, 0, 0⟩ ⟨2, 2, 2⟩ 0 0 0 0).Positions 7 = ⟨1, 1, 1⟩) ∧
    GenerateMeshFromField [1, -1, -1, -1, -1, -1, -1, -1] ⟨0, 0, 0⟩ ⟨2, 2, 2⟩ 0 [] [] [] =
      some ⟨[⟨1 / 2, 0, 0⟩, ⟨1 / 2, 1 / 2, 0⟩, ⟨0, 0, 1 / 2⟩], [0, 1, 2],
        [⟨0, 0, 1⟩, ⟨0, 0, 1⟩, ⟨0, 0, 1⟩]⟩ := by
  refine ⟨?_, by decide!, by decide!⟩
  intro D O S iso x y z n
  fin_cases n <;> rfl

/-- C2 at the failing inputs. With `ChunkSize = 3`, `VoxelSize = 0.1f` and
`w.X = -511.50003` (a `float`), the `float` quotient `w.X / (3 * 0.1f)` rounds to `-1705`,
so `WorldToChunkPosition` returns chunk `-1705` where the exact quotient has floor `-1706`;
the origin the code gives that chunk is `-511.5`, above `w.X`, and `(w - o) / voxelSize` is
negative. With the default configuration and `w.X = 2.24e11` the chunk is `70000000`, the
`int32` product `70000000 * 32` wraps, the origin is `-205496729600`, and
`(w - o) / voxelSize` is not below `chunkSize`. -/
theorem C2_origin_misses_position :
    (tenthVoxelConfig.ChunkSize = 3 ∧ tenthVoxelConfig.VoxelSize = 13421773 / 134217728 ∧
      roundFloat belowChunkEdge.X = belowChunkEdge.X ∧
      ⌊belowChunkEdge.X / ((3 : ℚ) * tenthVoxelConfig.VoxelSize)⌋ = -1706 ∧
      WorldToChunkPosition tenthVoxelConfig belowChunkEdge = ⟨-1705, 0, 0⟩ ∧
      ChunkToWorldPosition tenthVoxelConfig
        (WorldToChunkPosition tenthVoxelConfig belowChunkEdge) = ⟨-1023 / 2, 0, 0⟩ ∧
      ¬ (0 ≤ (belowChunkEdge.X - (ChunkToWorldPosition tenthVoxelConfig
          (WorldToChunkPosition tenthVoxelConfig belowChunkEdge)).X) /
            tenthVoxelConfig.VoxelSize)) ∧
    (roundFloat farPosition.X = farPosition.X ∧
      WorldToChunkPosition FVoxelWorldConfig.ctor farPosition = ⟨70000000, 0, 0⟩ ∧
      wrapInt32 (70000000 * 32) = -2054967296 ∧
      ChunkToWorldPosition FVoxelWorldConfig.ctor
        (WorldToChunkPosition FVoxelWorldConfig.ctor farPosition) = ⟨-205496729600, 0, 0⟩ ∧
      ¬ ((farPosition.X - (ChunkToWorldPosition FVoxelWorldConfig.ctor
          (WorldToChunkPosition FVoxelWorldConfig.ctor farPosition)).X) /
            FVoxelWorldConfig.ctor.VoxelSize < (FVoxelWorldConfig.ctor.ChunkSize : ℚ))) ∧
    (ChunkToWorldPosition FVoxelWorldConfig.ctor
        (WorldToChunkPosition FVoxelWorldConfig.ctor ⟨-50, 3250, 0⟩) = ⟨-3200, 3200, 0⟩) := by
  decide!

/-- C3 at the failing inputs. With the default configuration (chunk size 32, voxel size
100) and `w.X = -0.00001f`, `WorldToChunkPosition` returns chunk `-1`, whose origin is
`-3200`; the `float` difference `w.X - (-3200)` rounds to `3200`, and
`WorldToLocalVoxelPosition` returns `X = 32 = ChunkSize`, which is not a local index of the
chunk: on every chunk the bounds check of `GetDensityAtLocalPosition` answers it with the
air default and that of `UpdateDensityField` drops the write. With `ChunkSize = 3`,
`VoxelSize = 0.1f` and `w.X = -511.50003` it returns `X = -1`. At `(-50, 3250, 0)` it
returns `(31, 0, 0)`. -/
theorem C3_local_index_out_of_chunk :
    (justBelowZero.X = -2748779 / 274877906944 ∧
      roundFloat justBelowZero.X = justBelowZero.X ∧
      WorldToChunkPosition FVoxelWorldConfig.ctor justBelowZero = ⟨-1, 0, 0⟩ ∧
      ChunkToWorldPosition FVoxelWorldConfig.ctor ⟨-1, 0, 0⟩ = ⟨-3200, 0, 0⟩ ∧
      floatSub justBelowZero.X (-3200) = 3200 ∧
      WorldToLocalVoxelPosition FVoxelWorldConfig.ctor justBelowZero = ⟨32, 0, 0⟩ ∧
      ¬ ((WorldToLocalVoxelPosition FVoxelWorldConfig.ctor justBelowZero).X <
        FVoxelWorldConfig.ctor.ChunkSize)) ∧
    (∀ (c : AVoxelChunk) (v : ℚ),
      c.GetDensityAtLocalPosition FVoxelWorldConfig.ctor
          (WorldToLocalVoxelPosition FVoxelWorldConfig.ctor justBelowZero) = -1 ∧
        c.UpdateDensityField FVoxelWorldConfig.ctor
          (WorldToLocalVoxelPosition FVoxelWorldConfig.ctor justBelowZero) v = c) ∧
    (WorldToLocalVoxelPosition tenthVoxelConfig belowChunkEdge = ⟨-1, 0, 0⟩ ∧
      ¬ (0 ≤ (WorldToLocalVoxelPosition tenthVoxelConfig belowChunkEdge).X)) ∧
    WorldToLocalVoxelPosition FVoxelWorldConfig.ctor ⟨-50, 3250, 0⟩ = ⟨31, 0, 0⟩ := by
  have hl : WorldToLocalVoxelPosition FVoxelWorldConfig.ctor justBelowZero = ⟨32, 0, 0⟩ := by
    decide!
  refine ⟨by decide!, ?_, by decide!, by decide!⟩
  intro c v
  rw [hl]
  constructor
  · unfold AVoxelChunk.GetDensityAtLocalPosition
    cases c.WorldGenerator <;> simp [FVoxelWorldConfig.ctor]
  · unfold AVoxelChunk.UpdateDensityField
    cases c.WorldGenerator <;> simp [FVoxelWorldConfig.ctor]

/-- C4 at the failing input: from the empty registry with the default configuration, the
density edit `UpdateWorldDensity((0,0,0), 1)` creates the owning chunk with an empty density
field, the write is dropped, and `SampleWorldDensity((0,0,0))` returns `-1`, not `1`. -/
theorem C4_density_edit_lost_on_new_chunk :
    (((⟨FVoxelWorldConfig.ctor, []⟩ : AVoxelWorldGenerator).UpdateWorldDensity true
        ⟨0, 0, 0⟩ 1).GetChunkAtPosition ⟨0, 0, 0⟩).map (fun c => c.DensityField) = some [] ∧
    ((⟨FVoxelWorldConfig.ctor, []⟩ : AVoxelWorldGenerator).UpdateWorldDensity true
        ⟨0, 0, 0⟩ 1).SampleWorldDensity ⟨0, 0, 0⟩ = -1 := by
  decide!

/-- C5: from every registry state, when spawning succeeds, `SetVoxelAtWorldPosition(w, t)`
leaves a chunk resident at `WorldToChunkPosition(w)` and `GetVoxelAtWorldPosition(w)`
returns `t`. -/
theorem C5_set_voxel_creates_and_reads_back (g : AVoxelWorldGenerator) (w : FVector)
    (t : EVoxelType) :
    ((g.SetVoxelAtWorldPosition true w t).GetChunkAtPosition
        (WorldToChunkPosition (g.SetVoxelAtWorldPosition true w t).WorldConfig w)).isSome = true ∧
      (g.SetVoxelAtWorldPosition true w t).GetVoxelAtWorldPosition w = t := by
  unfold AVoxelWorldGenerator.GetVoxelAtWorldPosition
  unfold AVoxelWorldGenerator.SetVoxelAtWorldPosition
  simp only [GetChunkAtPosition_eq_Find]
  cases hf : TMap.Find g.LoadedChunks (WorldToChunkPosition g.WorldConfig w) with
  | some c =>
    simp only [TMap.Find_Modify, hf, Option.map_some', Option.isSome_some, GetVoxel_SetVoxel,
      and_self]
  | none =>
    have hc : TMap.Contains g.LoadedChunks (WorldToChunkPosition g.WorldConfig w) = false := by
      rw [TMap.Contains_eq_isSome, hf]; rfl
    simp only [AVoxelWorldGenerator.CreateChunkAtPosition, hc, if_true, Bool.false_eq_true,
      if_false, TMap.Find_Modify, TMap.Find_Add, Option.map_some', Option.isSome_some,
      GetVoxel_SetVoxel, and_self]

/-- C6 counterexample: a one-sample all-solid array declared as a 2x2x2 field yields a
triangle, because the seven missing samples read as air. -/
theorem C6_short_solid_array_counterexample :
    (∀ s ∈ ([1] : List ℚ), (0 : ℚ) ≤ s) ∧
    GenerateMeshFromField [1] ⟨0, 0, 0⟩ ⟨2, 2, 2⟩ 0 [] [] [] =
      some ⟨[⟨1 / 2, 0, 0⟩, ⟨1 / 2, 1 / 2, 0⟩, ⟨0, 0, 1 / 2⟩], [0, 1, 2],
        [⟨0, 0, 1⟩, ⟨0, 0, 1⟩, ⟨0, 0, 1⟩]⟩ := by
  decide!

/-- C6 (amended): when the array holds a sample for every lattice point of the declared
field (at least `X*Y*Z` samples) and every sample is `≥ isoLevel`, `GenerateMeshFromField`
outputs no vertex and no triangle. -/
theorem C6_all_solid_full_field_empty_mesh (D : List ℚ) (O : FVector) (S : FIntVector)
    (iso : ℚ) (V0 : List FVector) (T0 : List Int) (N0 : List FVector)
    (hlen : S.X * S.Y * S.Z ≤ D.length) (hsolid : ∀ s ∈ D, iso ≤ s) :
    GenerateMeshFromField D O S iso V0 T0 N0 = some ⟨[], [], []⟩ := by
  apply mesh_empty_of_no_triangles
  apply cellsTriangles_zero
  intro c hc
  have hci : cubeIndexOf (makeCell D O S iso c.1 c.2.1 c.2.2) iso = 0 := by
    apply cubeIndexOf_solid
    intro n
    rcases makeCell_Values_cases D O S iso c hc n with ⟨index, h0, _, hlt, hv⟩ | ⟨hshort, _⟩
    · rw [hv]
      exact hsolid _ (getD_mem D index h0 hlt)
    · omega
  unfold cellTriangles
  rw [hci]
  decide!

/-- Witness of C6 (amended): the full 2x2x2 field of eight `+1` samples at iso level 0. -/
theorem C6_all_solid_full_field_empty_mesh_witness :
    ((2 : Int) * 2 * 2 ≤ (List.replicate 8 (1 : ℚ)).length ∧
      ∀ s ∈ List.replicate 8 (1 : ℚ), (0 : ℚ) ≤ s) ∧
    GenerateMeshFromField (List.replicate 8 1) ⟨0, 0, 0⟩ ⟨2, 2, 2⟩ 0 [] [] [] =
      some ⟨[], [], []⟩ :=
  ⟨⟨by decide, by decide⟩,
    C6_all_solid_full_field_empty_mesh (List.replicate 8 1) ⟨0, 0, 0⟩ ⟨2, 2, 2⟩ 0 [] [] []
      (by decide) (by decide)⟩

/-- C8: when exactly one of the eight corner densities is strictly below `isoLevel`,
`PolygonizeCell` appends exactly three vertices and the three indices that follow the
previous vertex count, and returns 1. -/
theorem C8_single_air_corner_one_triangle (Cell : FGridCell) (iso : ℚ) (V : List FVector)
    (T : List Int)
    (h : ∃ n, Cell.Values n < iso ∧ ∀ m, m ≠ n → ¬ Cell.Values m < iso) :
    ∃ v0 v1 v2 : FVector,
      PolygonizeCell Cell iso V T =
        some (1, V ++ [v0, v1, v2],
          T ++ [(V.length : Int), (V.length : Int) + 1, (V.length : Int) + 2]) := by
  obtain ⟨n, hn, hm⟩ := h
  have hci := cubeIndexOf_single Cell iso n hn hm
  have hk : cellTriangles Cell iso = 1 := by
    unfold cellTriangles
    rw [hci]
    exact single_corner_rows n
  obtain ⟨vs, hp, hl⟩ := PolygonizeCell_spec Cell iso V T
  rw [hk] at hp hl
  match vs, hl with
  | [v0, v1, v2], _ =>
    refine ⟨v0, v1, v2, ?_⟩
    rw [hp]
    simp only [indexRun, List.range', List.map_cons, List.map_nil, Int.ofNat_eq_coe,
      List.length_cons, List.length_nil]
    push_cast
    simp [add_assoc]

/-- Witness of C8: corner densities `[+1,+1,+1,+1,+1,+1,+1,-1]` at iso level 0. -/
theorem C8_single_air_corner_one_triangle_witness :
    PolygonizeCell oneAirCornerCell 0 [] [] =
        some (1, [⟨0, 1 / 2, 1⟩, ⟨1 / 2, 1, 1⟩, ⟨0, 1, 1 / 2⟩], [0, 1, 2]) ∧
    ∃ v0 v1 v2 : FVector,
      PolygonizeCell oneAirCornerCell 0 [] [] = some (1, [] ++ [v0, v1, v2],
        [] ++ [((([] : List FVector).length : Nat) : Int),
          ((([] : List FVector).length : Nat) : Int) + 1,
          ((([] : List FVector).length : Nat) : Int) + 2]) :=
  ⟨by decide!, C8_single_air_corner_one_triangle oneAirCornerCell 0 [] []
    ⟨7, by decide, by decide⟩⟩

theorem FAbs_zero : FAbs 0 = 0 := by simp [FAbs]

theorem FAbs_neg_sub (a b : ℚ) : FAbs (a - b) = FAbs (b - a) := by
  unfold FAbs
  split_ifs <;> linarith

theorem FAbs_pos_ne_zero (q : ℚ) (h : 1 / 100000 ≤ FAbs q) : q ≠ 0 := by
  intro hq
  rw [hq, FAbs_zero] at h
  norm_num at h

theorem TMap.Find_Remove_ne {K V : Type} [DecidableEq K] (m : TMap K V) (k q : K)
    (h : q ≠ k) : TMap.Find (TMap.Remove m k) q = TMap.Find m q := by
  induction m with
  | nil => rfl
  | cons e m ih =>
    unfold TMap.Remove TMap.Find at *
    by_cases hq : e.1 = q
    · have he : e.1 ≠ k := hq ▸ h
      rw [List.filter_cons_of_pos (by simpa using he),
        List.find?_cons_of_pos _ (by simpa using hq),
        List.find?_cons_of_pos _ (by simpa using hq)]
    · rw [List.find?_cons_of_neg _ (by simpa using hq)]
      by_cases he : e.1 = k
      · rw [List.filter_cons_of_neg (by simpa using he)]
        exact ih
      · rw [List.filter_cons_of_pos (by simpa using he),
          List.find?_cons_of_neg _ (by simpa using hq)]
        exact ih

theorem TMap.Find_Add_ne {K V : Type} [DecidableEq K] (m : TMap K V) (k q : K) (v : V)
    (h : q ≠ k) : TMap.Find (TMap.Add m k v) q = TMap.Find m q := by
  have hk : ¬ k = q := fun hh => h hh.symm
  rw [← TMap.Find_Remove_ne m k q h]
  unfold TMap.Add TMap.Find
  rw [List.find?_cons_of_neg _ (by simpa using hk)]

theorem TMap.Add_Add {K V : Type} [DecidableEq K] (m : TMap K V) (k : K) (v : V) :
    TMap.Add (TMap.Add m k v) k v = TMap.Add m k v := by
  unfold TMap.Add TMap.Remove
  simp [List.filter_cons, List.filter_filter]

theorem TMap.count_Add {K V : Type} [DecidableEq K] (m : TMap K V) (k : K) (v : V) :
    ((TMap.Add m k v).filter fun e => decide (e.1 = k)).length = 1 := by
  unfold TMap.Add TMap.Remove
  simp [List.filter_cons, List.filter_filter]

theorem TMap.Find_map_values {K V : Type} [DecidableEq K] (m : TMap K V) (f : V → V) (q : K) :
    TMap.Find (m.map fun e => (e.1, f e.2)) q = (TMap.Find m q).map f := by
  induction m with
  | nil => rfl
  | cons e m ih =>
    unfold TMap.Find at *
    by_cases h : e.1 = q <;> simp [List.find?, h] at ih ⊢
    exact ih

theorem TMap.Find_Modify_ne {K V : Type} [DecidableEq K] (m : TMap K V) (k q : K) (f : V → V)
    (h : q ≠ k) : TMap.Find (TMap.Modify m k f) q = TMap.Find m q := by
  induction m with
  | nil => rfl
  | cons e m ih =>
    unfold TMap.Modify TMap.Find at *
    rw [List.map_cons]
    by_cases he : e.1 = k
    · have hq : ¬ e.1 = q := fun hh => h (hh ▸ he)
      rw [if_pos he, List.find?_cons_of_neg _ (by simpa using hq),
        List.find?_cons_of_neg _ (by simpa using hq)]
      exact ih
    · rw [if_neg he]
      by_cases hq : e.1 = q
      · rw [List.find?_cons_of_pos _ (by simpa using hq),
          List.find?_cons_of_pos _ (by simpa using hq)]
      · rw [List.find?_cons_of_neg _ (by simpa using hq),
          List.find?_cons_of_neg _ (by simpa using hq)]
        exact ih

theorem writesKeepInvariant_Add (s a : UVoxel) (k : FVector) (v : FVoxelStruct)
    (h : writesKeepInvariant s a) (hv : densityMatchesSolid v) :
    writesKeepInvariant s { a with VoxelMap := TMap.Add a.VoxelMap k v } := by
  intro q r hr
  by_cases hq : q = k
  · subst hq
    simp only [TMap.Find_Add, Option.some.injEq] at hr
    subst hr
    exact Or.inr hv
  · simp only [TMap.Find_Add_ne _ _ _ _ hq] at hr
    exact h q r hr

theorem writesKeepInvariant_refl (s : UVoxel) : writesKeepInvariant s s :=
  fun _ _ h => Or.inl h

theorem densityMatchesSolid_of_type (t : EVoxelType) (m : Int) (h : ℚ) (tags : List String) :
    densityMatchesSolid
      { Type_ := t, MaterialID := m, Hardness := h, Tags := tags,
        Density := if t = EVoxelType.VT_Solid then 1 else -1 } := by
  unfold densityMatchesSolid
  by_cases ht : t = EVoxelType.VT_Solid <;> simp [ht]

theorem densityMatchesSolid_of_density (d : ℚ) (m : Int) (h : ℚ) (tags : List String) :
    densityMatchesSolid
      { Type_ := if d > 0 then EVoxelType.VT_Solid else EVoxelType.VT_Empty, MaterialID := m,
        Hardness := h, Tags := tags, Density := d } := by
  unfold densityMatchesSolid
  by_cases hd : d > 0 <;> simp [hd]

theorem setDensityLoop_keeps (s : UVoxel) (D : List ℚ) :
    ∀ (pts : List (Int × Int × Int)) (a : UVoxel) (i : Nat), writesKeepInvariant s a →
      writesKeepInvariant s (pts.foldl (setDensityStep D) (a, i)).1
  | [], a, i, h => h
  | c :: pts, a, i, h => by
    rw [List.foldl_cons]
    unfold setDensityStep
    dsimp only
    split
    · exact setDensityLoop_keeps s D pts _ _
        (writesKeepInvariant_Add s a _ _ h (densityMatchesSolid_of_density _ _ _ _))
    · exact setDensityLoop_keeps s D pts _ _ h

theorem TMap.keys_Modify {K V : Type} [DecidableEq K] (m : TMap K V) (k : K) (f : V → V) :
    (TMap.Modify m k f).map (fun e => e.1) = m.map fun e => e.1 := by
  unfold TMap.Modify
  rw [List.map_map]
  apply List.map_congr_left
  intro e _
  by_cases h : e.1 = k <;> simp [h]

theorem TMap.mem_Modify {K V : Type} [DecidableEq K] (m : TMap K V) (k : K) (f : V → V)
    (e : K × V) (h : e ∈ TMap.Modify m k f) :
    ∃ e0 ∈ m, e.1 = e0.1 ∧ (e.2 = e0.2 ∨ e.2 = f e0.2) := by
  unfold TMap.Modify at h
  rw [List.mem_map] at h
  obtain ⟨e0, he0, rfl⟩ := h
  refine ⟨e0, he0, ?_⟩
  by_cases hk : e0.1 = k <;> simp [hk]

theorem TMap.keys_nodup_Add {K V : Type} [DecidableEq K] (m : TMap K V) (k : K) (v : V)
    (h : (m.map fun e => e.1).Nodup) : ((TMap.Add m k v).map fun e => e.1).Nodup := by
  unfold TMap.Add TMap.Remove
  rw [List.map_cons, List.nodup_cons]
  constructor
  · simp [List.mem_map, List.mem_filter]
  · exact (h.sublist (List.Sublist.map _ (List.filter_sublist m)))

theorem TMap.mem_Add {K V : Type} [DecidableEq K] (m : TMap K V) (k : K) (v : V)
    (e : K × V) (h : e ∈ TMap.Add m k v) : e = (k, v) ∨ e ∈ m := by
  unfold TMap.Add TMap.Remove at h
  rcases List.mem_cons.mp h with h | h
  · exact Or.inl h
  · exact Or.inr (List.mem_of_mem_filter h)

theorem updateChunksLoop_spec (cfg : FVoxelWorldConfig) :
    ∀ (m m1 : List (FIntVector × AVoxelChunk)), updateChunksLoop cfg m = some m1 →
      (m1.map fun e => e.1) = (m.map fun e => e.1) ∧
        ∀ e ∈ m1, ∃ e0 ∈ m, e.1 = e0.1 ∧ e0.2.UpdateChunk cfg = some e.2
  | [], m1, h => by
    simp only [updateChunksLoop, Option.some.injEq] at h
    subst h
    simp
  | e0 :: m, m1, h => by
    unfold updateChunksLoop at h
    cases hg : e0.2.UpdateChunk cfg with
    | none => simp [hg] at h
    | some v =>
      cases hr : updateChunksLoop cfg m with
      | none => simp [hg, hr] at h
      | some m2 =>
        simp only [hg, hr, Option.map_some', Option.some.injEq] at h
        subst h
        obtain ⟨hk, hm⟩ := updateChunksLoop_spec cfg m m2 hr
        constructor
        · simp [hk]
        · intro e he
          rcases List.mem_cons.mp he with he | he
          · subst he
            exact ⟨e0, List.mem_cons_self _ _, rfl, hg⟩
          · obtain ⟨e1, he1, h1, h2⟩ := hm e he
            exact ⟨e1, List.mem_cons_of_mem _ he1, h1, h2⟩

theorem InitializeDensityField_ChunkPosition (c : AVoxelChunk) (cfg : FVoxelWorldConfig) :
    (c.InitializeDensityField cfg).ChunkPosition = c.ChunkPosition := by
  unfold AVoxelChunk.InitializeDensityField
  split <;> rfl

theorem UpdateDensityField_ChunkPosition (c : AVoxelChunk) (cfg : FVoxelWorldConfig)
    (p : FIntVector) (v : ℚ) :
    (c.UpdateDensityField cfg p v).ChunkPosition = c.ChunkPosition := by
  unfold AVoxelChunk.UpdateDensityField
  dsimp only
  split_ifs <;> rfl

theorem UpdateChunk_ChunkPosition (c c1 : AVoxelChunk) (cfg : FVoxelWorldConfig)
    (h : c.UpdateChunk cfg = some c1) : c1.ChunkPosition = c.ChunkPosition := by
  unfold AVoxelChunk.UpdateChunk AVoxelChunk.GenerateChunk at h
  split_ifs at h with hf
  · unfold AVoxelChunk.CreateMeshFromDensityField at h
    simp only [Option.map_eq_some'] at h
    obtain ⟨c2, hc2, rfl⟩ := h
    split_ifs at hc2 with h0 h1 h1
    · split at hc2
      · simp at hc2
      · simp only [Option.some.injEq] at hc2
        subst hc2
        exact InitializeDensityField_ChunkPosition c cfg
    · split at hc2
      · simp at hc2
      · simp only [Option.some.injEq] at hc2
        subst hc2
        rfl
  · simp only [AVoxelChunk.CreateMeshFromVoxels, Option.map_some', Option.some.injEq] at h
    subst h
    rfl

theorem RegistryInv_Modify (g : AVoxelWorldGenerator) (k : FIntVector)
    (f : AVoxelChunk → AVoxelChunk) (hf : ∀ c, (f c).ChunkPosition = c.ChunkPosition)
    (h : RegistryInv g) :
    RegistryInv { g with LoadedChunks := TMap.Modify g.LoadedChunks k f } := by
  obtain ⟨hn, hp⟩ := h
  constructor
  · show ((TMap.Modify g.LoadedChunks k f).map fun e => e.1).Nodup
    rw [TMap.keys_Modify]
    exact hn
  · intro e he
    obtain ⟨e0, he0, hk, hv⟩ := TMap.mem_Modify g.LoadedChunks k f e he
    rcases hv with hv | hv
    · rw [hv, hk]; exact hp e0 he0
    · rw [hv, hk, hf]; exact hp e0 he0

theorem RegistryInv_Create (g : AVoxelWorldGenerator) (ok : Bool) (c : FIntVector)
    (h : RegistryInv g) : RegistryInv (g.CreateChunkAtPosition ok c).1 := by
  unfold AVoxelWorldGenerator.CreateChunkAtPosition
  split
  · exact h
  · cases ok with
    | false => exact h
    | true =>
      obtain ⟨hn, hp⟩ := h
      constructor
      · exact TMap.keys_nodup_Add _ _ _ hn
      · intro e he
        rcases TMap.mem_Add _ _ _ e he with he | he
        · subst he; rfl
        · exact hp e he

theorem Create_WorldConfig (g : AVoxelWorldGenerator) (ok : Bool) (c : FIntVector) :
    (g.CreateChunkAtPosition ok c).1.WorldConfig = g.WorldConfig := by
  unfold AVoxelWorldGenerator.CreateChunkAtPosition
  split
  · rfl
  · cases ok <;> rfl

theorem RegistryInv_getOrCreate (g : AVoxelWorldGenerator) (ok : Bool) (cp : FIntVector)
    (h : RegistryInv g) :
    RegistryInv (match g.GetChunkAtPosition cp with
      | some Chunk => (g, some Chunk)
      | none => g.CreateChunkAtPosition ok cp).1 := by
  split
  · exact h
  · exact RegistryInv_Create g ok cp h

theorem RegistryInv_step (g g1 : AVoxelWorldGenerator) (hs : RegistryStep g g1)
    (h : RegistryInv g) : RegistryInv g1 := by
  cases hs with
  | create ok c => exact RegistryInv_Create g ok c h
  | setVoxel ok w t =>
    have hr := RegistryInv_getOrCreate g ok (WorldToChunkPosition g.WorldConfig w) h
    unfold AVoxelWorldGenerator.SetVoxelAtWorldPosition
    dsimp only
    split
    · exact RegistryInv_Modify _ _ _ (fun _ => rfl) hr
    · exact hr
  | updateDensity ok w v =>
    have hr := RegistryInv_getOrCreate g ok (WorldToChunkPosition g.WorldConfig w) h
    unfold AVoxelWorldGenerator.UpdateWorldDensity
    dsimp only
    split
    · exact RegistryInv_Modify _ _ _ (fun c => UpdateDensityField_ChunkPosition c _ _ _) hr
    · exact hr
  | updateMeshes _ hu =>
    unfold AVoxelWorldGenerator.UpdateChunkMeshes at hu
    simp only [Option.map_eq_some'] at hu
    obtain ⟨m1, hm1, rfl⟩ := hu
    obtain ⟨hk, hm⟩ := updateChunksLoop_spec g.WorldConfig g.LoadedChunks m1 hm1
    obtain ⟨hn, hp⟩ := h
    constructor
    · show (m1.map fun e => e.1).Nodup
      rw [hk]; exact hn
    · intro e he
      obtain ⟨e0, he0, h1, h2⟩ := hm e he
      show e.2.ChunkPosition = e.1
      rw [UpdateChunk_ChunkPosition _ _ _ h2, h1]
      exact hp e0 he0
  | generateDensity Chunk =>
    unfold AVoxelWorldGenerator.GenerateChunkDensityField
    cases Chunk with
    | none => exact h
    | some k =>
      exact RegistryInv_Modify g _ _ (fun c => InitializeDensityField_ChunkPosition c _) h

theorem RegistryInv_of_Reachable (g : AVoxelWorldGenerator) (h : Reachable g) :
    RegistryInv g := by
  induction h with
  | init cfg => exact ⟨List.nodup_nil, fun _ he => by cases he⟩
  | step g g1 _ hs ih => exact RegistryInv_step g g1 hs ih

theorem chunk_index_bounds (cs : Int) (p : FIntVector)
    (hp : (0 ≤ p.X ∧ p.X < cs) ∧ (0 ≤ p.Y ∧ p.Y < cs) ∧ (0 ≤ p.Z ∧ p.Z < cs)) :
    0 ≤ p.Z * cs * cs + p.Y * cs + p.X ∧ p.Z * cs * cs + p.Y * cs + p.X < cs * cs * cs :=
  flat_index_bounds cs cs cs p.X p.Y p.Z hp.1 hp.2.1 hp.2.2

/-! ## Properties stated by the specification: interpolation, registry, voxel store, chunk -/

/-- C11 counterexample: with `val1 = val2 = isoLevel = 0` the first guard returns `P1`, so the
call does not return `P2 = (1,0,0)`. -/
theorem C11_both_values_at_iso_counterexample :
    InterpolateVertex ⟨0, 0, 0⟩ ⟨1, 0, 0⟩ 0 0 0 = ⟨0, 0, 0⟩ ∧
      InterpolateVertex ⟨0, 0, 0⟩ ⟨1, 0, 0⟩ 0 0 0 ≠ ⟨1, 0, 0⟩ := by
  decide!

/-- C11 (amended): `InterpolateVertex(P1, P2, val1, isoLevel, isoLevel)` returns exactly `P2`
unless `|isoLevel - val1| < 0.00001`, in which case the first guard returns `P1`; and
`InterpolateVertex(P1, P2, isoLevel, val2, isoLevel)` returns exactly `P1` for every `val2`. -/
theorem C11_exact_at_endpoints (P1 P2 : FVector) (val1 val2 iso : ℚ) :
    InterpolateVertex P1 P2 val1 iso iso =
        (if FAbs (iso - val1) < 1 / 100000 then P1 else P2) ∧
      InterpolateVertex P1 P2 iso val2 iso = P1 := by
  constructor
  · unfold InterpolateVertex
    split
    · rfl
    · simp [FAbs_zero]
  · unfold InterpolateVertex
    simp [FAbs_zero]

/-- C12: the division `(isoLevel - val1) / (val2 - val1)` of `InterpolateVertex` is reached
only past the three guards, where `|val2 - val1| ≥ 0.00001` and the denominator is not zero,
and the result is then the interpolated point; when a guard returns first the result is `P1`
or `P2`; and with `|val1 - val2| < 0.00001` and neither value within `0.00001` of `isoLevel`
the result is `P1`. -/
theorem C12_division_guarded (P1 P2 : FVector) (val1 val2 iso : ℚ) :
    (match interpolationDenominator val1 val2 iso with
      | some d =>
        d = val2 - val1 ∧ 1 / 100000 ≤ FAbs (val2 - val1) ∧ d ≠ 0 ∧
          InterpolateVertex P1 P2 val1 val2 iso =
            ⟨P1.X + (iso - val1) / d * (P2.X - P1.X), P1.Y + (iso - val1) / d * (P2.Y - P1.Y),
              P1.Z + (iso - val1) / d * (P2.Z - P1.Z)⟩
      | none =>
        InterpolateVertex P1 P2 val1 val2 iso = P1 ∨
          InterpolateVertex P1 P2 val1 val2 iso = P2) ∧
    (FAbs (val1 - val2) < 1 / 100000 → ¬ FAbs (iso - val1) < 1 / 100000 →
      ¬ FAbs (iso - val2) < 1 / 100000 → InterpolateVertex P1 P2 val1 val2 iso = P1) := by
  constructor
  · unfold interpolationDenominator InterpolateVertex
    by_cases h1 : FAbs (iso - val1) < 1 / 100000
    · simp only [h1, if_true]
      exact Or.inl trivial
    · by_cases h2 : FAbs (iso - val2) < 1 / 100000
      · simp only [h1, h2, if_true, if_false]
        exact Or.inr trivial
      · by_cases h3 : FAbs (val1 - val2) < 1 / 100000
        · simp only [h1, h2, h3, if_true, if_false]
          exact Or.inl trivial
        · have h4 : 1 / 100000 ≤ FAbs (val2 - val1) := by
            rw [FAbs_neg_sub]
            exact not_lt.mp h3
          simp only [h1, h2, h3, if_false, true_and]
          exact ⟨h4, FAbs_pos_ne_zero _ h4, trivial⟩
  · intro h3 h1 h2
    unfold InterpolateVertex
    simp only [h1, h2, h3, if_true, if_false]

/-- Witness of C12: densities `1` and `1 + 1/1000000` at iso level 0 return `P1`. -/
theorem C12_division_guarded_witness :
    (FAbs ((1 : ℚ) - (1 + 1 / 1000000)) < 1 / 100000 ∧ ¬ FAbs ((0 : ℚ) - 1) < 1 / 100000 ∧
      ¬ FAbs ((0 : ℚ) - (1 + 1 / 1000000)) < 1 / 100000) ∧
    InterpolateVertex ⟨0, 0, 0⟩ ⟨1, 0, 0⟩ 1 (1 + 1 / 1000000) 0 = ⟨0, 0, 0⟩ :=
  ⟨by decide!, (C12_division_guarded ⟨0, 0, 0⟩ ⟨1, 0, 0⟩ 1 (1 + 1 / 1000000) 0).2
    (by decide!) (by decide!) (by decide!)⟩

theorem CreateChunkAtPosition_of_Find (g : AVoxelWorldGenerator) (ok : Bool) (c : FIntVector)
    (x : AVoxelChunk) (h : TMap.Find g.LoadedChunks c = some x) :
    g.CreateChunkAtPosition ok c = (g, some x) := by
  have hc : TMap.Contains g.LoadedChunks c = true := by
    rw [TMap.Contains_eq_isSome, h]
    rfl
  unfold AVoxelWorldGenerator.CreateChunkAtPosition
  rw [if_pos hc, h]

/-- C13: when `CreateChunkAtPosition(c)` returns a chunk, that chunk is the one the
registry then holds under `c`; a second call for `c` returns the same chunk and leaves the
generator, `LoadedChunks` included, unchanged; the chunk a later call returns is the
registered entry itself, so it shows every write made through the registry entry in
between; and in every reachable registry state no coordinate is stored twice and every
stored chunk's `ChunkPosition` equals its key. -/
theorem C13_registry_uniqueness :
    (∀ (g : AVoxelWorldGenerator) (ok ok1 : Bool) (c : FIntVector) (ch : AVoxelChunk),
      (g.CreateChunkAtPosition ok c).2 = some ch →
        (g.CreateChunkAtPosition ok c).1.GetChunkAtPosition c = some ch ∧
        TMap.Find (g.CreateChunkAtPosition ok c).1.LoadedChunks c = some ch ∧
        (g.CreateChunkAtPosition ok c).1.CreateChunkAtPosition ok1 c =
          ((g.CreateChunkAtPosition ok c).1, some ch) ∧
        ∀ f : AVoxelChunk → AVoxelChunk,
          (AVoxelWorldGenerator.CreateChunkAtPosition
            ⟨(g.CreateChunkAtPosition ok c).1.WorldConfig,
              TMap.Modify (g.CreateChunkAtPosition ok c).1.LoadedChunks c f⟩ ok1 c).2 =
            some (f ch)) ∧
    (∀ g : AVoxelWorldGenerator, Reachable g →
      (g.LoadedChunks.map fun Pair => Pair.1).Nodup ∧
        ∀ Pair ∈ g.LoadedChunks, Pair.2.ChunkPosition = Pair.1) := by
  refine ⟨?_, fun g hg => RegistryInv_of_Reachable g hg⟩
  intro g ok ok1 c ch h
  have hfind : TMap.Find (g.CreateChunkAtPosition ok c).1.LoadedChunks c = some ch := by
    unfold AVoxelWorldGenerator.CreateChunkAtPosition at h ⊢
    by_cases hc : TMap.Contains g.LoadedChunks c = true
    · simp only [hc, if_true] at h ⊢
      exact h
    · simp only [hc, if_false, Bool.false_eq_true] at h ⊢
      cases ok with
      | false => simp at h
      | true =>
        simp only [if_true, Option.some.injEq] at h
        subst h
        simp [TMap.Find_Add]
  refine ⟨?_, hfind, CreateChunkAtPosition_of_Find _ ok1 c ch hfind, ?_⟩
  · rw [GetChunkAtPosition_eq_Find]
    exact hfind
  · intro f
    have hmod : TMap.Find (TMap.Modify (g.CreateChunkAtPosition ok c).1.LoadedChunks c f) c =
        some (f ch) := by
      rw [TMap.Find_Modify, hfind]
      rfl
    rw [CreateChunkAtPosition_of_Find _ ok1 c (f ch) hmod]

/-- Witness of C13: on the empty registry a successful `CreateChunkAtPosition((1,2,3))`
returns the new chunk and registers it under `(1,2,3)`, and the second call returns it again
without changing the registry. -/
theorem C13_registry_uniqueness_witness :
    ((⟨FVoxelWorldConfig.ctor, []⟩ : AVoxelWorldGenerator).CreateChunkAtPosition true
        ⟨1, 2, 3⟩).2 =
      some { AVoxelChunk.ctor with ChunkPosition := ⟨1, 2, 3⟩, WorldGenerator := true } ∧
    ((⟨FVoxelWorldConfig.ctor, []⟩ : AVoxelWorldGenerator).CreateChunkAtPosition true
        ⟨1, 2, 3⟩).1.LoadedChunks =
      [(⟨1, 2, 3⟩,
        { AVoxelChunk.ctor with ChunkPosition := ⟨1, 2, 3⟩, WorldGenerator := true })] ∧
    ((⟨FVoxelWorldConfig.ctor, []⟩ : AVoxelWorldGenerator).CreateChunkAtPosition true
        ⟨1, 2, 3⟩).1.GetChunkAtPosition ⟨1, 2, 3⟩ =
      some { AVoxelChunk.ctor with ChunkPosition := ⟨1, 2, 3⟩, WorldGenerator := true } ∧
    ((⟨FVoxelWorldConfig.ctor, []⟩ : AVoxelWorldGenerator).CreateChunkAtPosition true
        ⟨1, 2, 3⟩).1.CreateChunkAtPosition true ⟨1, 2, 3⟩ =
      (((⟨FVoxelWorldConfig.ctor, []⟩ : AVoxelWorldGenerator).CreateChunkAtPosition true
        ⟨1, 2, 3⟩).1,
        some { AVoxelChunk.ctor with ChunkPosition := ⟨1, 2, 3⟩, WorldGenerator := true }) :=
  ⟨by decide!, by decide!,
    (C13_registry_uniqueness.1 ⟨FVoxelWorldConfig.ctor, []⟩ true true ⟨1, 2, 3⟩ _
      (by decide!)).1,
    (C13_registry_uniqueness.1 ⟨FVoxelWorldConfig.ctor, []⟩ true true ⟨1, 2, 3⟩ _
      (by decide!)).2.2.1⟩

/-- C14 at the failing input: on the empty store, `FillVoxelRegion` of the box from `(0,0,0)`
to `(1,1,1)` with Solid writes the eight corner points, `ClearVoxelRegion` of the same box
removes none of them because `FBox::IsInside` is strict, and the corner `(0,0,0)` still
reports Solid with density `+1`; on the box from `(0,0,0)` to `(2,2,2)` only the centre of
the 27 points written is cleared. -/
theorem C14_clear_leaves_box_boundary :
    (((⟨[], ⟨0, 0, 0⟩⟩ : UVoxel).FillVoxelRegion ⟨⟨0, 0, 0⟩, ⟨1, 1, 1⟩⟩
        EVoxelType.VT_Solid).ClearVoxelRegion ⟨⟨0, 0, 0⟩, ⟨1, 1, 1⟩⟩).GetVoxel ⟨0, 0, 0⟩
      = EVoxelType.VT_Solid ∧
    (((⟨[], ⟨0, 0, 0⟩⟩ : UVoxel).FillVoxelRegion ⟨⟨0, 0, 0⟩, ⟨1, 1, 1⟩⟩
        EVoxelType.VT_Solid).ClearVoxelRegion ⟨⟨0, 0, 0⟩, ⟨1, 1, 1⟩⟩).GetVoxelDensity ⟨0, 0, 0⟩
      = 1 ∧
    (((⟨[], ⟨0, 0, 0⟩⟩ : UVoxel).FillVoxelRegion ⟨⟨0, 0, 0⟩, ⟨1, 1, 1⟩⟩
        EVoxelType.VT_Solid).ClearVoxelRegion ⟨⟨0, 0, 0⟩, ⟨1, 1, 1⟩⟩).VoxelMap.length = 8 ∧
    (((⟨[], ⟨0, 0, 0⟩⟩ : UVoxel).FillVoxelRegion ⟨⟨0, 0, 0⟩, ⟨2, 2, 2⟩⟩
        EVoxelType.VT_Solid).ClearVoxelRegion ⟨⟨0, 0, 0⟩, ⟨2, 2, 2⟩⟩).VoxelMap.length = 26 := by
  decide!

/-- C15 counterexample: `SetVoxel(p, Water)` writes a record of type Water, which is not
Empty, with density `-1`. -/
theorem C15_water_record_counterexample :
    TMap.Find ((⟨[], ⟨0, 0, 0⟩⟩ : UVoxel).SetVoxel ⟨0, 0, 0⟩ EVoxelType.VT_Water).VoxelMap
        ⟨0, 0, 0⟩ = some ⟨EVoxelType.VT_Water, 0, 1, [], -1⟩ ∧
      ¬ ((-1 : ℚ) > 0 ↔ EVoxelType.VT_Water ≠ EVoxelType.VT_Empty) := by
  decide!

/-- C15 (amended): after `SetVoxel`, `SetVoxelFull`, `ReplaceVoxelType`,
`UVoxel::SetDensityField` or `UVoxel::UpdateDensityField`, every record of the store either is
the record the store held under that key before the call, or satisfies `density > 0` if and
only if its type is Solid, for every voxel type; the record that `SetVoxel`, `SetVoxelFull`
and `UpdateDensityField` leave at the written position satisfies it. -/
theorem C15_writes_keep_density_iff_solid (s : UVoxel) :
    (∀ p t, writesKeepInvariant s (s.SetVoxel p t) ∧
      ∃ r, TMap.Find (s.SetVoxel p t).VoxelMap p = some r ∧ r.Type_ = t ∧
        densityMatchesSolid r) ∧
    (∀ p t m h tags, writesKeepInvariant s (s.SetVoxelFull p t m h tags) ∧
      ∃ r, TMap.Find (s.SetVoxelFull p t m h tags).VoxelMap p = some r ∧ r.Type_ = t ∧
        densityMatchesSolid r) ∧
    (∀ old new, writesKeepInvariant s (s.ReplaceVoxelType old new)) ∧
    (∀ D S, writesKeepInvariant s (s.SetDensityField D S)) ∧
    (∀ p v S, writesKeepInvariant s (s.UpdateDensityField p v S) ∧
      ∃ r, TMap.Find (s.UpdateDensityField p v S).VoxelMap (FVector.ofInts p.X p.Y p.Z)
        = some r ∧ r.Density = v ∧ densityMatchesSolid r) := by
  refine ⟨?_, ?_, ?_, ?_, ?_⟩
  · intro p t
    exact ⟨writesKeepInvariant_Add s s _ _ (writesKeepInvariant_refl s)
        (densityMatchesSolid_of_type t _ _ _),
      _, TMap.Find_Add _ _ _, rfl, densityMatchesSolid_of_type t _ _ _⟩
  · intro p t m h tags
    exact ⟨writesKeepInvariant_Add s s _ _ (writesKeepInvariant_refl s)
        (densityMatchesSolid_of_type t _ _ _),
      _, TMap.Find_Add _ _ _, rfl, densityMatchesSolid_of_type t _ _ _⟩
  · intro old new q r hr
    unfold UVoxel.ReplaceVoxelType at hr
    simp only [TMap.Find_map_values, Option.map_eq_some'] at hr
    obtain ⟨r0, hr0, rfl⟩ := hr
    unfold replaceRecord
    by_cases ht : r0.Type_ = old
    · right
      simp only [ht, if_true]
      exact densityMatchesSolid_of_type new _ _ _
    · left
      simp only [ht, if_false]
      exact hr0
  · intro D S
    exact setDensityLoop_keeps s D _ s 0 (writesKeepInvariant_refl s)
  · intro p v S
    unfold UVoxel.UpdateDensityField
    by_cases hc : TMap.Contains s.VoxelMap (FVector.ofInts p.X p.Y p.Z) = true
    · simp only [hc, if_true]
      have hsome : ∃ r0, TMap.Find s.VoxelMap (FVector.ofInts p.X p.Y p.Z) = some r0 := by
        rw [TMap.Contains_eq_isSome] at hc
        exact Option.isSome_iff_exists.mp hc
      obtain ⟨r0, hr0⟩ := hsome
      constructor
      · intro q r hr
        by_cases hq : q = FVector.ofInts p.X p.Y p.Z
        · subst hq
          simp only [TMap.Find_Modify, hr0, Option.map_some', Option.some.injEq] at hr
          subst hr
          exact Or.inr (densityMatchesSolid_of_density v _ _ _)
        · simp only [TMap.Find_Modify_ne _ _ _ _ hq] at hr
          exact Or.inl hr
      · rw [TMap.Find_Modify, TMap.Find_Modify, hr0]
        exact ⟨_, rfl, rfl, densityMatchesSolid_of_density v _ _ _⟩
    · simp only [hc, if_false, Bool.false_eq_true]
      exact ⟨writesKeepInvariant_Add s s _ _ (writesKeepInvariant_refl s)
          (densityMatchesSolid_of_density v _ _ _),
        _, TMap.Find_Add _ _ _, rfl, densityMatchesSolid_of_density v _ _ _⟩

/-- C16: `SetVoxel(p, Solid)` applied twice yields the same store as applying it once; the
store then holds exactly one record at `p`, of type Solid with density `+1`, and the record
of every other key is the one the store held before. -/
theorem C16_set_voxel_idempotent (s : UVoxel) (p : FVector) :
    (s.SetVoxel p EVoxelType.VT_Solid).SetVoxel p EVoxelType.VT_Solid =
        s.SetVoxel p EVoxelType.VT_Solid ∧
      ((s.SetVoxel p EVoxelType.VT_Solid).VoxelMap.filter fun e => decide (e.1 = p)).length
        = 1 ∧
      (∃ r, TMap.Find (s.SetVoxel p EVoxelType.VT_Solid).VoxelMap p = some r ∧
        r.Type_ = EVoxelType.VT_Solid ∧ r.Density = 1 ∧ 0 < r.Density) ∧
      ∀ q, q ≠ p →
        TMap.Find (s.SetVoxel p EVoxelType.VT_Solid).VoxelMap q = TMap.Find s.VoxelMap q := by
  refine ⟨?_, ?_, ?_, ?_⟩
  · unfold UVoxel.SetVoxel
    simp only [TMap.Add_Add]
  · unfold UVoxel.SetVoxel
    exact TMap.count_Add _ _ _
  · unfold UVoxel.SetVoxel
    refine ⟨_, TMap.Find_Add _ _ _, rfl, ?_, ?_⟩ <;> simp
  · intro q hq
    unfold UVoxel.SetVoxel
    exact TMap.Find_Add_ne _ _ _ _ hq

/-- Witness of C16: the store holding a Water record at `(0,0,0)` and a Lava record at
`(1,0,0)`, written twice at `(0,0,0)`; the record at `(1,0,0)` is kept. -/
theorem C16_set_voxel_idempotent_witness :
    ((⟨1, 0, 0⟩ : FVector) ≠ ⟨0, 0, 0⟩) ∧
    TMap.Find ((((⟨[], ⟨0, 0, 0⟩⟩ : UVoxel).SetVoxel ⟨0, 0, 0⟩ EVoxelType.VT_Water).SetVoxel
        ⟨1, 0, 0⟩ EVoxelType.VT_Lava).SetVoxel ⟨0, 0, 0⟩ EVoxelType.VT_Solid).VoxelMap
        ⟨1, 0, 0⟩ =
      TMap.Find (((⟨[], ⟨0, 0, 0⟩⟩ : UVoxel).SetVoxel ⟨0, 0, 0⟩ EVoxelType.VT_Water).SetVoxel
        ⟨1, 0, 0⟩ EVoxelType.VT_Lava).VoxelMap ⟨1, 0, 0⟩ :=
  ⟨by decide!, (C16_set_voxel_idempotent _ ⟨0, 0, 0⟩).2.2.2 ⟨1, 0, 0⟩ (by decide!)⟩

/-- C17: for a position with no record, `GetVoxel` returns Empty, `GetVoxelMaterial` 0,
`GetVoxelHardness` 0 and `GetVoxelDensity` -1; the queries are functions of the store and
return no new store. -/
theorem C17_defaults_for_absent_key (s : UVoxel) (p : FVector)
    (h : TMap.Contains s.VoxelMap p = false) :
    s.GetVoxel p = EVoxelType.VT_Empty ∧ s.GetVoxelMaterial p = 0 ∧
      s.GetVoxelHardness p = 0 ∧ s.GetVoxelDensity p = -1 := by
  simp [UVoxel.GetVoxel, UVoxel.GetVoxelMaterial, UVoxel.GetVoxelHardness,
    UVoxel.GetVoxelDensity, h]

/-- Witness of C17: the store holding one Solid record at `(1,0,0)`, queried at `(0,0,0)`. -/
theorem C17_defaults_for_absent_key_witness :
    TMap.Contains ((⟨[], ⟨0, 0, 0⟩⟩ : UVoxel).SetVoxel ⟨1, 0, 0⟩
        EVoxelType.VT_Solid).VoxelMap ⟨0, 0, 0⟩ = false ∧
      ((⟨[], ⟨0, 0, 0⟩⟩ : UVoxel).SetVoxel ⟨1, 0, 0⟩ EVoxelType.VT_Solid).GetVoxelDensity
        ⟨0, 0, 0⟩ = -1 :=
  ⟨by decide!, (C17_defaults_for_absent_key _ ⟨0, 0, 0⟩ (by decide!)).2.2.2⟩

/-- C18: after `ReplaceVoxelType(old, new)` the key sequence of the store is unchanged, and
the record under every key is the former record, rewritten to type `new` with density `+1`
for Solid and `-1` otherwise (material, hardness and tags kept) when its type was `old`, and
untouched when it was not. -/
theorem C18_replace_voxel_type (s : UVoxel) (old new : EVoxelType) :
    ((s.ReplaceVoxelType old new).VoxelMap.map fun e => e.1) = (s.VoxelMap.map fun e => e.1) ∧
      ∀ q, TMap.Find (s.ReplaceVoxelType old new).VoxelMap q =
        (TMap.Find s.VoxelMap q).map fun r =>
          if r.Type_ = old then
            { Type_ := new, MaterialID := r.MaterialID, Hardness := r.Hardness, Tags := r.Tags,
              Density := if new = EVoxelType.VT_Solid then 1 else -1 }
          else r := by
  constructor
  · unfold UVoxel.ReplaceVoxelType
    simp [List.map_map, Function.comp_def]
  · intro q
    unfold UVoxel.ReplaceVoxelType
    rw [TMap.Find_map_values]
    congr 1

/-- C19: for a chunk attached to its generator whose density field holds `ChunkSize^3`
samples and a local position with all three components in `[0, ChunkSize)`, after
`UpdateDensityField(p, v)` the call `GetDensityAtLocalPosition(p)` returns `v`. -/
theorem C19_density_write_then_read (c : AVoxelChunk) (cfg : FVoxelWorldConfig)
    (p : FIntVector) (v : ℚ) (hgen : c.WorldGenerator = true)
    (hlen : (c.DensityField.length : Int) = cfg.ChunkSize * cfg.ChunkSize * cfg.ChunkSize)
    (hp : (0 ≤ p.X ∧ p.X < cfg.ChunkSize) ∧ (0 ≤ p.Y ∧ p.Y < cfg.ChunkSize) ∧
      (0 ≤ p.Z ∧ p.Z < cfg.ChunkSize)) :
    (c.UpdateDensityField cfg p v).GetDensityAtLocalPosition cfg p = v := by
  obtain ⟨h0, hlt⟩ := chunk_index_bounds cfg.ChunkSize p hp
  rw [← hlen] at hlt
  have hrange : ¬ (p.X < 0 ∨ p.X ≥ cfg.ChunkSize ∨ p.Y < 0 ∨ p.Y ≥ cfg.ChunkSize ∨
      p.Z < 0 ∨ p.Z ≥ cfg.ChunkSize) := by omega
  have hnat : (p.Z * cfg.ChunkSize * cfg.ChunkSize + p.Y * cfg.ChunkSize + p.X).toNat <
      c.DensityField.length := by omega
  unfold AVoxelChunk.UpdateDensityField
  simp only [hgen, Bool.not_true, Bool.false_eq_true, if_false, hrange, ge_iff_le, h0, hlt,
    and_self, if_true]
  unfold AVoxelChunk.GetDensityAtLocalPosition
  simp only [hgen, Bool.not_true, Bool.false_eq_true, if_false, hrange, ge_iff_le, h0,
    List.length_set, hlt, and_self, if_true]
  rw [List.getD_eq_getElem _ _ (by rw [List.length_set]; exact hnat)]
  simp

/-- Witness of C19: the chunk made by the constructor, attached and initialised by
`InitializeDensityField` under chunk size 2, written at `(1, 0, 1)`. -/
theorem C19_density_write_then_read_witness :
    ((({ AVoxelChunk.ctor with WorldGenerator := true }).InitializeDensityField
        { FVoxelWorldConfig.ctor with ChunkSize := 2 }).DensityField = List.replicate 8 (-1)) ∧
    ((({ AVoxelChunk.ctor with WorldGenerator := true }).InitializeDensityField
        { FVoxelWorldConfig.ctor with ChunkSize := 2 }).UpdateDensityField
        { FVoxelWorldConfig.ctor with ChunkSize := 2 } ⟨1, 0, 1⟩ 5).GetDensityAtLocalPosition
        { FVoxelWorldConfig.ctor with ChunkSize := 2 } ⟨1, 0, 1⟩ = 5 :=
  ⟨by decide!,
    C19_density_write_then_read _ { FVoxelWorldConfig.ctor with ChunkSize := 2 } ⟨1, 0, 1⟩ 5
      (by decide!) (by decide!) (by decide!)⟩

theorem gridCells_nil_of_small (S : FIntVector) (h : S.X < 2 ∨ S.Y < 2 ∨ S.Z < 2) :
    gridCells S = [] := by
  have hnil : ∀ n : Int, n < 2 → forRange (n - 1) = [] := by
    intro n hn
    unfold forRange
    have : (n - 1).toNat = 0 := by omega
    rw [this]
    rfl
  unfold gridCells
  rcases h with h | h | h
  · rw [hnil _ h]
    simp
  · rw [hnil _ h]
    simp
  · rw [hnil _ h]
    simp

theorem TMap.mem_of_Find {K V : Type} [DecidableEq K] (m : TMap K V) (k : K) (v : V)
    (h : TMap.Find m k = some v) : (k, v) ∈ m := by
  unfold TMap.Find at h
  rw [Option.map_eq_some'] at h
  obtain ⟨e, he, rfl⟩ := h
  have hk : e.1 = k := by simpa using List.find?_some he
  have hm := List.mem_of_find?_eq_some he
  rw [← hk]
  exact hm

theorem neighborFold (g : AVoxelWorldGenerator) (c : FIntVector) :
    ∀ (l : List (Int × Int × Int)) (acc : List AVoxelChunk),
      l.foldl (neighborStep g c) acc =
        acc ++ ((l.filter fun d => decide (d ≠ (0, 0, 0))).map
          fun d => (⟨c.X + d.1, c.Y + d.2.1, c.Z + d.2.2⟩ : FIntVector)).filterMap
            g.GetChunkAtPosition
  | [], acc => by simp
  | d :: l, acc => by
    rw [List.foldl_cons, neighborFold g c l]
    unfold neighborStep
    by_cases hd : d = (0, 0, 0)
    · subst hd
      simp
    · have hne : ¬ (d.1 = 0 ∧ d.2.1 = 0 ∧ d.2.2 = 0) := by
        intro h
        apply hd
        obtain ⟨a, b, e⟩ := d
        simp only at h
        obtain ⟨h1, h2, h3⟩ := h
        subst h1 h2 h3
        rfl
      rw [if_neg hne, List.filter_cons_of_pos (by simpa using hd), List.map_cons,
        List.filterMap_cons]
      cases hget : g.GetChunkAtPosition ⟨c.X + d.1, c.Y + d.2.1, c.Z + d.2.2⟩ with
      | none => simp [hget]
      | some ch => simp [hget]

theorem GetNeighborChunks_eq (g : AVoxelWorldGenerator) (c : FIntVector) :
    g.GetNeighborChunks c = (adjacentCoordinates c).filterMap g.GetChunkAtPosition := by
  unfold AVoxelWorldGenerator.GetNeighborChunks
  rw [neighborFold]
  rfl

theorem length_adjacentCoordinates (c : FIntVector) : (adjacentCoordinates c).length = 26 := by
  unfold adjacentCoordinates
  rw [List.length_map]
  decide!

theorem nodup_adjacentOffsets : adjacentOffsets.Nodup := by decide!

theorem nodup_adjacentCoordinates (c : FIntVector) : (adjacentCoordinates c).Nodup := by
  unfold adjacentCoordinates
  apply List.Nodup.map _ nodup_adjacentOffsets
  intro d1 d2 h
  simp only [FIntVector.mk.injEq] at h
  obtain ⟨h1, h2, h3⟩ := h
  obtain ⟨a1, b1, e1⟩ := d1
  obtain ⟨a2, b2, e2⟩ := d2
  simp only at h1 h2 h3
  simp only [Prod.mk.injEq]
  omega

theorem mem_adjacentOffsets (d : Int × Int × Int) :
    d ∈ adjacentOffsets ↔
      (-1 ≤ d.1 ∧ d.1 ≤ 1) ∧ (-1 ≤ d.2.1 ∧ d.2.1 ≤ 1) ∧ (-1 ≤ d.2.2 ∧ d.2.2 ≤ 1) ∧
        d ≠ (0, 0, 0) := by
  obtain ⟨a, b, e⟩ := d
  unfold adjacentOffsets
  simp only [List.mem_filter, List.mem_flatMap, List.mem_map, List.mem_cons,
    List.mem_singleton, List.not_mem_nil, or_false, Prod.mk.injEq, decide_eq_true_eq]
  constructor
  · rintro ⟨⟨x, hx, y, hy, z, hz, rfl, rfl, rfl⟩, hne⟩
    refine ⟨by omega, by omega, by omega, hne⟩
  · rintro ⟨ha, hb, he, hne⟩
    exact ⟨⟨a, by omega, b, by omega, e, by omega, rfl, rfl, rfl⟩, hne⟩

theorem mem_adjacentCoordinates (c n : FIntVector) :
    n ∈ adjacentCoordinates c ↔ isAdjacent c n := by
  unfold adjacentCoordinates isAdjacent
  rw [List.mem_map]
  constructor
  · rintro ⟨d, hd, rfl⟩
    obtain ⟨h1, h2, h3, hne⟩ := (mem_adjacentOffsets d).mp hd
    refine ⟨by simp only; omega, by simp only; omega, by simp only; omega, ?_⟩
    intro hc
    apply hne
    obtain ⟨a, b, e⟩ := d
    have hx := congrArg FIntVector.X hc
    have hy := congrArg FIntVector.Y hc
    have hz := congrArg FIntVector.Z hc
    simp only at hx hy hz
    simp only [Prod.mk.injEq]
    omega
  · rintro ⟨h1, h2, h3, hne⟩
    refine ⟨(n.X - c.X, n.Y - c.Y, n.Z - c.Z), (mem_adjacentOffsets _).mpr
      ⟨h1, h2, h3, ?_⟩, ?_⟩
    · intro hd
      apply hne
      simp only [Prod.mk.injEq] at hd
      obtain ⟨hx, hy, hz⟩ := hd
      cases n
      cases c
      simp only [FIntVector.mk.injEq] at hx hy hz ⊢
      omega
    · cases n
      simp only [FIntVector.mk.injEq]
      omega

theorem length_filterMap_le_and_lt {α β : Type} (f : α → Option β) :
    ∀ l : List α, (l.filterMap f).length ≤ l.length ∧
      ((l.filterMap f).length < l.length ↔ ∃ a ∈ l, f a = none)
  | [] => by simp
  | a :: l => by
    obtain ⟨hle, hlt⟩ := length_filterMap_le_and_lt f l
    cases hf : f a with
    | none =>
      rw [List.filterMap_cons_none hf]
      refine ⟨by simp only [List.length_cons]; omega, ?_⟩
      constructor
      · intro _
        exact ⟨a, List.mem_cons_self _ _, hf⟩
      · intro _
        simp only [List.length_cons]
        omega
    | some b =>
      rw [List.filterMap_cons_some hf]
      refine ⟨by simp only [List.length_cons]; omega, ?_⟩
      simp only [List.length_cons, Nat.add_lt_add_iff_right, hlt, List.mem_cons]
      constructor
      · rintro ⟨x, hx, hxn⟩
        exact ⟨x, Or.inr hx, hxn⟩
      · rintro ⟨x, hx | hx, hxn⟩
        · subst hx
          rw [hf] at hxn
          cases hxn
        · exact ⟨x, hx, hxn⟩

theorem filterMap_keys_sublist {α β : Type} (f : α → Option β) (key : β → α)
    (hkey : ∀ a b, f a = some b → key b = a) :
    ∀ l : List α, List.Sublist ((l.filterMap f).map key) l
  | [] => by simp
  | a :: l => by
    cases hf : f a with
    | none =>
      rw [List.filterMap_cons_none hf]
      exact List.Sublist.cons _ (filterMap_keys_sublist f key hkey l)
    | some b =>
      rw [List.filterMap_cons_some hf, List.map_cons, hkey a b hf]
      exact List.Sublist.cons₂ _ (filterMap_keys_sublist f key hkey l)

theorem ChunkPosition_of_Get (g : AVoxelWorldGenerator) (hinv : RegistryInv g)
    (n : FIntVector) (ch : AVoxelChunk) (h : g.GetChunkAtPosition n = some ch) :
    ch.ChunkPosition = n := by
  rw [GetChunkAtPosition_eq_Find] at h
  exact hinv.2 (n, ch) (TMap.mem_of_Find _ _ _ h)

theorem cubeIndexOf_eq_bits (Cell : FGridCell) (iso : ℚ) :
    cubeIndexOf Cell iso =
      cubeIndexBits (decide (Cell.Values 0 < iso)) (decide (Cell.Values 1 < iso))
        (decide (Cell.Values 2 < iso)) (decide (Cell.Values 3 < iso))
        (decide (Cell.Values 4 < iso)) (decide (Cell.Values 5 < iso))
        (decide (Cell.Values 6 < iso)) (decide (Cell.Values 7 < iso)) := by
  unfold cubeIndexOf cubeIndexBits
  simp only [decide_eq_true_eq]

theorem edge_zero_bits :
    ∀ b0 b1 b2 b3 b4 b5 b6 b7 : Bool,
      decide (edgeTableAt (cubeIndexBits b0 b1 b2 b3 b4 b5 b6 b7) = some 0) =
        ((b0 && b1 && b2 && b3 && b4 && b5 && b6 && b7) ||
          (!b0 && !b1 && !b2 && !b3 && !b4 && !b5 && !b6 && !b7)) := by
  decide!

theorem uniform_iff_bits (Cell : FGridCell) (iso : ℚ) :
    ((∀ n, Cell.Values n < iso) ∨ (∀ n, ¬ Cell.Values n < iso)) ↔
      ((decide (Cell.Values 0 < iso) && decide (Cell.Values 1 < iso) &&
          decide (Cell.Values 2 < iso) && decide (Cell.Values 3 < iso) &&
          decide (Cell.Values 4 < iso) && decide (Cell.Values 5 < iso) &&
          decide (Cell.Values 6 < iso) && decide (Cell.Values 7 < iso)) ||
        (!decide (Cell.Values 0 < iso) && !decide (Cell.Values 1 < iso) &&
          !decide (Cell.Values 2 < iso) && !decide (Cell.Values 3 < iso) &&
          !decide (Cell.Values 4 < iso) && !decide (Cell.Values 5 < iso) &&
          !decide (Cell.Values 6 < iso) && !decide (Cell.Values 7 < iso))) = true := by
  simp only [Bool.or_eq_true, Bool.and_eq_true, decide_eq_true_eq, Bool.not_eq_true',
    decide_eq_false_iff_not]
  constructor
  · rintro (h | h)
    · exact Or.inl ⟨⟨⟨⟨⟨⟨⟨h 0, h 1⟩, h 2⟩, h 3⟩, h 4⟩, h 5⟩, h 6⟩, h 7⟩
    · exact Or.inr ⟨⟨⟨⟨⟨⟨⟨h 0, h 1⟩, h 2⟩, h 3⟩, h 4⟩, h 5⟩, h 6⟩, h 7⟩
  · rintro (⟨⟨⟨⟨⟨⟨⟨h0, h1⟩, h2⟩, h3⟩, h4⟩, h5⟩, h6⟩, h7⟩ |
      ⟨⟨⟨⟨⟨⟨⟨h0, h1⟩, h2⟩, h3⟩, h4⟩, h5⟩, h6⟩, h7⟩)
    · left
      intro n
      fin_cases n <;> assumption
    · right
      intro n
      fin_cases n <;> assumption

theorem early_return_iff_uniform (Cell : FGridCell) (iso : ℚ) :
    edgeTableAt (cubeIndexOf Cell iso) = some 0 ↔
      ((∀ n, Cell.Values n < iso) ∨ (∀ n, ¬ Cell.Values n < iso)) := by
  rw [uniform_iff_bits, ← edge_zero_bits, cubeIndexOf_eq_bits, decide_eq_true_eq]

theorem edge_table_entries :
    ∀ ci : Fin 256,
      (edgeTableAt ci.val = some 0 ↔ ci.val = 0 ∨ ci.val = 255) ∧
      ((ci.val = 0 ∨ ci.val = 255) ↔ ∀ i j : Fin 8, ci.val.testBit i.val = ci.val.testBit j.val) ∧
      (edgeTableAt ci.val ≠ some 0 → 1 ≤ rowTriangles (triTable.getD ci.val [])) ∧
      rowTriangles (triTable.getD ci.val []) ≤ 5 := by
  decide!

theorem fill_loop (v : ℚ) :
    ∀ (m : Nat) (l : List ℚ), m ≤ l.length →
      (List.range m).foldl (fun D i => D.set i v) l = List.replicate m v ++ l.drop m
  | 0, l, _ => by simp
  | m + 1, l, h => by
    rw [List.range_succ, List.foldl_append, fill_loop v m l (by omega)]
    simp only [List.foldl_cons, List.foldl_nil]
    have hm : m < l.length := by omega
    rw [List.set_append_right _ _ (by simp), List.length_replicate, Nat.sub_self,
      List.drop_eq_getElem_cons hm, List.set_cons_zero, List.replicate_succ',
      List.append_assoc]
    rfl

theorem forRange_foldl_set (n : Int) (v : ℚ) (l : List ℚ) :
    (forRange n).foldl (fun D i => D.set i.toNat v) l =
      (List.range n.toNat).foldl (fun D i => D.set i v) l := by
  unfold forRange
  rw [List.foldl_map]
  rfl

theorem InitializeDensityField_attached (c : AVoxelChunk) (cfg : FVoxelWorldConfig)
    (hgen : c.WorldGenerator = true) :
    c.InitializeDensityField cfg =
      { c with DensityField :=
          (List.replicate (cfg.ChunkSize * cfg.ChunkSize * cfg.ChunkSize).toNat
            (cfg.IsoSurfaceValue - 1)) } := by
  unfold AVoxelChunk.InitializeDensityField
  simp only [hgen, Bool.not_true, Bool.false_eq_true, if_false, TArray.Empty, List.nil_append]
  rw [forRange_foldl_set, fill_loop _ _ _ (by simp)]
  simp

theorem meshedField_attached (c : AVoxelChunk) (cfg : FVoxelWorldConfig)
    (hgen : c.WorldGenerator = true) :
    meshedField c cfg =
      if c.DensityField.length = 0 then
        List.replicate (cfg.ChunkSize * cfg.ChunkSize * cfg.ChunkSize).toNat
          (cfg.IsoSurfaceValue - 1)
      else c.DensityField := by
  unfold meshedField
  rw [InitializeDensityField_attached c cfg hgen]

theorem CreateMeshFromDensityField_spec (c : AVoxelChunk) (cfg : FVoxelWorldConfig)
    (hgen : c.WorldGenerator = true) :
    ∃ out : MeshOutput, extractorOutput c cfg (meshedField c cfg) = some out ∧
      c.CreateMeshFromDensityField cfg =
        some { c with DensityField := meshedField c cfg,
                      MeshData := ⟨out.Vertices, out.Triangles, [], out.Normals⟩ } := by
  obtain ⟨vs, hg, _⟩ := GenerateMeshFromField_spec (meshedField c cfg)
    (ChunkToWorldPosition cfg c.ChunkPosition)
    ⟨cfg.ChunkSize, cfg.ChunkSize, cfg.ChunkSize⟩ cfg.IsoSurfaceValue [] [] []
  refine ⟨_, hg, ?_⟩
  rw [meshedField_attached c cfg hgen] at hg ⊢
  unfold AVoxelChunk.CreateMeshFromDensityField
  by_cases h0 : c.DensityField.length = 0
  · simp only [h0, if_true] at hg ⊢
    rw [InitializeDensityField_attached c cfg hgen]
    simp only [hgen, Bool.not_true, Bool.false_eq_true, if_false, TArray.Empty, hg]
  · simp only [h0, if_false] at hg ⊢
    simp only [hgen, Bool.not_true, Bool.false_eq_true, if_false, TArray.Empty, hg]

theorem GenerateChunk_field_mode (c : AVoxelChunk) (cfg : FVoxelWorldConfig)
    (hgen : c.WorldGenerator = true) (hmode : cfg.bUseDensityFields = true) :
    ∃ out : MeshOutput, extractorOutput c cfg (meshedField c cfg) = some out ∧
      c.GenerateChunk cfg =
        some { c with DensityField := meshedField c cfg,
                      MeshData := ⟨out.Vertices, out.Triangles, [], out.Normals⟩,
                      bIsGenerated := true } := by
  obtain ⟨out, ho, hc⟩ := CreateMeshFromDensityField_spec c cfg hgen
  refine ⟨out, ho, ?_⟩
  unfold AVoxelChunk.GenerateChunk
  simp only [hgen, hmode, Bool.and_self, if_true, hc, Option.map_some']

/-! ## Properties stated by the specification: queries, neighbours, tables, chunk meshes -/

/-- C21: when no chunk is resident at the coordinate that owns `w`, `SampleWorldDensity(w)`
returns `IsoSurfaceValue - 1`, the value `GetDensityAtLocalPosition` of an attached chunk
returns for an out-of-range position, and `GetVoxelAtWorldPosition(w)` returns Empty; both
queries are functions of the generator and return no new registry. -/
theorem C21_queries_on_missing_chunk (g : AVoxelWorldGenerator) (w : FVector)
    (h : g.GetChunkAtPosition (WorldToChunkPosition g.WorldConfig w) = none) :
    g.SampleWorldDensity w = g.WorldConfig.IsoSurfaceValue - 1 ∧
      g.GetVoxelAtWorldPosition w = EVoxelType.VT_Empty ∧
      ∀ (c : AVoxelChunk) (p : FIntVector), c.WorldGenerator = true →
        (p.X < 0 ∨ p.X ≥ g.WorldConfig.ChunkSize ∨ p.Y < 0 ∨ p.Y ≥ g.WorldConfig.ChunkSize ∨
          p.Z < 0 ∨ p.Z ≥ g.WorldConfig.ChunkSize) →
        c.GetDensityAtLocalPosition g.WorldConfig p = g.SampleWorldDensity w := by
  have hs : g.SampleWorldDensity w = g.WorldConfig.IsoSurfaceValue - 1 := by
    unfold AVoxelWorldGenerator.SampleWorldDensity
    simp only [h]
  refine ⟨hs, ?_, ?_⟩
  · unfold AVoxelWorldGenerator.GetVoxelAtWorldPosition
    simp only [h]
  · intro c p hgen hout
    rw [hs]
    unfold AVoxelChunk.GetDensityAtLocalPosition
    simp only [hgen, Bool.not_true, Bool.false_eq_true, if_false, hout, if_true]

/-- Witness of C21: the registry holding only the chunk `(1,0,0)`, queried at the world
position `(-50, 0, 0)`, which chunk `(-1,0,0)` owns. -/
theorem C21_queries_on_missing_chunk_witness :
    ((⟨FVoxelWorldConfig.ctor, []⟩ : AVoxelWorldGenerator).CreateChunkAtPosition true
        ⟨1, 0, 0⟩).1.GetChunkAtPosition
        (WorldToChunkPosition FVoxelWorldConfig.ctor ⟨-50, 0, 0⟩) = none ∧
      ((⟨FVoxelWorldConfig.ctor, []⟩ : AVoxelWorldGenerator).CreateChunkAtPosition true
        ⟨1, 0, 0⟩).1.SampleWorldDensity ⟨-50, 0, 0⟩ = -1 :=
  ⟨by decide!, (C21_queries_on_missing_chunk _ ⟨-50, 0, 0⟩ (by decide!)).1.trans (by decide!)⟩

/-- C22: `GetNeighborChunks(c)` is the list of the chunks found by looking up, one after the
other, the 26 distinct coordinates adjacent to `c` (each component within one of `c`'s, `c`
itself excluded): it has at most 26 entries, every entry is resident at an adjacent
coordinate, every resident adjacent chunk is an entry, and there are fewer than 26 entries
exactly when some adjacent coordinate has no resident chunk; in a registry that satisfies
the registry invariant the entries carry pairwise distinct coordinates, none of them `c`. -/
theorem C22_neighbor_chunks (g : AVoxelWorldGenerator) (c : FIntVector) :
    g.GetNeighborChunks c = (adjacentCoordinates c).filterMap g.GetChunkAtPosition ∧
    ((adjacentCoordinates c).length = 26 ∧ (adjacentCoordinates c).Nodup ∧
      ∀ n, n ∈ adjacentCoordinates c ↔ isAdjacent c n) ∧
    (g.GetNeighborChunks c).length ≤ 26 ∧
    (∀ ch, ch ∈ g.GetNeighborChunks c ↔
      ∃ n, isAdjacent c n ∧ g.GetChunkAtPosition n = some ch) ∧
    ((g.GetNeighborChunks c).length < 26 ↔
      ∃ n, isAdjacent c n ∧ g.GetChunkAtPosition n = none) ∧
    (RegistryInv g →
      ((g.GetNeighborChunks c).map fun ch => ch.ChunkPosition).Nodup ∧
        ∀ ch ∈ g.GetNeighborChunks c, ch.ChunkPosition ≠ c ∧
          g.GetChunkAtPosition ch.ChunkPosition = some ch) := by
  have heq := GetNeighborChunks_eq g c
  have hlen := length_adjacentCoordinates c
  obtain ⟨hle, hlt⟩ := length_filterMap_le_and_lt g.GetChunkAtPosition (adjacentCoordinates c)
  have hmem : ∀ ch, ch ∈ g.GetNeighborChunks c ↔
      ∃ n, isAdjacent c n ∧ g.GetChunkAtPosition n = some ch := by
    intro ch
    rw [heq, List.mem_filterMap]
    constructor
    · rintro ⟨n, hn, hg⟩
      exact ⟨n, (mem_adjacentCoordinates c n).mp hn, hg⟩
    · rintro ⟨n, hn, hg⟩
      exact ⟨n, (mem_adjacentCoordinates c n).mpr hn, hg⟩
  refine ⟨heq, ⟨hlen, nodup_adjacentCoordinates c, mem_adjacentCoordinates c⟩, ?_, hmem, ?_, ?_⟩
  · rw [heq, ← hlen]
    exact hle
  · rw [heq, ← hlen, hlt]
    constructor
    · rintro ⟨n, hn, hg⟩
      exact ⟨n, (mem_adjacentCoordinates c n).mp hn, hg⟩
    · rintro ⟨n, hn, hg⟩
      exact ⟨n, (mem_adjacentCoordinates c n).mpr hn, hg⟩
  · intro hinv
    constructor
    · rw [heq]
      exact (nodup_adjacentCoordinates c).sublist
        (filterMap_keys_sublist g.GetChunkAtPosition (fun ch => ch.ChunkPosition)
          (fun n ch h => ChunkPosition_of_Get g hinv n ch h) _)
    · intro ch hch
      obtain ⟨n, hn, hg⟩ := (hmem ch).mp hch
      have hp := ChunkPosition_of_Get g hinv n ch hg
      rw [hp]
      exact ⟨hn.2.2.2, hg⟩

/-- Witness of C22: in the registry holding the chunks `(1,0,0)` and `(5,5,5)`, the
neighbours of `(0,0,0)` are the single chunk `(1,0,0)`. -/
theorem C22_neighbor_chunks_witness :
    ((twoChunkRegistry.LoadedChunks.map fun Pair => Pair.1).Nodup ∧
      ∀ Pair ∈ twoChunkRegistry.LoadedChunks, Pair.2.ChunkPosition = Pair.1) ∧
    ((twoChunkRegistry.GetNeighborChunks ⟨0, 0, 0⟩).map fun ch => ch.ChunkPosition) =
      [⟨1, 0, 0⟩] ∧
    ((twoChunkRegistry.GetNeighborChunks ⟨0, 0, 0⟩).map fun ch => ch.ChunkPosition).Nodup :=
  ⟨by decide!, by decide!,
    ((C22_neighbor_chunks twoChunkRegistry ⟨0, 0, 0⟩).2.2.2.2.2
      (show (twoChunkRegistry.LoadedChunks.map fun Pair => Pair.1).Nodup ∧
          ∀ Pair ∈ twoChunkRegistry.LoadedChunks, Pair.2.ChunkPosition = Pair.1 by
        decide!)).1⟩

/-- C23: when one of `FieldSize.X`, `FieldSize.Y`, `FieldSize.Z` is below 2, zero and
negative values included, `GenerateMeshFromField` outputs empty vertex, triangle and normal
arrays for every density array, origin and iso level. -/
theorem C23_small_field_empty_mesh (D : List ℚ) (O : FVector) (S : FIntVector) (iso : ℚ)
    (V0 : List FVector) (T0 : List Int) (N0 : List FVector)
    (h : S.X < 2 ∨ S.Y < 2 ∨ S.Z < 2) :
    GenerateMeshFromField D O S iso V0 T0 N0 = some ⟨[], [], []⟩ := by
  unfold GenerateMeshFromField
  rw [gridCells_nil_of_small S h]
  rfl

/-- Witness of C23: a field declared with sizes `(3, -1, 0)`. -/
theorem C23_small_field_empty_mesh_witness :
    ((3 : Int) < 2 ∨ (-1 : Int) < 2 ∨ (0 : Int) < 2) ∧
    GenerateMeshFromField [1, -1, 1] ⟨0, 0, 0⟩ ⟨3, -1, 0⟩ 0 [⟨1, 1, 1⟩] [7] [] =
      some ⟨[], [], []⟩ :=
  ⟨by decide, C23_small_field_empty_mesh [1, -1, 1] ⟨0, 0, 0⟩ ⟨3, -1, 0⟩ 0 [⟨1, 1, 1⟩] [7] []
    (by decide)⟩

/-- C24: for every `cubeIndex` in `[0,255]`, `edgeTable[cubeIndex]` is 0 if and only if
`cubeIndex` is 0 or 255, that is, if and only if its 8 corner bits are equal; and
`PolygonizeCell` takes its early return, appending nothing and returning 0, exactly for the
cells whose 8 corner values are all below `isoLevel` or all not below it: for every other
cell it returns a count of at least 1. -/
theorem C24_edge_table_zero_iff_uniform :
    (∀ ci : Fin 256,
      (edgeTableAt ci.val = some 0 ↔ ci.val = 0 ∨ ci.val = 255) ∧
      ((ci.val = 0 ∨ ci.val = 255) ↔
        ∀ i j : Fin 8, ci.val.testBit i.val = ci.val.testBit j.val)) ∧
    (∀ (Cell : FGridCell) (iso : ℚ) (V : List FVector) (T : List Int),
      (edgeTableAt (cubeIndexOf Cell iso) = some 0 ↔
        ((∀ n, Cell.Values n < iso) ∨ (∀ n, ¬ Cell.Values n < iso))) ∧
      (edgeTableAt (cubeIndexOf Cell iso) = some 0 →
        PolygonizeCell Cell iso V T = some (0, V, T)) ∧
      (edgeTableAt (cubeIndexOf Cell iso) ≠ some 0 →
        ∃ (k : Nat) (vs : List FVector), 1 ≤ k ∧ vs.length = 3 * k ∧
          PolygonizeCell Cell iso V T =
            some ((k : Int), V ++ vs, T ++ indexRun V.length vs.length))) := by
  refine ⟨fun ci => ⟨(edge_table_entries ci).1, (edge_table_entries ci).2.1⟩, ?_⟩
  intro Cell iso V T
  refine ⟨early_return_iff_uniform Cell iso, ?_, ?_⟩
  · intro h
    unfold PolygonizeCell
    simp only [h, if_true]
  · intro h
    obtain ⟨vs, hp, hl⟩ := PolygonizeCell_spec Cell iso V T
    have hk := (edge_table_entries ⟨cubeIndexOf Cell iso, cubeIndexOf_lt Cell iso⟩).2.2.1 h
    exact ⟨cellTriangles Cell iso, vs, hk, hl, hp⟩

/-- Witness of C24: the cell with one air corner is not uniform and yields one triangle; the
cell with all corners at `+1` is uniform and takes the early return. -/
theorem C24_edge_table_zero_iff_uniform_witness :
    edgeTableAt (cubeIndexOf oneAirCornerCell 0) ≠ some 0 ∧
    edgeTableAt (cubeIndexOf ⟨oneAirCornerCell.Positions, fun _ => 1⟩ 0) = some 0 ∧
    PolygonizeCell ⟨oneAirCornerCell.Positions, fun _ => 1⟩ 0 [] [] = some (0, [], []) :=
  ⟨by decide!, by decide!,
    (C24_edge_table_zero_iff_uniform.2 ⟨oneAirCornerCell.Positions, fun _ => 1⟩ 0 [] []).2.1
      (by decide!)⟩

/-- C25: for every `cubeIndex` in `[0,255]` the row `triTable[cubeIndex]` has 16 entries: `k`
edge indices in `0..11`, with `k` a multiple of 3 and `k ≤ 15`, followed only by `-1`;
and for every cell the triangle loop of `PolygonizeCell` ends inside the row (the call
returns) with at most 5 triangles, three vertices each. -/
theorem C25_tri_table_rows_and_loop_bound :
    (∀ ci : Fin 256,
      (triTable.getD ci.val []).length = 16 ∧
      3 * rowTriangles (triTable.getD ci.val []) ≤ 15 ∧
      (∀ e ∈ (triTable.getD ci.val []).take (3 * rowTriangles (triTable.getD ci.val [])),
        0 ≤ e ∧ e ≤ 11) ∧
      (∀ e ∈ (triTable.getD ci.val []).drop (3 * rowTriangles (triTable.getD ci.val [])),
        e = -1)) ∧
    (∀ (Cell : FGridCell) (iso : ℚ) (V : List FVector) (T : List Int),
      ∃ (k : Nat) (vs : List FVector), k ≤ 5 ∧ vs.length = 3 * k ∧
        triTableRow (cubeIndexOf Cell iso) = some (triTable.getD (cubeIndexOf Cell iso) []) ∧
        k = rowTriangles (triTable.getD (cubeIndexOf Cell iso) []) ∧
        PolygonizeCell Cell iso V T =
          some ((k : Int), V ++ vs, T ++ indexRun V.length vs.length)) := by
  refine ⟨by decide!, ?_⟩
  intro Cell iso V T
  obtain ⟨vs, hp, hl⟩ := PolygonizeCell_spec Cell iso V T
  have hk := (edge_table_entries ⟨cubeIndexOf Cell iso, cubeIndexOf_lt Cell iso⟩).2.2.2
  have hrow : triTableRow (cubeIndexOf Cell iso) =
      some (triTable.getD (cubeIndexOf Cell iso) []) := by
    have hlen : cubeIndexOf Cell iso < triTable.length := by
      have : triTable.length = 256 := by decide!
      rw [this]
      exact cubeIndexOf_lt Cell iso
    unfold triTableRow
    rw [List.getD_eq_getElem _ _ hlen, List.getElem?_eq_getElem hlen]
  exact ⟨cellTriangles Cell iso, vs, hk, hl, hrow, rfl, hp⟩

/-- C26: in field mode, `GenerateChunk` returns the chunk with `bIsGenerated` set and with
`MeshData.Vertices` and `MeshData.Triangles` equal to the output of `GenerateMeshFromField`
on the chunk's density field (the field itself when it is not empty), the chunk's world
origin, the cubic size and the iso level, whatever mesh the chunk held before; `UpdateChunk`
returns the same chunk state. -/
theorem C26_generate_chunk_is_extractor_output (c : AVoxelChunk) (cfg : FVoxelWorldConfig)
    (hgen : c.WorldGenerator = true) (hmode : cfg.bUseDensityFields = true) :
    ∃ out : MeshOutput,
      GenerateMeshFromField (meshedField c cfg) (ChunkToWorldPosition cfg c.ChunkPosition)
        ⟨cfg.ChunkSize, cfg.ChunkSize, cfg.ChunkSize⟩ cfg.IsoSurfaceValue [] [] [] = some out ∧
      c.GenerateChunk cfg =
        some { c with DensityField := meshedField c cfg,
                      MeshData := ⟨out.Vertices, out.Triangles, [], out.Normals⟩,
                      bIsGenerated := true } ∧
      c.UpdateChunk cfg = c.GenerateChunk cfg ∧
      (c.DensityField.length ≠ 0 → meshedField c cfg = c.DensityField) ∧
      ∀ M : FVoxelChunkData, ({ c with MeshData := M }).GenerateChunk cfg = c.GenerateChunk cfg := by
  obtain ⟨out, ho, hc⟩ := GenerateChunk_field_mode c cfg hgen hmode
  refine ⟨out, ho, hc, rfl, ?_, ?_⟩
  · intro h0
    unfold meshedField
    rw [if_neg h0]
  · intro M
    obtain ⟨out2, ho2, hc2⟩ := GenerateChunk_field_mode { c with MeshData := M } cfg hgen hmode
    have hm : meshedField { c with MeshData := M } cfg = meshedField c cfg :=
      (meshedField_attached { c with MeshData := M } cfg hgen).trans
        (meshedField_attached c cfg hgen).symm
    have he : extractorOutput { c with MeshData := M } cfg (meshedField c cfg) =
        extractorOutput c cfg (meshedField c cfg) := rfl
    rw [hm, he, ho] at ho2
    simp only [Option.some.injEq] at ho2
    subst ho2
    rw [hc2, hc, hm]

/-- Witness of C26: the attached chunk of size 2 holding the field with one solid sample. -/
theorem C26_generate_chunk_is_extractor_output_witness :
    (oneSolidCornerChunk.GenerateChunk smallConfig).map
        (fun c => (c.MeshData.Vertices, c.MeshData.Triangles, c.bIsGenerated)) =
      some ([⟨1 / 2, 0, 0⟩, ⟨1 / 2, 1 / 2, 0⟩, ⟨0, 0, 1 / 2⟩], [0, 1, 2], true) ∧
    ∃ out : MeshOutput,
      GenerateMeshFromField (meshedField oneSolidCornerChunk smallConfig)
        (ChunkToWorldPosition smallConfig oneSolidCornerChunk.ChunkPosition)
        ⟨smallConfig.ChunkSize, smallConfig.ChunkSize, smallConfig.ChunkSize⟩
        smallConfig.IsoSurfaceValue [] [] [] = some out :=
  ⟨by decide!,
    (C26_generate_chunk_is_extractor_output oneSolidCornerChunk smallConfig (by decide!)
      (by decide!)).imp fun _ h => h.1⟩

/-- C28 counterexample: the chunk of size 2 generated on the all-air field reports generated
with an empty mesh; after `UpdateDensityField((0,0,0), 1)` changes its first sample from
`-1` to `1` it still reports generated and still holds the empty mesh, while the extractor's
output on the new field is one triangle. -/
theorem C28_stale_mesh_counterexample :
    attachedChunk.GenerateChunk smallConfig = some generatedAirChunk ∧
    (generatedAirChunk.UpdateDensityField smallConfig ⟨0, 0, 0⟩ 1).DensityField =
      oneSolidCornerField ∧
    (generatedAirChunk.UpdateDensityField smallConfig ⟨0, 0, 0⟩ 1).bIsGenerated = true ∧
    (generatedAirChunk.UpdateDensityField smallConfig ⟨0, 0, 0⟩ 1).MeshData.Vertices = [] ∧
    (extractorOutput (generatedAirChunk.UpdateDensityField smallConfig ⟨0, 0, 0⟩ 1) smallConfig
        (generatedAirChunk.UpdateDensityField smallConfig ⟨0, 0, 0⟩ 1).DensityField).map
      (fun out => (out.Vertices, out.Triangles)) =
      some ([⟨1 / 2, 0, 0⟩, ⟨1 / 2, 1 / 2, 0⟩, ⟨0, 0, 1 / 2⟩], [0, 1, 2]) ∧
    ¬ meshMatchesField (generatedAirChunk.UpdateDensityField smallConfig ⟨0, 0, 0⟩ 1)
      smallConfig := by
  have h5 : (extractorOutput (generatedAirChunk.UpdateDensityField smallConfig ⟨0, 0, 0⟩ 1)
        smallConfig
        (generatedAirChunk.UpdateDensityField smallConfig ⟨0, 0, 0⟩ 1).DensityField).map
      (fun out => (out.Vertices, out.Triangles)) =
      some ([⟨1 / 2, 0, 0⟩, ⟨1 / 2, 1 / 2, 0⟩, ⟨0, 0, 1 / 2⟩], [0, 1, 2]) := by decide!
  have h4 : (generatedAirChunk.UpdateDensityField smallConfig ⟨0, 0, 0⟩ 1).MeshData.Vertices
      = [] := by decide!
  refine ⟨by decide!, by decide!, by decide!, h4, h5, ?_⟩
  rintro ⟨out, ho, hv, _⟩
  rw [ho] at h5
  rw [h4] at hv
  simp only [Option.map_some', Option.some.injEq, Prod.mk.injEq] at h5
  rw [← hv] at h5
  exact absurd h5.1 (by simp)

/-- C28 (amended): in field mode, the chunk returned by `GenerateChunk` or `UpdateChunk`
reports generated and its mesh is the extractor's output on its density field;
`UpdateDensityField` changes nothing but the density field, so `bIsGenerated` and the mesh
stay as they were; and the next `GenerateChunk` returns a chunk whose mesh is the
extractor's output on the edited field. -/
theorem C28_mesh_follows_field_only_on_generate (c : AVoxelChunk) (cfg : FVoxelWorldConfig)
    (p : FIntVector) (v : ℚ) (hgen : c.WorldGenerator = true)
    (hmode : cfg.bUseDensityFields = true) :
    (∃ c1, c.GenerateChunk cfg = some c1 ∧ c.UpdateChunk cfg = some c1 ∧
      c1.bIsGenerated = true ∧ meshMatchesField c1 cfg) ∧
    (c.UpdateDensityField cfg p v).bIsGenerated = c.bIsGenerated ∧
    (c.UpdateDensityField cfg p v).MeshData = c.MeshData ∧
    (∃ c2, (c.UpdateDensityField cfg p v).GenerateChunk cfg = some c2 ∧
      c2.bIsGenerated = true ∧ meshMatchesField c2 cfg ∧
      c2.DensityField = meshedField (c.UpdateDensityField cfg p v) cfg) := by
  have hstep : ∀ c0 : AVoxelChunk, c0.WorldGenerator = true →
      ∃ c1, c0.GenerateChunk cfg = some c1 ∧ c1.bIsGenerated = true ∧
        meshMatchesField c1 cfg ∧ c1.DensityField = meshedField c0 cfg := by
    intro c0 h0
    obtain ⟨out, ho, hc⟩ := GenerateChunk_field_mode c0 cfg h0 hmode
    exact ⟨_, hc, rfl, ⟨out, ho, rfl, rfl⟩, rfl⟩
  have hfields : (c.UpdateDensityField cfg p v).bIsGenerated = c.bIsGenerated ∧
      (c.UpdateDensityField cfg p v).MeshData = c.MeshData ∧
      (c.UpdateDensityField cfg p v).WorldGenerator = c.WorldGenerator := by
    unfold AVoxelChunk.UpdateDensityField
    dsimp only
    split_ifs <;> exact ⟨rfl, rfl, rfl⟩
  obtain ⟨c1, h1, hb1, hm1, _⟩ := hstep c hgen
  obtain ⟨c2, h2, hb2, hm2, hd2⟩ := hstep (c.UpdateDensityField cfg p v)
    (hfields.2.2.trans hgen)
  exact ⟨⟨c1, h1, h1, hb1, hm1⟩, hfields.1, hfields.2.1, ⟨c2, h2, hb2, hm2, hd2⟩⟩

/-- Witness of C28 (amended): the generated all-air chunk of size 2, edited at `(0,0,0)`. -/
theorem C28_mesh_follows_field_only_on_generate_witness :
    (generatedAirChunk.WorldGenerator = true ∧ smallConfig.bUseDensityFields = true) ∧
    (generatedAirChunk.UpdateDensityField smallConfig ⟨0, 0, 0⟩ 1).MeshData =
      generatedAirChunk.MeshData :=
  ⟨by decide!, (C28_mesh_follows_field_only_on_generate generatedAirChunk smallConfig
    ⟨0, 0, 0⟩ 1 (by decide!) (by decide!)).2.2.1⟩

/-- C29 at the failing input: the chunk of size 2 whose voxel records were written by
`UVoxel::SetDensityField` from the field with one solid sample carries that field's
densities; in discrete mode `GenerateChunk` returns it with `bIsGenerated` set and no
vertex and no triangle, while in field mode `GenerateChunk` on that density field yields
one triangle. -/
theorem C29_discrete_mode_meshes_nothing :
    ((fieldPoints ⟨2, 2, 2⟩).map fun p =>
        oneSolidCornerVoxelChunk.VoxelData.GetVoxelDensity (FVector.ofInts p.1 p.2.1 p.2.2)) =
      oneSolidCornerField ∧
    oneSolidCornerVoxelChunk.GenerateChunk smallDiscreteConfig =
      some { oneSolidCornerVoxelChunk with bIsGenerated := true } ∧
    (oneSolidCornerVoxelChunk.GenerateChunk smallDiscreteConfig).map
        (fun c => (c.MeshData.Vertices, c.MeshData.Triangles)) = some ([], []) ∧
    (oneSolidCornerChunk.GenerateChunk smallConfig).map
        (fun c => (c.MeshData.Vertices, c.MeshData.Triangles)) =
      some ([⟨1 / 2, 0, 0⟩, ⟨1 / 2, 1 / 2, 0⟩, ⟨0, 0, 1 / 2⟩], [0, 1, 2]) := by
  decide!

/-- C30 (evaluation of the code): every normal output by `GenerateMeshFromField` is the
constant `(0,0,1)`, for every input; on the 2x2x2 field that depends on `x` only (`+1` at
`x = 0`, `-1` at `x = 1`), whose gradient has no `Z` component, the twelve output vertices
lie in the plane `x = 1/2` and the twelve normals are `(0,0,1)`. -/
theorem C30_normals_are_constant :
    (∀ (D : List ℚ) (O : FVector) (S : FIntVector) (iso : ℚ) (V0 : List FVector)
        (T0 : List Int) (N0 : List FVector),
      ∃ out : MeshOutput, GenerateMeshFromField D O S iso V0 T0 N0 = some out ∧
        out.Normals = List.replicate out.Vertices.length ⟨0, 0, 1⟩) ∧
    ((fieldPoints ⟨2, 2, 2⟩).map (fun p => xStepField.getD (p.2.2 * 2 * 2 + p.2.1 * 2 + p.1).toNat 0)
        = (fieldPoints ⟨2, 2, 2⟩).map fun p => if p.1 = 0 then 1 else -1) ∧
    (GenerateMeshFromField xStepField ⟨0, 0, 0⟩ ⟨2, 2, 2⟩ 0 [] [] []).map
        (fun out => (out.Vertices.map fun v => v.X, out.Normals)) =
      some (List.replicate 12 (1 / 2), List.replicate 12 ⟨0, 0, 1⟩) := by
  refine ⟨?_, by decide!, by decide!⟩
  intro D O S iso V0 T0 N0
  obtain ⟨vs, hg, _⟩ := GenerateMeshFromField_spec D O S iso V0 T0 N0
  exact ⟨_, hg, rfl⟩

/-! ## Lemmas on clearing, interpolation and coordinate conversion -/

theorem meshedField_ClearChunk (c : AVoxelChunk) (cfg : FVoxelWorldConfig)
    (hgen : c.WorldGenerator = true) : meshedField c.ClearChunk cfg = meshedField c cfg :=
  (meshedField_attached c.ClearChunk cfg hgen).trans (meshedField_attached c cfg hgen).symm

theorem extractorOutput_ClearChunk (c : AVoxelChunk) (cfg : FVoxelWorldConfig) (D : List ℚ) :
    extractorOutput c.ClearChunk cfg D = extractorOutput c cfg D := rfl

theorem onSegment_left (P1 P2 : FVector) : onSegment P1 P2 P1 :=
  ⟨0, le_refl _, zero_le_one, by simp⟩

theorem onSegment_right (P1 P2 : FVector) : onSegment P1 P2 P2 :=
  ⟨1, zero_le_one, le_refl _, by simp⟩

theorem InterpolateVertex_unguarded (P1 P2 : FVector) (Val1 Val2 IsoLevel : ℚ)
    (h1 : ¬ FAbs (IsoLevel - Val1) < 1 / 100000) (h2 : ¬ FAbs (IsoLevel - Val2) < 1 / 100000)
    (h3 : ¬ FAbs (Val1 - Val2) < 1 / 100000) :
    InterpolateVertex P1 P2 Val1 Val2 IsoLevel =
      ⟨P1.X + (IsoLevel - Val1) / (Val2 - Val1) * (P2.X - P1.X),
       P1.Y + (IsoLevel - Val1) / (Val2 - Val1) * (P2.Y - P1.Y),
       P1.Z + (IsoLevel - Val1) / (Val2 - Val1) * (P2.Z - P1.Z)⟩ := by
  unfold InterpolateVertex
  simp only [h1, h2, h3, if_false]

theorem interpolation_parameter_bounds (Val1 Val2 IsoLevel : ℚ)
    (h : oppositeSides Val1 Val2 IsoLevel) :
    0 ≤ (IsoLevel - Val1) / (Val2 - Val1) ∧ (IsoLevel - Val1) / (Val2 - Val1) ≤ 1 := by
  rcases h with ⟨ha, hb⟩ | ⟨ha, hb⟩
  · have hd : 0 < Val2 - Val1 := by linarith
    exact ⟨div_nonneg (by linarith) hd.le, (div_le_one hd).mpr (by linarith)⟩
  · have hd : Val2 - Val1 < 0 := by linarith
    exact ⟨div_nonneg_of_nonpos (by linarith) hd.le, (div_le_one_of_neg hd).mpr (by linarith)⟩

theorem InterpolateVertex_onSegment (P1 P2 : FVector) (Val1 Val2 IsoLevel : ℚ)
    (h : oppositeSides Val1 Val2 IsoLevel) :
    onSegment P1 P2 (InterpolateVertex P1 P2 Val1 Val2 IsoLevel) := by
  by_cases h1 : FAbs (IsoLevel - Val1) < 1 / 100000
  · unfold InterpolateVertex
    simp only [h1, if_true]
    exact onSegment_left P1 P2
  by_cases h2 : FAbs (IsoLevel - Val2) < 1 / 100000
  · unfold InterpolateVertex
    simp only [h1, h2, if_true, if_false]
    exact onSegment_right P1 P2
  by_cases h3 : FAbs (Val1 - Val2) < 1 / 100000
  · unfold InterpolateVertex
    simp only [h1, h2, h3, if_true, if_false]
    exact onSegment_left P1 P2
  rw [InterpolateVertex_unguarded P1 P2 Val1 Val2 IsoLevel h1 h2 h3]
  obtain ⟨h0, h1⟩ := interpolation_parameter_bounds Val1 Val2 IsoLevel h
  exact ⟨_, h0, h1, rfl⟩

theorem flat_index_injective (cs : Int) (p q : FIntVector)
    (hp : (0 ≤ p.X ∧ p.X < cs) ∧ (0 ≤ p.Y ∧ p.Y < cs) ∧ (0 ≤ p.Z ∧ p.Z < cs))
    (hq : (0 ≤ q.X ∧ q.X < cs) ∧ (0 ≤ q.Y ∧ q.Y < cs) ∧ (0 ≤ q.Z ∧ q.Z < cs))
    (h : p.Z * cs * cs + p.Y * cs + p.X = q.Z * cs * cs + q.Y * cs + q.X) : p = q := by
  have hcs : 0 < cs := by omega
  have key : ∀ a b x y : Int, 0 ≤ x → x < cs → 0 ≤ y → y < cs → a * cs + x = b * cs + y →
      a = b ∧ x = y := by
    intro a b x y hx0 hx hy0 hy he
    have h1 : (a * cs + x) % cs = x := by
      rw [Int.add_comm, Int.add_mul_emod_self]
      exact Int.emod_eq_of_lt hx0 hx
    have h2 : (b * cs + y) % cs = y := by
      rw [Int.add_comm, Int.add_mul_emod_self]
      exact Int.emod_eq_of_lt hy0 hy
    have hxy : x = y := by rw [← h1, ← h2, he]
    subst hxy
    have : a * cs = b * cs := by omega
    exact ⟨Int.eq_of_mul_eq_mul_right hcs.ne.symm this, rfl⟩
  have h1 : (p.Z * cs + p.Y) * cs + p.X = (q.Z * cs + q.Y) * cs + q.X := by
    have e1 : (p.Z * cs + p.Y) * cs + p.X = p.Z * cs * cs + p.Y * cs + p.X := by ring
    have e2 : (q.Z * cs + q.Y) * cs + q.X = q.Z * cs * cs + q.Y * cs + q.X := by ring
    rw [e1, e2, h]
  obtain ⟨h2, hx⟩ := key _ _ _ _ hp.1.1 hp.1.2 hq.1.1 hq.1.2 h1
  obtain ⟨hz, hy⟩ := key _ _ _ _ hp.2.1.1 hp.2.1.2 hq.2.1.1 hq.2.1.2 h2
  cases p
  cases q
  simp only at hx hy hz
  subst hx hy hz
  rfl

/-! ## Properties stated by the specification: clearing, interpolation, frames, round trips -/

/-- C31: from every chunk state `ClearChunk` leaves `bIsGenerated = false` and the four mesh
buffers empty, and leaves the density field, the voxel records and `ChunkPosition` as they
were; for an attached chunk in field mode, `GenerateChunk` after `ClearChunk` returns, gives
the extractor output on the unchanged field, and gives the same chunk state as
`GenerateChunk` without the clear. -/
theorem C31_clear_then_generate_reproduces_mesh (c : AVoxelChunk) (cfg : FVoxelWorldConfig) :
    (c.ClearChunk.bIsGenerated = false ∧
      c.ClearChunk.MeshData.Vertices = [] ∧ c.ClearChunk.MeshData.Triangles = [] ∧
      c.ClearChunk.MeshData.UVs = [] ∧ c.ClearChunk.MeshData.Colors = [] ∧
      c.ClearChunk.DensityField = c.DensityField ∧ c.ClearChunk.VoxelData = c.VoxelData ∧
      c.ClearChunk.ChunkPosition = c.ChunkPosition ∧
      c.ClearChunk.WorldGenerator = c.WorldGenerator) ∧
    (c.WorldGenerator = true → cfg.bUseDensityFields = true →
      ∃ out : MeshOutput, extractorOutput c cfg (meshedField c cfg) = some out ∧
        c.ClearChunk.GenerateChunk cfg =
          some { c with DensityField := meshedField c cfg,
                        MeshData := ⟨out.Vertices, out.Triangles, [], out.Normals⟩,
                        bIsGenerated := true } ∧
        c.ClearChunk.GenerateChunk cfg = c.GenerateChunk cfg) := by
  refine ⟨⟨rfl, rfl, rfl, rfl, rfl, rfl, rfl, rfl, rfl⟩, ?_⟩
  intro hgen hmode
  obtain ⟨out, ho, hc⟩ := GenerateChunk_field_mode c cfg hgen hmode
  obtain ⟨out1, ho1, hc1⟩ := GenerateChunk_field_mode c.ClearChunk cfg hgen hmode
  rw [meshedField_ClearChunk c cfg hgen] at ho1 hc1
  rw [extractorOutput_ClearChunk] at ho1
  have hout : out1 = out := Option.some.inj (ho1.symm.trans ho)
  subst hout
  refine ⟨out1, ho, ?_, ?_⟩
  · rw [hc1]; rfl
  · rw [hc1, hc]; rfl

/-- C31 witness: the attached chunk holding `oneSolidCornerField`, in the configuration with
chunk size 2 and field mode. -/
theorem C31_clear_then_generate_reproduces_mesh_witness :
    oneSolidCornerChunk.WorldGenerator = true ∧ smallConfig.bUseDensityFields = true ∧
    ∃ out : MeshOutput,
      extractorOutput oneSolidCornerChunk smallConfig
        (meshedField oneSolidCornerChunk smallConfig) = some out ∧
      oneSolidCornerChunk.ClearChunk.GenerateChunk smallConfig =
        some { oneSolidCornerChunk with
                 DensityField := meshedField oneSolidCornerChunk smallConfig,
                 MeshData := ⟨out.Vertices, out.Triangles, [], out.Normals⟩,
                 bIsGenerated := true } ∧
      oneSolidCornerChunk.ClearChunk.GenerateChunk smallConfig =
        oneSolidCornerChunk.GenerateChunk smallConfig :=
  ⟨rfl, rfl, (C31_clear_then_generate_reproduces_mesh oneSolidCornerChunk smallConfig).2 rfl rfl⟩

/-- C32: when none of the three epsilon guards fires, `InterpolateVertex` returns
`P1 + t * (P2 - P1)` with `t = (isoLevel - val1) / (val2 - val1)`; and when `val1` and
`val2` lie on opposite sides of `isoLevel` (one strictly below, the other at or above),
that `t` satisfies `0 ≤ t ≤ 1` and the returned point lies on the closed segment from `P1`
to `P2`, whichever branch is taken. -/
theorem C32_interpolation_stays_on_segment (P1 P2 : FVector) (Val1 Val2 IsoLevel : ℚ) :
    (¬ FAbs (IsoLevel - Val1) < 1 / 100000 → ¬ FAbs (IsoLevel - Val2) < 1 / 100000 →
      ¬ FAbs (Val1 - Val2) < 1 / 100000 →
      InterpolateVertex P1 P2 Val1 Val2 IsoLevel =
        ⟨P1.X + (IsoLevel - Val1) / (Val2 - Val1) * (P2.X - P1.X),
         P1.Y + (IsoLevel - Val1) / (Val2 - Val1) * (P2.Y - P1.Y),
         P1.Z + (IsoLevel - Val1) / (Val2 - Val1) * (P2.Z - P1.Z)⟩) ∧
    (oppositeSides Val1 Val2 IsoLevel →
      (0 ≤ (IsoLevel - Val1) / (Val2 - Val1) ∧ (IsoLevel - Val1) / (Val2 - Val1) ≤ 1) ∧
      onSegment P1 P2 (InterpolateVertex P1 P2 Val1 Val2 IsoLevel)) :=
  ⟨InterpolateVertex_unguarded P1 P2 Val1 Val2 IsoLevel,
   fun h => ⟨interpolation_parameter_bounds Val1 Val2 IsoLevel h,
     InterpolateVertex_onSegment P1 P2 Val1 Val2 IsoLevel h⟩⟩

/-- C32 witness: `val1 = -1`, `val2 = 3`, `isoLevel = 0` between `(0,0,0)` and `(4,0,0)`: no
guard fires, `t = 1/4`, and the point returned is `(1,0,0)`. -/
theorem C32_interpolation_stays_on_segment_witness :
    (¬ FAbs (0 - (-1)) < 1 / 100000 ∧ ¬ FAbs (0 - 3) < 1 / 100000 ∧
      ¬ FAbs (-1 - 3) < 1 / 100000 ∧ oppositeSides (-1) 3 0) ∧
    InterpolateVertex ⟨0, 0, 0⟩ ⟨4, 0, 0⟩ (-1) 3 0 = ⟨1, 0, 0⟩ ∧
    onSegment ⟨0, 0, 0⟩ ⟨4, 0, 0⟩ (InterpolateVertex ⟨0, 0, 0⟩ ⟨4, 0, 0⟩ (-1) 3 0) := by
  have hg1 : ¬ FAbs (0 - (-1)) < 1 / 100000 := by decide!
  have hg2 : ¬ FAbs (0 - 3) < 1 / 100000 := by decide!
  have hg3 : ¬ FAbs (-1 - 3) < 1 / 100000 := by decide!
  have hop : oppositeSides (-1) 3 0 := Or.inl ⟨by norm_num, by norm_num⟩
  have h := C32_interpolation_stays_on_segment ⟨0, 0, 0⟩ ⟨4, 0, 0⟩ (-1) 3 0
  exact ⟨⟨hg1, hg2, hg3, hop⟩, (h.1 hg1 hg2 hg3).trans (by decide!), (h.2 hop).2⟩

/-- C35: for in-range local positions `p ≠ q`, `UpdateDensityField(p, v)` does not change
`GetDensityAtLocalPosition(q)` and does not change the length of the density field; the flat
index `z * ChunkSize² + y * ChunkSize + x` takes different values at `p` and `q` and lies in
`[0, ChunkSize³)`. -/
theorem C35_density_write_frame (c : AVoxelChunk) (cfg : FVoxelWorldConfig) (p q : FIntVector)
    (v : ℚ)
    (hp : (0 ≤ p.X ∧ p.X < cfg.ChunkSize) ∧ (0 ≤ p.Y ∧ p.Y < cfg.ChunkSize) ∧
      (0 ≤ p.Z ∧ p.Z < cfg.ChunkSize))
    (hq : (0 ≤ q.X ∧ q.X < cfg.ChunkSize) ∧ (0 ≤ q.Y ∧ q.Y < cfg.ChunkSize) ∧
      (0 ≤ q.Z ∧ q.Z < cfg.ChunkSize))
    (hpq : p ≠ q) :
    (c.UpdateDensityField cfg p v).GetDensityAtLocalPosition cfg q =
        c.GetDensityAtLocalPosition cfg q ∧
      (c.UpdateDensityField cfg p v).DensityField.length = c.DensityField.length ∧
      p.Z * cfg.ChunkSize * cfg.ChunkSize + p.Y * cfg.ChunkSize + p.X ≠
        q.Z * cfg.ChunkSize * cfg.ChunkSize + q.Y * cfg.ChunkSize + q.X ∧
      (0 ≤ p.Z * cfg.ChunkSize * cfg.ChunkSize + p.Y * cfg.ChunkSize + p.X ∧
        p.Z * cfg.ChunkSize * cfg.ChunkSize + p.Y * cfg.ChunkSize + p.X <
          cfg.ChunkSize * cfg.ChunkSize * cfg.ChunkSize) := by
  have hne : p.Z * cfg.ChunkSize * cfg.ChunkSize + p.Y * cfg.ChunkSize + p.X ≠
      q.Z * cfg.ChunkSize * cfg.ChunkSize + q.Y * cfg.ChunkSize + q.X :=
    fun h => hpq (flat_index_injective cfg.ChunkSize p q hp hq h)
  have hbp := chunk_index_bounds cfg.ChunkSize p hp
  have hbq := chunk_index_bounds cfg.ChunkSize q hq
  refine ⟨?_, ?_, hne, hbp⟩
  · unfold AVoxelChunk.UpdateDensityField
    dsimp only
    split_ifs with h1 h2 h3
    · rfl
    · rfl
    · unfold AVoxelChunk.GetDensityAtLocalPosition
      dsimp only
      have hidx : (p.Z * cfg.ChunkSize * cfg.ChunkSize + p.Y * cfg.ChunkSize + p.X).toNat ≠
          (q.Z * cfg.ChunkSize * cfg.ChunkSize + q.Y * cfg.ChunkSize + q.X).toNat := by
        omega
      simp only [List.length_set, List.getD_eq_getElem?_getD, List.getElem?_set_ne hidx]
    · rfl
  · unfold AVoxelChunk.UpdateDensityField
    dsimp only
    split_ifs <;> simp only [List.length_set]

/-- C35 witness: the chunk holding `oneSolidCornerField` (2³ samples), a write of `5` at
`(1,0,0)` and a read at `(0,0,0)`, which still returns `1`. -/
theorem C35_density_write_frame_witness :
    (oneSolidCornerChunk.UpdateDensityField smallConfig ⟨1, 0, 0⟩ 5).GetDensityAtLocalPosition
        smallConfig ⟨0, 0, 0⟩ = 1 ∧
      (oneSolidCornerChunk.UpdateDensityField smallConfig ⟨1, 0, 0⟩ 5).DensityField =
        [1, 5, -1, -1, -1, -1, -1, -1] := by
  have h := C35_density_write_frame oneSolidCornerChunk smallConfig ⟨1, 0, 0⟩ ⟨0, 0, 0⟩ 5
    (by decide) (by decide) (by decide)
  exact ⟨h.1.trans (by decide!), by decide!⟩

/-- C36 at the failing inputs. With `ChunkSize = 3` and `VoxelSize = 1.1f`, the origin the
code gives chunk `5` is the `float` `16.5` (the exact product `15 * 1.1f` is not a `float`),
and `WorldToChunkPosition` maps it to chunk `4`, `WorldToLocalVoxelPosition` to local voxel
`2`. With the default configuration and `c.X = 70000000` the `int32` product
`70000000 * 32` wraps, the origin is `-205496729600`, and it maps to chunk `-64217728`. At
`(-3, 0, 7)` with the default configuration the origin maps back to the chunk and to local
voxel `(0,0,0)`. -/
theorem C36_origin_maps_to_other_chunk :
    (elevenTenthsVoxelConfig.ChunkSize = 3 ∧
      elevenTenthsVoxelConfig.VoxelSize = 9227469 / 8388608 ∧
      ChunkToWorldPosition elevenTenthsVoxelConfig ⟨5, 0, 0⟩ = ⟨33 / 2, 0, 0⟩ ∧
      (15 : ℚ) * elevenTenthsVoxelConfig.VoxelSize ≠ 33 / 2 ∧
      WorldToChunkPosition elevenTenthsVoxelConfig
        (ChunkToWorldPosition elevenTenthsVoxelConfig ⟨5, 0, 0⟩) = ⟨4, 0, 0⟩ ∧
      WorldToLocalVoxelPosition elevenTenthsVoxelConfig
        (ChunkToWorldPosition elevenTenthsVoxelConfig ⟨5, 0, 0⟩) = ⟨2, 0, 0⟩) ∧
    (wrapInt32 (70000000 * 32) = -2054967296 ∧
      ChunkToWorldPosition FVoxelWorldConfig.ctor ⟨70000000, 0, 0⟩ =
        ⟨-205496729600, 0, 0⟩ ∧
      WorldToChunkPosition FVoxelWorldConfig.ctor
        (ChunkToWorldPosition FVoxelWorldConfig.ctor ⟨70000000, 0, 0⟩) =
          ⟨-64217728, 0, 0⟩) ∧
    (ChunkToWorldPosition FVoxelWorldConfig.ctor ⟨-3, 0, 7⟩ = ⟨-9600, 0, 22400⟩ ∧
      WorldToChunkPosition FVoxelWorldConfig.ctor
        (ChunkToWorldPosition FVoxelWorldConfig.ctor ⟨-3, 0, 7⟩) = ⟨-3, 0, 7⟩ ∧
      WorldToLocalVoxelPosition FVoxelWorldConfig.ctor
        (ChunkToWorldPosition FVoxelWorldConfig.ctor ⟨-3, 0, 7⟩) = ⟨0, 0, 0⟩) := by
  decide!

/-! ## Lemmas on the vertices emitted by the extractor -/

theorem triangleLoop_appended (vl : List (Option FVector)) :
    ∀ (row : List Int) (n : Int) (V : List FVector) (T : List Int)
      (r : Int × List FVector × List Int), triangleLoop vl row n V T = some r →
      ∃ vs : List FVector, r.2.1 = V ++ vs ∧
        ∀ v ∈ vs, ∃ e ∈ row.takeWhile (fun e => decide (e ≠ -1)), vertListAt vl e = some v
  | [], n, V, T, r, h => by simp [triangleLoop] at h
  | [e0], n, V, T, r, h => by
    by_cases h0 : e0 = -1
    · simp [triangleLoop, h0] at h
      subst h
      exact ⟨[], by simp⟩
    · simp [triangleLoop, h0] at h
  | [e0, e1], n, V, T, r, h => by
    by_cases h0 : e0 = -1
    · simp [triangleLoop, h0] at h
      subst h
      exact ⟨[], by simp⟩
    · simp [triangleLoop, h0] at h
  | e0 :: e1 :: e2 :: rest3, n, V, T, r, h => by
    by_cases h0 : e0 = -1
    · simp [triangleLoop, h0] at h
      subst h
      exact ⟨[], by simp⟩
    · rw [triangleLoop] at h
      simp only [h0, if_false] at h
      cases h0v : vertListAt vl e0 with
      | none => simp [h0v] at h
      | some v0 =>
        cases h1v : vertListAt vl e1 with
        | none => simp [h0v, h1v] at h
        | some v1 =>
          cases h2v : vertListAt vl e2 with
          | none => simp [h0v, h1v, h2v] at h
          | some v2 =>
            simp only [h0v, h1v, h2v] at h
            obtain ⟨vs, hvs, hall⟩ := triangleLoop_appended vl rest3 _ _ _ r h
            have h1 : e1 ≠ -1 := by
              intro he
              simp [he, vertListAt] at h1v
            have h2 : e2 ≠ -1 := by
              intro he
              simp [he, vertListAt] at h2v
            refine ⟨[v0, v1, v2] ++ vs, by simp [hvs], ?_⟩
            intro v hv
            simp only [List.takeWhile_cons, h0, h1, h2, ne_eq, not_false_eq_true,
              decide_True, if_true, List.mem_cons]
            simp only [List.cons_append, List.nil_append, List.mem_cons] at hv
            rcases hv with rfl | rfl | rfl | hv
            · exact ⟨e0, Or.inl rfl, h0v⟩
            · exact ⟨e1, Or.inr (Or.inl rfl), h1v⟩
            · exact ⟨e2, Or.inr (Or.inr (Or.inl rfl)), h2v⟩
            · obtain ⟨e, he, hev⟩ := hall v hv
              exact ⟨e, Or.inr (Or.inr (Or.inr he)), hev⟩

theorem vertListAt_some (Cell : FGridCell) (IsoLevel : ℚ) (edges : Nat) (e : Int) (v : FVector)
    (h : vertListAt (vertListOf Cell IsoLevel edges) e = some v) :
    slotAssigned edges e = true ∧
      v = InterpolateVertex (Cell.Positions (edgeCorners.getD e.toNat (0, 0)).1)
        (Cell.Positions (edgeCorners.getD e.toNat (0, 0)).2)
        (Cell.Values (edgeCorners.getD e.toNat (0, 0)).1)
        (Cell.Values (edgeCorners.getD e.toNat (0, 0)).2) IsoLevel := by
  have h0 : 0 ≤ e := by
    by_contra hneg
    simp [vertListAt, not_le.mp hneg] at h
  have h12 : e < 12 := by
    by_contra hge
    have hlen : (vertListOf Cell IsoLevel edges).length ≤ e.toNat := by
      simp only [vertListOf, List.length_cons, List.length_nil]
      omega
    simp [vertListAt, not_lt.mpr h0, List.getElem?_eq_none hlen] at h
  unfold slotAssigned
  interval_cases e <;> simp [vertListAt, vertListOf, edgeCorners] at h ⊢ <;>
    exact ⟨h.1, h.2.symm⟩

theorem PolygonizeCell_appended (Cell : FGridCell) (IsoLevel : ℚ) (V : List FVector)
    (T : List Int) (r : Int × List FVector × List Int)
    (h : PolygonizeCell Cell IsoLevel V T = some r) :
    ∃ vs : List FVector, r.2.1 = V ++ vs ∧
      ∀ v ∈ vs, ∃ e ∈ (triTable.getD (cubeIndexOf Cell IsoLevel) []).takeWhile
          (fun e => decide (e ≠ -1)),
        vertListAt (vertListOf Cell IsoLevel (edgeTable.getD (cubeIndexOf Cell IsoLevel) 0)) e =
          some v := by
  unfold PolygonizeCell at h
  dsimp only at h
  cases he : edgeTableAt (cubeIndexOf Cell IsoLevel) with
  | none =>
    rw [he] at h
    exact Option.noConfusion h
  | some edges =>
    have hedges : edgeTable.getD (cubeIndexOf Cell IsoLevel) 0 = edges := by
      rw [List.getD_eq_getElem?_getD]
      exact (congrArg (fun o => o.getD 0) he).trans rfl
    rw [he] at h
    dsimp only at h
    by_cases h0 : edges = 0
    · rw [if_pos h0, Option.some.injEq] at h
      subst h
      exact ⟨[], (List.append_nil _).symm, fun v hv => absurd hv (List.not_mem_nil v)⟩
    · rw [if_neg h0] at h
      cases hr : triTableRow (cubeIndexOf Cell IsoLevel) with
      | none =>
        rw [hr] at h
        exact Option.noConfusion h
      | some row =>
        have hrow : triTable.getD (cubeIndexOf Cell IsoLevel) [] = row := by
          rw [List.getD_eq_getElem?_getD]
          exact (congrArg (fun o => o.getD []) hr).trans rfl
        rw [hr] at h
        dsimp only at h
        rw [hedges, hrow]
        exact triangleLoop_appended _ row 0 V T r h

theorem TMap.Modify_Modify {K V : Type} [DecidableEq K] (m : TMap K V) (k : K) (f g : V → V) :
    TMap.Modify (TMap.Modify m k f) k g = TMap.Modify m k fun v => g (f v) := by
  unfold TMap.Modify
  rw [List.map_map]
  apply List.map_congr_left
  intro e _
  by_cases h : e.1 = k <;> simp [h]

theorem storeInvariant_Add (s : UVoxel) (k : FVector) (v : FVoxelStruct)
    (h : storeInvariant s) (hv : densityMatchesSolid v) :
    storeInvariant { s with VoxelMap := TMap.Add s.VoxelMap k v } := by
  intro e he
  rcases TMap.mem_Add _ _ _ _ he with rfl | hm
  · exact hv
  · exact h e hm

theorem storeInvariant_Remove (s : UVoxel) (k : FVector) (h : storeInvariant s) :
    storeInvariant { s with VoxelMap := TMap.Remove s.VoxelMap k } := by
  intro e he
  exact h e (List.mem_of_mem_filter he)

theorem storeInvariant_Modify (s : UVoxel) (k : FVector) (f : FVoxelStruct → FVoxelStruct)
    (h : storeInvariant s) (hf : ∀ r, densityMatchesSolid r → densityMatchesSolid (f r)) :
    storeInvariant { s with VoxelMap := TMap.Modify s.VoxelMap k f } := by
  intro e he
  obtain ⟨e0, he0, -, h2 | h2⟩ := TMap.mem_Modify _ _ _ _ he
  · rw [h2]
    exact h e0 he0
  · rw [h2]
    exact hf _ (h e0 he0)

theorem storeInvariant_SetVoxel (s : UVoxel) (p : FVector) (t : EVoxelType)
    (h : storeInvariant s) : storeInvariant (s.SetVoxel p t) :=
  storeInvariant_Add s p _ h (densityMatchesSolid_of_type t _ _ _)

theorem storeInvariant_fill (t : EVoxelType) :
    ∀ (pts : List FVector) (s : UVoxel), storeInvariant s →
      storeInvariant (pts.foldl (fun s p => s.SetVoxel p t) s)
  | [], _, h => h
  | p :: pts, s, h => storeInvariant_fill t pts _ (storeInvariant_SetVoxel s p t h)

theorem storeInvariant_clear :
    ∀ (keys : List FVector) (s : UVoxel), storeInvariant s →
      storeInvariant
        (keys.foldl (fun s Key => { s with VoxelMap := TMap.Remove s.VoxelMap Key }) s)
  | [], _, h => h
  | k :: keys, s, h => storeInvariant_clear keys _ (storeInvariant_Remove s k h)

theorem storeInvariant_setDensityLoop (D : List ℚ) :
    ∀ (pts : List (Int × Int × Int)) (a : UVoxel) (i : Nat), storeInvariant a →
      storeInvariant (pts.foldl (setDensityStep D) (a, i)).1
  | [], _, _, h => h
  | c :: pts, a, i, h => by
    rw [List.foldl_cons]
    unfold setDensityStep
    dsimp only
    split
    · exact storeInvariant_setDensityLoop D pts _ _
        (storeInvariant_Add a _ _ h (densityMatchesSolid_of_density _ _ _ _))
    · exact storeInvariant_setDensityLoop D pts _ _ h

theorem storeInvariant_step (s s1 : UVoxel) (h : storeInvariant s) (hs : StoreStep s s1) :
    storeInvariant s1 := by
  cases hs with
  | setVoxel p t => exact storeInvariant_SetVoxel s p t h
  | setVoxelFull p t m hd tags =>
    exact storeInvariant_Add s p _ h (densityMatchesSolid_of_type t m hd tags)
  | replaceType old new =>
    intro e he
    unfold UVoxel.ReplaceVoxelType at he
    rw [List.mem_map] at he
    obtain ⟨e0, he0, rfl⟩ := he
    have h0 := h e0 he0
    show densityMatchesSolid (replaceRecord old new e0.2)
    unfold replaceRecord
    split
    · exact densityMatchesSolid_of_type new _ _ _
    · exact h0
  | fillRegion R t => exact storeInvariant_fill t _ s h
  | clearRegion R => exact storeInvariant_clear _ s h
  | removeVoxel p => exact storeInvariant_Remove s p h
  | setMaterial p m =>
    unfold UVoxel.SetVoxelMaterial
    split
    · exact storeInvariant_Modify s p _ h (fun r hr => hr)
    · exact h
  | setHardness p hd =>
    unfold UVoxel.SetVoxelHardness
    split
    · exact storeInvariant_Modify s p _ h (fun r hr => hr)
    · exact h
  | setDensityField D S => exact storeInvariant_setDensityLoop D _ s 0 h
  | updateDensityField p v S =>
    unfold UVoxel.UpdateDensityField
    dsimp only
    split
    · rw [TMap.Modify_Modify]
      exact storeInvariant_Modify s _ _ h
        (fun r _ => densityMatchesSolid_of_density v r.MaterialID r.Hardness r.Tags)
    · exact storeInvariant_Add s _ _ h (densityMatchesSolid_of_density v _ _ _)
  | duplicateVoxel Target p =>
    unfold UVoxel.DuplicateVoxel
    split
    · exact h
    · split
      · split
        · rename_i Copy hfind
          exact storeInvariant_Add s p Copy h (h _ (TMap.mem_of_Find _ _ _ hfind))
        · exact h
      · exact h

theorem storeInvariant_of_reachable (s : UVoxel) (h : StoreReachable s) : storeInvariant s := by
  induction h with
  | empty L => exact fun e he => absurd he (List.not_mem_nil e)
  | step s s1 _ hstep ih => exact storeInvariant_step s s1 ih hstep

theorem reachable_mixedStore : StoreReachable mixedStore := by
  unfold mixedStore oneSolidStore
  exact .step _ _ (.step _ _ (.step _ _ (.step _ _ (.empty _) (.setVoxel _ _ _))
    (.updateDensityField _ _ _ _)) (.updateDensityField _ _ _ _)) (.replaceType _ _ _)

/-! ## Properties stated by the specification: emitted vertices and the record invariant -/

/-- C33: for every `cubeIndex` in `[0, 255]`, every entry before the `-1` sentinel of
`triTable[cubeIndex]` is an edge index in `0..11` whose bit is set in
`edgeTable[cubeIndex]`; hence `PolygonizeCell` returns for every cell, and every vertex it
appends is the `vertList` entry of such an edge, assigned by `InterpolateVertex` from the
corners of that same cell. -/
theorem C33_no_unassigned_slot_emitted :
    (∀ ci : Fin 256,
      ∀ e ∈ (triTable.getD ci.val []).takeWhile (fun e => decide (e ≠ -1)),
        slotAssigned (edgeTable.getD ci.val 0) e = true) ∧
    (∀ (Cell : FGridCell) (IsoLevel : ℚ) (V : List FVector) (T : List Int),
      ∃ vs : List FVector,
        PolygonizeCell Cell IsoLevel V T =
          some ((cellTriangles Cell IsoLevel : Int), V ++ vs,
            T ++ indexRun V.length vs.length) ∧
        ∀ v ∈ vs,
          ∃ e ∈ (triTable.getD (cubeIndexOf Cell IsoLevel) []).takeWhile
              (fun e => decide (e ≠ -1)),
            slotAssigned (edgeTable.getD (cubeIndexOf Cell IsoLevel) 0) e = true ∧
            vertListAt
              (vertListOf Cell IsoLevel (edgeTable.getD (cubeIndexOf Cell IsoLevel) 0)) e =
                some v ∧
            v = InterpolateVertex (Cell.Positions (edgeCorners.getD e.toNat (0, 0)).1)
              (Cell.Positions (edgeCorners.getD e.toNat (0, 0)).2)
              (Cell.Values (edgeCorners.getD e.toNat (0, 0)).1)
              (Cell.Values (edgeCorners.getD e.toNat (0, 0)).2) IsoLevel) := by
  refine ⟨by decide!, ?_⟩
  intro Cell IsoLevel V T
  obtain ⟨vs, hp, -⟩ := PolygonizeCell_spec Cell IsoLevel V T
  obtain ⟨vs1, hvs1, hall⟩ := PolygonizeCell_appended Cell IsoLevel V T _ hp
  have hvs : vs = vs1 := List.append_cancel_left hvs1
  subst hvs
  refine ⟨vs, hp, ?_⟩
  intro v hv
  obtain ⟨e, he, hev⟩ := hall v hv
  obtain ⟨hslot, hval⟩ := vertListAt_some Cell IsoLevel _ e v hev
  exact ⟨e, he, hslot, hev, hval⟩

/-- C33 witness: configuration 1 (only corner 0 below the iso level) lists the edges 0, 8, 3,
and bit 8 of `edgeTable[1] = 0x109` is set. -/
theorem C33_no_unassigned_slot_emitted_witness :
    (triTable.getD 1 []).takeWhile (fun e => decide (e ≠ -1)) = [0, 8, 3] ∧
      edgeTable.getD 1 0 = 265 ∧ slotAssigned (edgeTable.getD 1 0) 8 = true :=
  ⟨by decide!, by decide!, C33_no_unassigned_slot_emitted.1 ⟨1, by decide⟩ 8 (by decide!)⟩

/-- C37: every store reachable from the empty store by `SetVoxel`, `SetVoxelFull`,
`ReplaceVoxelType`, `FillVoxelRegion`, `ClearVoxelRegion`, `RemoveVoxel`,
`SetVoxelMaterial`, `SetVoxelHardness`, `UVoxel::SetDensityField`,
`UVoxel::UpdateDensityField` and `DuplicateVoxel` has `Density > 0` exactly for its Solid
records, and each of these calls keeps that property from any store that has it;
`SetVoxelDensity` leaves every key and type as it was, and on the reachable store holding
one Solid record at the origin `SetVoxelDensity((0,0,0), -1)` leaves a Solid record of
density `-1`. -/
theorem C37_density_matches_type_unless_set_density :
    (∀ s : UVoxel, StoreReachable s → storeInvariant s) ∧
    (∀ s s1 : UVoxel, storeInvariant s → StoreStep s s1 → storeInvariant s1) ∧
    (∀ (s : UVoxel) (p : FVector) (d : ℚ),
      ((s.SetVoxelDensity p d).VoxelMap.map fun e => (e.1, e.2.Type_)) =
        s.VoxelMap.map fun e => (e.1, e.2.Type_)) ∧
    (StoreReachable oneSolidStore ∧
      (oneSolidStore.SetVoxelDensity ⟨0, 0, 0⟩ (-1)).VoxelMap =
        [(⟨0, 0, 0⟩, ⟨EVoxelType.VT_Solid, 0, 1, [], -1⟩)] ∧
      ¬ storeInvariant (oneSolidStore.SetVoxelDensity ⟨0, 0, 0⟩ (-1))) := by
  refine ⟨storeInvariant_of_reachable, storeInvariant_step, ?_, ?_, ?_, ?_⟩
  · intro s p d
    unfold UVoxel.SetVoxelDensity
    split
    · dsimp only
      unfold TMap.Modify
      rw [List.map_map]
      apply List.map_congr_left
      intro e _
      by_cases h : e.1 = p <;> simp [h]
    · rfl
  · exact .step _ _ (.empty _) (.setVoxel _ _ _)
  · decide!
  · intro h
    have hrec := h (⟨0, 0, 0⟩, ⟨EVoxelType.VT_Solid, 0, 1, [], -1⟩)
      (by
        have hm : (oneSolidStore.SetVoxelDensity ⟨0, 0, 0⟩ (-1)).VoxelMap =
            [(⟨0, 0, 0⟩, ⟨EVoxelType.VT_Solid, 0, 1, [], -1⟩)] := by decide!
        rw [hm]
        exact List.mem_singleton.mpr rfl)
    unfold densityMatchesSolid at hrec
    have : ((-1 : ℚ) > 0) := hrec.mpr rfl
    norm_num at this

/-- C37 witness: the store built by `SetVoxel((0,0,0), Solid)`, two calls of
`UpdateDensityField` and `ReplaceVoxelType(Empty, Water)` holds a Solid record of density 3
and a Water record of density -1, and satisfies the invariant. -/
theorem C37_density_matches_type_unless_set_density_witness :
    StoreReachable mixedStore ∧
      mixedStore.VoxelMap =
        [(⟨1, 0, 0⟩, ⟨EVoxelType.VT_Water, 0, 1, [], -1⟩),
         (⟨0, 0, 0⟩, ⟨EVoxelType.VT_Solid, 0, 1, [], 3⟩)] ∧
      storeInvariant mixedStore :=
  ⟨reachable_mixedStore, by decide!,
    C37_density_matches_type_unless_set_density.1 mixedStore reachable_mixedStore⟩

end VoxelWorld
